import Mathlib

/-!
Frame pacing and stereo compositing engine.

A shallow embedding of `src/tf2vr/OpenXRDirectMode.cpp` (class `OpenXRDirectMode`).

* The members of the class are the fields of the structure `OpenXRDirectMode`, under their
  source names.  A member function becomes a function from the engine state to a result and
  the next engine state.
* The compositor (OpenXR) and the graphics device (Vulkan) are outside the program.  Every
  call to them is appended to the ghost field `calls` (newest first) and its outcome is read
  from a `Runtime`, which maps the history of calls made so far (the current call at the
  head) to the reply.  A theorem quantified over every `Runtime` therefore holds for every
  behaviour of the compositor and the device, including replies that depend on earlier calls.
* Unsigned 32-bit values are natural numbers, reduced modulo `2 ^ 32` where the source
  computes with them or narrows a wider value.  Handles are natural numbers, `0` the null
  handle.  Poses and fields of view are only ever copied, so they are opaque tokens.
* An out-of-range `operator[]` read, undefined in the source, reads a zero-initialised
  element, and an out-of-range write is dropped.  No counterexample below takes such a path.
* A wait on the condition variable is a guarded step: the function has no result when the
  predicate of the wait is false.
* `Logger` output is not modelled.
-/

namespace TF2VR

/-! ## Constants of the OpenXR and Vulkan headers -/

/-- Macro `XR_FAILED(result)` of openxr.h: a result code is a failure when it is negative. -/
def XR_FAILED (result : Int) : Bool := decide (result < 0)

/-- Macro `XR_SUCCEEDED(result)` of openxr.h: a result code is a success when it is not negative. -/
def XR_SUCCEEDED (result : Int) : Bool := decide (0 ≤ result)

/-- Constant `VK_SUCCESS` of vulkan.h. -/
def VK_SUCCESS : Int := 0

/-- Constant `VK_FORMAT_R8G8B8A8_UNORM` of vulkan.h. -/
def VK_FORMAT_R8G8B8A8_UNORM : Int := 37
/-- Constant `VK_FORMAT_R8G8B8A8_SRGB` of vulkan.h. -/
def VK_FORMAT_R8G8B8A8_SRGB : Int := 43
/-- Constant `VK_FORMAT_B8G8R8A8_UNORM` of vulkan.h. -/
def VK_FORMAT_B8G8R8A8_UNORM : Int := 44
/-- Constant `VK_FORMAT_B8G8R8A8_SRGB` of vulkan.h ("Format 50" in the source comments). -/
def VK_FORMAT_B8G8R8A8_SRGB : Int := 50

/-- Constant `VK_IMAGE_LAYOUT_UNDEFINED` of vulkan.h. -/
def VK_IMAGE_LAYOUT_UNDEFINED : Nat := 0
/-- Constant `VK_IMAGE_LAYOUT_COLOR_ATTACHMENT_OPTIMAL` of vulkan.h. -/
def VK_IMAGE_LAYOUT_COLOR_ATTACHMENT_OPTIMAL : Nat := 2
/-- Constant `VK_IMAGE_LAYOUT_SHADER_READ_ONLY_OPTIMAL` of vulkan.h. -/
def VK_IMAGE_LAYOUT_SHADER_READ_ONLY_OPTIMAL : Nat := 5
/-- Constant `VK_IMAGE_LAYOUT_TRANSFER_DST_OPTIMAL` of vulkan.h. -/
def VK_IMAGE_LAYOUT_TRANSFER_DST_OPTIMAL : Nat := 7

/-- Constant `XR_VIEW_CONFIGURATION_TYPE_PRIMARY_STEREO` of openxr.h. -/
def XR_VIEW_CONFIGURATION_TYPE_PRIMARY_STEREO : Nat := 2

/-- Constant `XR_VIEW_STATE_ORIENTATION_VALID_BIT` of openxr.h. -/
def XR_VIEW_STATE_ORIENTATION_VALID_BIT : Nat := 1
/-- Constant `XR_VIEW_STATE_POSITION_VALID_BIT` of openxr.h. -/
def XR_VIEW_STATE_POSITION_VALID_BIT : Nat := 2

/-! ## Machine integers and vectors -/

/-- Value of a `uint32_t` holding `n`. -/
def u32 (n : Nat) : Nat := n % 2 ^ 32

/-- Conversion of a `uint32_t` to `int32_t` (two's complement). -/
def toInt32 (n : Nat) : Int :=
  if n % 2 ^ 32 < 2 ^ 31 then ((n % 2 ^ 32 : Nat) : Int) else ((n % 2 ^ 32 : Nat) : Int) - 2 ^ 32

/-- Model of `std::vector::resize(n)`: keep the first `n` elements, pad with value-initialised ones. -/
def resize {α : Type} [Inhabited α] (v : List α) (n : Nat) : List α :=
  v.take n ++ List.replicate (n - v.length) default

/-- A callee filling the caller's buffer `buf` through a pointer: it writes the elements of
`written`, never more than the buffer holds; the rest of the buffer keeps its contents. -/
def fillBuffer {α : Type} (buf written : List α) : List α :=
  written.take buf.length ++ buf.drop written.length

/-! ## Data model -/

/-- Structure `XrFrameState`: the timing captured by `xrWaitFrame`. -/
structure XrFrameState where
  predictedDisplayTime : Int
  predictedDisplayPeriod : Int
  shouldRender : Bool
deriving DecidableEq, Repr, Inhabited

/-- Structure `XrView`: pose and field of view of one eye (opaque, only copied). -/
structure XrView where
  pose : Nat
  fov : Nat
deriving DecidableEq, Repr, Inhabited

/-- Structure `XrViewConfigurationView`: the fields the engine reads. -/
structure XrViewConfigurationView where
  recommendedImageRectWidth : Nat
  recommendedImageRectHeight : Nat
deriving DecidableEq, Repr, Inhabited

/-- Structure `XrCompositionLayerProjectionView`: pose, field of view and target sub-image. -/
structure XrCompositionLayerProjectionView where
  pose : Nat
  fov : Nat
  swapchain : Nat
  offsetX : Int
  offsetY : Int
  extentWidth : Int
  extentHeight : Int
deriving DecidableEq, Repr, Inhabited

/-- Structure `SharedTextureData` (OpenXRDirectMode.h). -/
structure SharedTextureData where
  sourceImage : Nat
  currentLayout : Nat
  width : Nat
  height : Nat
  format : Int
deriving DecidableEq, Repr, Inhabited

/-- Structure `VulkanTextureData` (HMDInterface.h); `vkInstance` is the member `instance`. -/
structure VulkanTextureData where
  vkInstance : Nat
  device : Nat
  image : Nat
  format : Int
  sampleCount : Nat
  width : Nat
  height : Nat
  physicalDevice : Nat
  queue : Nat
  queueFamilyIndex : Nat
deriving DecidableEq, Repr, Inhabited

/-- Structure `OpenXRDirectMode::SwapchainInfo`; an image is its `VkImage` handle. -/
structure SwapchainInfo where
  handle : Nat
  images : List Nat
  width : Nat
  height : Nat
  format : Int
deriving DecidableEq, Repr, Inhabited

/-- A call that leaves the program, with the arguments the engine passes. -/
inductive Call where
  | xrEnumerateSwapchainFormats (session capacity : Nat)
  | xrEnumerateViewConfigurations (inst systemId capacity : Nat)
  | xrEnumerateViewConfigurationViews (inst systemId viewConfigurationType capacity : Nat)
  | xrCreateSwapchain (session : Nat) (format : Int) (width height : Nat)
  | xrEnumerateSwapchainImages (swapchain capacity : Nat)
  | xrAcquireSwapchainImage (swapchain : Nat)
  | xrWaitSwapchainImage (swapchain : Nat) (timeout : Int)
  | xrReleaseSwapchainImage (swapchain : Nat)
  | xrWaitFrame (session : Nat)
  | xrBeginFrame (session : Nat)
  | xrLocateViews (session : Nat) (displayTime : Int) (space capacity : Nat)
  | xrEndFrame (session : Nat) (displayTime : Int) (layerCount space viewCount : Nat)
      (views : List XrCompositionLayerProjectionView)
  | vkCreateCommandPool (device queueFamilyIndex : Nat)
  | vkAllocateCommandBuffers (device commandPool : Nat)
  | vkBeginCommandBuffer (commandBuffer : Nat)
  | vkCmdPipelineBarrier (commandBuffer image oldLayout newLayout : Nat)
  | vkCmdCopyImage (commandBuffer srcImage srcLayout dstImage : Nat) (srcOffsetX : Int)
      (extentWidth extentHeight : Nat)
  | vkEndCommandBuffer (commandBuffer : Nat)
  | vkQueueSubmit (queue commandBuffer : Nat)
  | vkQueueWaitIdle (queue : Nat)
  | vkFreeCommandBuffers (device commandPool commandBuffer : Nat)
  | vkDestroyCommandPool (device commandPool : Nat)
  | notify_one
deriving DecidableEq, Repr

/-- Reply of a two-call enumeration: result code, count output, elements written. -/
structure EnumReply (α : Type) where
  result : Int
  countOutput : Nat
  items : List α

/-- Reply of a call with one output value (a handle or an index). -/
structure ValueReply where
  result : Int
  value : Nat

/-- Reply of `xrWaitFrame`: result code and the frame state left in the out-parameter. -/
structure WaitFrameReply where
  result : Int
  frameState : XrFrameState

/-- Reply of `xrLocateViews`: result code, view state flags, count output, views written. -/
structure LocateViewsReply where
  result : Int
  viewStateFlags : Nat
  countOutput : Nat
  views : List XrView

/-- The compositor and the graphics device: each function maps the calls made so far, the
current one at the head, to the reply of the current call. -/
structure Runtime where
  xrEnumerateSwapchainFormats : List Call → EnumReply Int
  xrEnumerateViewConfigurations : List Call → EnumReply Nat
  xrEnumerateViewConfigurationViews : List Call → EnumReply XrViewConfigurationView
  xrCreateSwapchain : List Call → ValueReply
  xrEnumerateSwapchainImages : List Call → EnumReply Nat
  xrAcquireSwapchainImage : List Call → ValueReply
  xrWaitSwapchainImage : List Call → Int
  xrReleaseSwapchainImage : List Call → Int
  xrWaitFrame : List Call → WaitFrameReply
  xrBeginFrame : List Call → Int
  xrLocateViews : List Call → LocateViewsReply
  xrEndFrame : List Call → Int
  vkCreateCommandPool : List Call → ValueReply
  vkAllocateCommandBuffers : List Call → ValueReply
  vkBeginCommandBuffer : List Call → Int
  vkEndCommandBuffer : List Call → Int
  vkQueueSubmit : List Call → Int

/-- The engine: the data members of class `OpenXRDirectMode`, the global
`g_pVkSubmitThreadCallback` (true when it points to this engine), and the ghost list of the
external calls issued so far (newest first). -/
structure OpenXRDirectMode where
  m_nRenderWidth : Nat
  m_nRenderHeight : Nat
  m_instance : Nat
  m_session : Nat
  m_space : Nat
  m_swapchain : Nat
  m_systemId : Nat
  m_viewState : Nat
  m_bFrameStarted : Bool
  m_bPosesStale : Bool
  m_frameCounter : Nat
  m_vkInstance : Nat
  m_vkPhysicalDevice : Nat
  m_vkDevice : Nat
  m_vkQueue : Nat
  m_vkQueueFamilyIndex : Nat
  m_currentCommandPool : Nat
  m_sharedTextures : List SharedTextureData
  m_frameState : XrFrameState
  m_views : List XrView
  m_projectionViews : List XrCompositionLayerProjectionView
  m_eyeSwapchains : List SwapchainInfo
  m_needManualGammaCorrection : Bool
  m_forceLinearFormats : Bool
  g_pVkSubmitThreadCallback : Bool
  calls : List Call
deriving DecidableEq, Repr

namespace OpenXRDirectMode

/-- Record an external call. -/
def call (s : OpenXRDirectMode) (c : Call) : OpenXRDirectMode :=
  { s with calls := c :: s.calls }

/-- The constructor `OpenXRDirectMode::OpenXRDirectMode()` with the default member
initialisers of the header.  `m_systemId` and `m_viewState` are left indeterminate by the
source and are parameters here. -/
def new (systemId viewStateFlags : Nat) : OpenXRDirectMode :=
  { m_nRenderWidth := 1440
    m_nRenderHeight := 1600
    m_instance := 0
    m_session := 0
    m_space := 0
    m_swapchain := 0
    m_systemId := systemId
    m_viewState := viewStateFlags
    m_bFrameStarted := false
    m_bPosesStale := true
    m_frameCounter := 0
    m_vkInstance := 0
    m_vkPhysicalDevice := 0
    m_vkDevice := 0
    m_vkQueue := 0
    m_vkQueueFamilyIndex := 0
    m_currentCommandPool := 0
    m_sharedTextures := []
    m_frameState := { predictedDisplayTime := 0, predictedDisplayPeriod := 0, shouldRender := false }
    m_views := []
    m_projectionViews := []
    m_eyeSwapchains := []
    m_needManualGammaCorrection := false
    m_forceLinearFormats := true
    g_pVkSubmitThreadCallback := false
    calls := [] }

/-! ## Pose/View Provider -/

/-- Member function `OpenXRDirectMode::WaitPoses` (lines 978-1037). -/
def WaitPoses (w : Runtime) (s : OpenXRDirectMode) : Bool × OpenXRDirectMode :=
  -- Check if we already have a frame in progress
  if s.m_bFrameStarted then (true, s)
  else
    -- m_frameState = {}; xrWaitFrame(m_session, &frameWaitInfo, &m_frameState)
    let s1 := s.call (Call.xrWaitFrame s.m_session)
    let rw := w.xrWaitFrame s1.calls
    let s2 := { s1 with m_frameState := rw.frameState }
    if XR_FAILED rw.result then (false, s2)
    else
      let s3 := s2.call (Call.xrBeginFrame s2.m_session)
      let rb := w.xrBeginFrame s3.calls
      if XR_FAILED rb then (false, s3)
      else
        -- m_viewState = {}
        let s4 := { s3 with m_viewState := 0 }
        -- line 1022: tests the result of xrBeginFrame again, before xrLocateViews is called
        if XR_FAILED rb then (false, { s4 with m_bFrameStarted := false })
        else
          let viewCount := u32 s4.m_views.length
          let s5 := s4.call
            (Call.xrLocateViews s4.m_session s4.m_frameState.predictedDisplayTime s4.m_space viewCount)
          -- the result of xrLocateViews is stored and not read
          let rl := w.xrLocateViews s5.calls
          let s6 := { s5 with
            m_viewState := rl.viewStateFlags
            m_views := fillBuffer s5.m_views (rl.views.take viewCount) }
          (true, { s6 with
            m_frameCounter := u32 (s6.m_frameCounter + 1)
            m_bFrameStarted := true })

/-! ## Frame Pacer -/

/-- Member function `OpenXRDirectMode::PrePresent` (lines 315-327). -/
def PrePresent (s : OpenXRDirectMode) : OpenXRDirectMode :=
  if s.m_session = 0 then s
  else { s with m_bPosesStale := true }

/-- Member function `OpenXRDirectMode::PostPresent` (lines 329-339). -/
def PostPresent (s : OpenXRDirectMode) : OpenXRDirectMode :=
  if s.m_session = 0 then s else s

/-- Member function `OpenXRDirectMode::PostPresentCallback` (lines 297-313). -/
def PostPresentCallback (w : Runtime) (s : OpenXRDirectMode) : OpenXRDirectMode :=
  if s.m_session = 0 then s
  else if s.m_bPosesStale then
    -- WaitPoses(); its result is discarded
    let s1 := (WaitPoses w s).2
    let s2 := { s1 with m_bPosesStale := false }
    s2.call Call.notify_one
  else s

/-- Member function `OpenXRDirectMode::BeginFrame` (lines 347-360).  No result while
`m_cv.wait` blocks. -/
def BeginFrame (s : OpenXRDirectMode) : Option (Bool × OpenXRDirectMode) :=
  if s.m_session = 0 then some (false, s)
  else if s.m_bPosesStale then none
  else some (true, s)

/-- Member function `OpenXRDirectMode::GetViews` (lines 967-976): the views and the view
count handed back, and the next state.  No result while `m_cv.wait` blocks. -/
def GetViews (s : OpenXRDirectMode) : Option ((List XrView × Nat) × OpenXRDirectMode) :=
  if s.m_bPosesStale then none
  else
    let s1 := { s with m_bPosesStale := true }
    some ((s1.m_views, u32 s1.m_views.length), s1)

/-! ## Texture Ingest -/

/-- Member function `OpenXRDirectMode::StoreSharedTexture` (lines 489-538).  `none` is the
null pointer.  The four first-write-wins assignments of lines 495-515 each test and write
members of their own, so they are written as one update. -/
def StoreSharedTexture (s : OpenXRDirectMode) (index : Int)
    (vulkanData : Option VulkanTextureData) : OpenXRDirectMode :=
  match vulkanData with
  | none => s
  | some d =>
    if index < 0 then s
    else
      -- Store Vulkan device and queue information if not already set
      let s4 := { s with
        m_vkDevice := if s.m_vkDevice = 0 ∧ d.device ≠ 0 then d.device else s.m_vkDevice
        m_vkInstance :=
          if s.m_vkInstance = 0 ∧ d.vkInstance ≠ 0 then d.vkInstance else s.m_vkInstance
        m_vkPhysicalDevice :=
          if s.m_vkPhysicalDevice = 0 ∧ d.physicalDevice ≠ 0 then d.physicalDevice
          else s.m_vkPhysicalDevice
        m_vkQueue := if s.m_vkQueue = 0 ∧ d.queue ≠ 0 then d.queue else s.m_vkQueue
        m_vkQueueFamilyIndex :=
          if s.m_vkQueue = 0 ∧ d.queue ≠ 0 then d.queueFamilyIndex else s.m_vkQueueFamilyIndex }
      -- Check if this texture is large enough to be an eye texture
      if s4.m_nRenderWidth ≤ d.width ∧ s4.m_nRenderHeight ≤ d.height then
        let sharedTexture : SharedTextureData :=
          { sourceImage := d.image
            currentLayout := VK_IMAGE_LAYOUT_SHADER_READ_ONLY_OPTIMAL
            width := d.width
            height := d.height
            format := d.format }
        let i := index.toNat
        let v := if s4.m_sharedTextures.length ≤ i
          then resize s4.m_sharedTextures (i + 1) else s4.m_sharedTextures
        { s4 with m_sharedTextures := v.set i sharedTexture }
      else s4

/-! ## Surface Provisioner -/

/-- The per-view loop of `CreateEyeSwapchains` (lines 656-707): `n` iterations are left and
`i` is the loop index. -/
def CreateEyeSwapchains_loop (w : Runtime) (swapchainWidth swapchainHeight : Nat)
    (targetFormat : Int) : Nat → Nat → OpenXRDirectMode → Bool × OpenXRDirectMode
  | 0, _, s => (true, s)
  | n + 1, i, s =>
    -- swapchainInfo = m_eyeSwapchains[i]
    let s1 := { s with m_eyeSwapchains := (List.modify
      (fun sc => { sc with width := swapchainWidth, height := swapchainHeight, format := targetFormat })
      i s.m_eyeSwapchains) }
    let s2 := s1.call (Call.xrCreateSwapchain s1.m_session targetFormat swapchainWidth swapchainHeight)
    let rc := w.xrCreateSwapchain s2.calls
    if XR_FAILED rc.result then (false, s2)
    else
      -- the handle is written through &swapchainInfo.handle
      let s3 := { s2 with m_eyeSwapchains := (List.modify
        (fun sc => { sc with handle := rc.value }) i s2.m_eyeSwapchains) }
      let handle := (s3.m_eyeSwapchains.getD i default).handle
      let s4 := s3.call (Call.xrEnumerateSwapchainImages handle 0)
      let r1 := w.xrEnumerateSwapchainImages s4.calls
      if XR_FAILED r1.result then (false, s4)
      else
        let imageCount1 := u32 r1.countOutput
        let s5 := s4.call (Call.xrEnumerateSwapchainImages handle imageCount1)
        let r2 := w.xrEnumerateSwapchainImages s5.calls
        if XR_FAILED r2.result then (false, s5)
        else
          let swapchainImages := fillBuffer (List.replicate imageCount1 0) r2.items
          let imageCount := u32 r2.countOutput
          let images := (List.range imageCount).map (fun j => swapchainImages.getD j 0)
          let s6 := { s5 with m_eyeSwapchains := (List.modify
            (fun sc => { sc with images := images }) i s5.m_eyeSwapchains) }
          CreateEyeSwapchains_loop w swapchainWidth swapchainHeight targetFormat n (i + 1) s6

/-- The swapchain size chosen by `CreateEyeSwapchains` (lines 569-592). -/
def CreateEyeSwapchains_size (sharedTextures : List SharedTextureData) (viewCount : Nat)
    (configViews : List XrViewConfigurationView) : Nat × Nat :=
  let recommended : Nat × Nat :=
    (u32 (configViews.getD 0 default).recommendedImageRectWidth,
     u32 (configViews.getD 0 default).recommendedImageRectHeight)
  if !sharedTextures.isEmpty then
    if sharedTextures.length = 1 ∧ viewCount = 2 then
      -- Single texture for both eyes - each eye gets half the width
      ((sharedTextures.getD 0 default).width / 2, (sharedTextures.getD 0 default).height)
    else if viewCount ≤ sharedTextures.length then
      -- Separate texture for each eye
      ((sharedTextures.getD 0 default).width, (sharedTextures.getD 0 default).height)
    else recommended
  else recommended

/-- Member function `OpenXRDirectMode::CreateEyeSwapchains` (lines 540-710). -/
def CreateEyeSwapchains (w : Runtime) (s : OpenXRDirectMode) : Bool × OpenXRDirectMode :=
  let s1 := s.call (Call.xrEnumerateViewConfigurationViews s.m_instance s.m_systemId
    XR_VIEW_CONFIGURATION_TYPE_PRIMARY_STEREO 0)
  let r1 := w.xrEnumerateViewConfigurationViews s1.calls
  if XR_FAILED r1.result then (false, s1)
  else
    let viewCount1 := u32 r1.countOutput
    let s2 := s1.call (Call.xrEnumerateViewConfigurationViews s1.m_instance s1.m_systemId
      XR_VIEW_CONFIGURATION_TYPE_PRIMARY_STEREO viewCount1)
    let r2 := w.xrEnumerateViewConfigurationViews s2.calls
    if XR_FAILED r2.result then (false, s2)
    else
      let configViews := fillBuffer (List.replicate viewCount1 default) r2.items
      -- the second call writes viewCount again
      let viewCount := u32 r2.countOutput
      let size := CreateEyeSwapchains_size s2.m_sharedTextures viewCount configViews
      let targetFormat := VK_FORMAT_B8G8R8A8_SRGB
      -- For completeness, enumerate formats
      let s3 := s2.call (Call.xrEnumerateSwapchainFormats s2.m_session 0)
      let r3 := w.xrEnumerateSwapchainFormats s3.calls
      if XR_FAILED r3.result then (false, s3)
      else
        let formatCount := u32 r3.countOutput
        let s4 := s3.call (Call.xrEnumerateSwapchainFormats s3.m_session formatCount)
        let r4 := w.xrEnumerateSwapchainFormats s4.calls
        if XR_FAILED r4.result then (false, s4)
        else
          let s5 := { s4 with
            m_needManualGammaCorrection := false
            m_eyeSwapchains := resize s4.m_eyeSwapchains viewCount
            m_views := resize s4.m_views viewCount
            m_projectionViews := resize s4.m_projectionViews viewCount }
          CreateEyeSwapchains_loop w size.1 size.2 targetFormat viewCount 0 s5

/-! ## Image Transfer Engine -/

/-- Member function `OpenXRDirectMode::beginSingleTimeCommands` (lines 881-929). -/
def beginSingleTimeCommands (w : Runtime) (s : OpenXRDirectMode) : Nat × OpenXRDirectMode :=
  let s1 := s.call (Call.vkCreateCommandPool s.m_vkDevice s.m_vkQueueFamilyIndex)
  let rp := w.vkCreateCommandPool s1.calls
  if rp.result ≠ VK_SUCCESS then (0, s1)
  else
    let commandPool := rp.value
    let s2 := { s1 with m_currentCommandPool := commandPool }
    let s3 := s2.call (Call.vkAllocateCommandBuffers s2.m_vkDevice commandPool)
    let ra := w.vkAllocateCommandBuffers s3.calls
    if ra.result ≠ VK_SUCCESS then
      let s4 := s3.call (Call.vkDestroyCommandPool s3.m_vkDevice commandPool)
      (0, { s4 with m_currentCommandPool := 0 })
    else
      let commandBuffer := ra.value
      let s5 := s3.call (Call.vkBeginCommandBuffer commandBuffer)
      let rb := w.vkBeginCommandBuffer s5.calls
      if rb ≠ VK_SUCCESS then
        let s6 := s5.call (Call.vkFreeCommandBuffers s5.m_vkDevice commandPool commandBuffer)
        let s7 := s6.call (Call.vkDestroyCommandPool s6.m_vkDevice commandPool)
        (0, { s7 with m_currentCommandPool := 0 })
      else (commandBuffer, s5)

/-- Member function `OpenXRDirectMode::endSingleTimeCommands` (lines 931-965); it returns `void`. -/
def endSingleTimeCommands (w : Runtime) (s : OpenXRDirectMode) (commandBuffer : Nat) :
    OpenXRDirectMode :=
  if commandBuffer = 0 ∨ s.m_currentCommandPool = 0 then s
  else
    let s1 := s.call (Call.vkEndCommandBuffer commandBuffer)
    let re := w.vkEndCommandBuffer s1.calls
    if re ≠ VK_SUCCESS then
      let s2 := s1.call (Call.vkFreeCommandBuffers s1.m_vkDevice s1.m_currentCommandPool commandBuffer)
      let s3 := s2.call (Call.vkDestroyCommandPool s2.m_vkDevice s2.m_currentCommandPool)
      { s3 with m_currentCommandPool := 0 }
    else
      let s2 := s1.call (Call.vkQueueSubmit s1.m_vkQueue commandBuffer)
      let rs := w.vkQueueSubmit s2.calls
      let s3 := if rs ≠ VK_SUCCESS then s2 else s2.call (Call.vkQueueWaitIdle s2.m_vkQueue)
      let s4 := s3.call (Call.vkFreeCommandBuffers s3.m_vkDevice s3.m_currentCommandPool commandBuffer)
      let s5 := s4.call (Call.vkDestroyCommandPool s4.m_vkDevice s4.m_currentCommandPool)
      { s5 with m_currentCommandPool := 0 }

/-- The copy region of one eye (lines 752-789): source x-offset, extent width and extent
height, from the number of source textures, the source texture, the eye index and the
surface width. -/
def CopyToSwapchains_region (textureCount : Nat) (srcData : SharedTextureData)
    (eyeIndex swapchainWidth : Nat) : Int × Nat × Nat :=
  if textureCount = 1 ∧ u32 (swapchainWidth * 2) ≤ srcData.width then
    -- Extract just this eye's portion of the texture
    (toInt32 (u32 (eyeIndex * swapchainWidth)), swapchainWidth, srcData.height)
  else ((0 : Int), srcData.width, srcData.height)

/-- The per-eye loop of `CopyToSwapchains` (lines 728-870): `n` iterations are left and
`eyeIndex` is the loop index. -/
def CopyToSwapchains_loop (w : Runtime) : Nat → Nat → OpenXRDirectMode → Bool × OpenXRDirectMode
  | 0, _, s => (true, s)
  | n + 1, eyeIndex, s =>
    let swapchainInfo := s.m_eyeSwapchains.getD eyeIndex default
    let s1 := s.call (Call.xrAcquireSwapchainImage swapchainInfo.handle)
    let ra := w.xrAcquireSwapchainImage s1.calls
    if XR_FAILED ra.result then (false, s1)
    else
      let swapchainImageIndex := u32 ra.value
      let s2 := s1.call (Call.xrWaitSwapchainImage swapchainInfo.handle 1000000000)
      let rw := w.xrWaitSwapchainImage s2.calls
      if XR_FAILED rw then (false, s2)
      else
        let dstImage := swapchainInfo.images.getD swapchainImageIndex 0
        -- Determine which shared texture to use
        let sharedTextureIndex := if s2.m_sharedTextures.length = 1 then 0 else eyeIndex
        if s2.m_sharedTextures.length ≤ sharedTextureIndex then (false, s2)
        else
          let srcData := s2.m_sharedTextures.getD sharedTextureIndex default
          let region := CopyToSwapchains_region s2.m_sharedTextures.length srcData eyeIndex
            swapchainInfo.width
          let prevSrcLayout := srcData.currentLayout
          let b := beginSingleTimeCommands w s2
          let cmdBuffer := b.1
          if cmdBuffer = 0 then (false, b.2)
          else
            let s4 := b.2.call (Call.vkCmdPipelineBarrier cmdBuffer dstImage
              VK_IMAGE_LAYOUT_UNDEFINED VK_IMAGE_LAYOUT_TRANSFER_DST_OPTIMAL)
            let s5 := s4.call (Call.vkCmdCopyImage cmdBuffer srcData.sourceImage prevSrcLayout
              dstImage region.1 region.2.1 region.2.2)
            let s6 := s5.call (Call.vkCmdPipelineBarrier cmdBuffer dstImage
              VK_IMAGE_LAYOUT_TRANSFER_DST_OPTIMAL VK_IMAGE_LAYOUT_COLOR_ATTACHMENT_OPTIMAL)
            -- End command buffer and submit
            let s7 := endSingleTimeCommands w s6 cmdBuffer
            -- Release the swapchain image
            let s8 := s7.call (Call.xrReleaseSwapchainImage swapchainInfo.handle)
            let rr := w.xrReleaseSwapchainImage s8.calls
            if XR_FAILED rr then (false, s8)
            else
              -- Setup projection view for this eye
              let view := s8.m_views.getD eyeIndex default
              let s9 := { s8 with m_projectionViews := (List.modify
                (fun pv => { pv with
                  pose := view.pose
                  fov := view.fov
                  swapchain := swapchainInfo.handle
                  offsetX := 0
                  offsetY := 0
                  extentWidth := toInt32 swapchainInfo.width
                  extentHeight := toInt32 swapchainInfo.height })
                eyeIndex s8.m_projectionViews) }
              CopyToSwapchains_loop w n (eyeIndex + 1) s9

/-- Member function `OpenXRDirectMode::CopyToSwapchains` (lines 712-873). -/
def CopyToSwapchains (w : Runtime) (s : OpenXRDirectMode) : Bool × OpenXRDirectMode :=
  if s.m_sharedTextures.isEmpty ∨ s.m_eyeSwapchains.isEmpty then (false, s)
  else if !s.m_bFrameStarted then (false, s)
  else CopyToSwapchains_loop w s.m_eyeSwapchains.length 0 s

/-! ## Submission -/

/-- The loop of `EndFrame` that builds the projection views (lines 413-423): `n` iterations
are left and `i` is the loop index. -/
def EndFrame_buildProjectionViews : Nat → Nat → OpenXRDirectMode → OpenXRDirectMode
  | 0, _, s => s
  | n + 1, i, s =>
    let swapchain := s.m_eyeSwapchains.getD i default
    let view := s.m_views.getD i default
    let s1 := { s with m_projectionViews := (List.modify
      (fun pv => { pv with
        pose := view.pose
        fov := view.fov
        swapchain := swapchain.handle
        offsetX := 0
        offsetY := 0
        extentWidth := toInt32 swapchain.width
        extentHeight := toInt32 swapchain.height })
      i s.m_projectionViews) }
    EndFrame_buildProjectionViews n (i + 1) s1

/-- The start of the submission part of `EndFrame` (lines 397-404): default views are
created when the view array is empty. -/
def EndFrame_ensureViews (s2 : OpenXRDirectMode) : OpenXRDirectMode :=
  -- Make sure we have valid views before attempting to end the frame
  if s2.m_views.isEmpty
  then { s2 with
    m_views := resize s2.m_views 2
    m_projectionViews := resize s2.m_projectionViews 2 }
  else s2

/-- The test `validViews` of `EndFrame` (lines 407-408). -/
def EndFrame_validViews (s3 : OpenXRDirectMode) : Bool :=
  decide ((s3.m_viewState &&& XR_VIEW_STATE_POSITION_VALID_BIT) ≠ 0) &&
  decide ((s3.m_viewState &&& XR_VIEW_STATE_ORIENTATION_VALID_BIT) ≠ 0)

/-- The projection views of `EndFrame` (lines 406-426): rebuilt when the views are valid. -/
def EndFrame_projection (s3 : OpenXRDirectMode) : OpenXRDirectMode :=
  if EndFrame_validViews s3
  then EndFrame_buildProjectionViews (min s3.m_views.length s3.m_eyeSwapchains.length) 0 s3
  else s3

/-- The submission part of `EndFrame` (lines 397-487), entered after provisioning and
transfer. -/
def EndFrame_submit (w : Runtime) (s2 : OpenXRDirectMode) : Bool × OpenXRDirectMode :=
  let s4 := EndFrame_projection (EndFrame_ensureViews s2)
  -- Only submit the layer if we have valid swapchains and views
  if !s4.m_projectionViews.isEmpty ∧ !s4.m_eyeSwapchains.isEmpty then
    let viewCount := if s4.m_eyeSwapchains.length < s4.m_projectionViews.length
      then u32 s4.m_eyeSwapchains.length else u32 s4.m_projectionViews.length
    let s5 := s4.call (Call.xrEndFrame s4.m_session s4.m_frameState.predictedDisplayTime 1
      s4.m_space viewCount s4.m_projectionViews)
    let result := w.xrEndFrame s5.calls
    (XR_SUCCEEDED result, { s5 with m_bFrameStarted := false })
  else
    -- End the frame with no layers
    let s5 := s4.call (Call.xrEndFrame s4.m_session s4.m_frameState.predictedDisplayTime 0
      0 0 [])
    let result := w.xrEndFrame s5.calls
    (XR_SUCCEEDED result, { s5 with m_bFrameStarted := false })

/-- Member function `OpenXRDirectMode::EndFrame` (lines 362-487); its last part is `EndFrame_submit`. -/
def EndFrame (w : Runtime) (s : OpenXRDirectMode) : Bool × OpenXRDirectMode :=
  if s.m_session = 0 then (false, s)
  -- Check if we've actually started a frame
  else if !s.m_bFrameStarted then (false, s)
  else
    -- If we have shared textures but no swapchains yet, create them
    let c := if s.m_eyeSwapchains.isEmpty ∧ !s.m_sharedTextures.isEmpty
      then CreateEyeSwapchains w s else (true, s)
    if !c.1 then (false, { c.2 with m_bFrameStarted := false })
    else
      let s1 := c.2
      let t := if !s1.m_eyeSwapchains.isEmpty then CopyToSwapchains w s1 else (true, s1)
      if !t.1 then (false, { t.2 with m_bFrameStarted := false })
      else EndFrame_submit w t.2

/-- Member function `OpenXRDirectMode::PrePresentCallBack` (lines 287-295). -/
def PrePresentCallBack (w : Runtime) (s : OpenXRDirectMode) : OpenXRDirectMode :=
  if s.m_session = 0 then s else (EndFrame w s).2

/-- Member function `OpenXRDirectMode::GetPredictedDisplayTime` (lines 875-878). -/
def GetPredictedDisplayTime (s : OpenXRDirectMode) : Int :=
  s.m_frameState.predictedDisplayTime

/-- Member function `OpenXRDirectMode::GetRecommendedRenderTargetSize` (lines 341-345), both pointers given. -/
def GetRecommendedRenderTargetSize (s : OpenXRDirectMode) : Nat × Nat :=
  (s.m_nRenderWidth, s.m_nRenderHeight)

/-! ## Format Negotiator and session initialisation -/

/-- The format negotiation of `Init` (lines 155-208) on the enumerated `formats`: the final
value of the local `selectedFormat` and of `m_needManualGammaCorrection`. -/
def Init_selectFormat (formats : List Int) (s : OpenXRDirectMode) : Int × Bool :=
  -- Default to first format
  let selectedFormat := formats.getD 0 0
  if !s.m_sharedTextures.isEmpty then
    let sourceFormat := (s.m_sharedTextures.getD 0 default).format
    -- First try exact match
    match formats.find? (fun format => format == sourceFormat) with
    | some format => (format, false)
    | none =>
      -- If no exact match, try to find BGRA_UNORM
      if sourceFormat = VK_FORMAT_B8G8R8A8_UNORM then
        -- Try to force the exact UNORM format even if not reported
        if s.m_forceLinearFormats then (VK_FORMAT_B8G8R8A8_UNORM, false)
        else
          -- Otherwise look for BGRA_SRGB
          match formats.find? (fun format => format == VK_FORMAT_B8G8R8A8_SRGB) with
          | some format => (format, true)
          | none =>
            -- If no BGRA format at all, fall back to first available format
            (formats.getD 0 0, true)
      else (selectedFormat, s.m_needManualGammaCorrection)
  else (selectedFormat, s.m_needManualGammaCorrection)

/-- The view-configuration part of `Init` (lines 214-280), entered after the format
negotiation. -/
def Init_viewConfiguration (w : Runtime) (s3 : OpenXRDirectMode) : Bool × OpenXRDirectMode :=
  -- Setup view configuration
  let s4 := s3.call (Call.xrEnumerateViewConfigurations s3.m_instance s3.m_systemId 0)
  let r4 := w.xrEnumerateViewConfigurations s4.calls
  if XR_FAILED r4.result then (false, s4)
  else
    let viewConfigTypeCount := u32 r4.countOutput
    let s5 := s4.call
      (Call.xrEnumerateViewConfigurations s4.m_instance s4.m_systemId viewConfigTypeCount)
    let r5 := w.xrEnumerateViewConfigurations s5.calls
    if XR_FAILED r5.result then (false, s5)
    else
      let viewConfigTypes := fillBuffer (List.replicate viewConfigTypeCount (0 : Nat)) r5.items
      -- Find stereo view configuration
      let foundStereoView :=
        viewConfigTypes.any (fun viewConfigType =>
          viewConfigType == XR_VIEW_CONFIGURATION_TYPE_PRIMARY_STEREO)
      if !foundStereoView then (false, s5)
      else
        -- Get the view configuration properties
        let s6 := s5.call (Call.xrEnumerateViewConfigurationViews s5.m_instance s5.m_systemId
          XR_VIEW_CONFIGURATION_TYPE_PRIMARY_STEREO 0)
        let r6 := w.xrEnumerateViewConfigurationViews s6.calls
        let viewCount := u32 r6.countOutput
        if XR_FAILED r6.result ∨ viewCount ≠ 2 then (false, s6)
        else
          let s7 := s6.call (Call.xrEnumerateViewConfigurationViews s6.m_instance
            s6.m_systemId XR_VIEW_CONFIGURATION_TYPE_PRIMARY_STEREO viewCount)
          let r7 := w.xrEnumerateViewConfigurationViews s7.calls
          if XR_FAILED r7.result then (false, s7)
          else
            let configViews := fillBuffer (List.replicate viewCount default) r7.items
            -- Use the recommended size for rendering
            let s8 := { s7 with
              m_nRenderWidth := u32 (configViews.getD 0 default).recommendedImageRectWidth
              m_nRenderHeight := u32 (configViews.getD 0 default).recommendedImageRectHeight
              g_pVkSubmitThreadCallback := true }
            (true, s8)

/-- Member function `OpenXRDirectMode::Init` (lines 122-280), together with the value its local
`selectedFormat` has after the format negotiation (`none` when `Init` returns before it).
The part after the negotiation is `Init_viewConfiguration`. -/
def InitAux (w : Runtime) (s : OpenXRDirectMode) (inst systemId session space : Nat) :
    (Bool × OpenXRDirectMode) × Option Int :=
  let s0 := { s with
    m_instance := inst
    m_session := session
    m_space := space
    m_systemId := systemId }
  -- Enumerate available swapchain formats
  let s1 := s0.call (Call.xrEnumerateSwapchainFormats s0.m_session 0)
  let r1 := w.xrEnumerateSwapchainFormats s1.calls
  if XR_FAILED r1.result then ((false, s1), none)
  else
    let formatCount := u32 r1.countOutput
    let s2 := s1.call (Call.xrEnumerateSwapchainFormats s1.m_session formatCount)
    let r2 := w.xrEnumerateSwapchainFormats s2.calls
    if XR_FAILED r2.result then ((false, s2), none)
    else
      let formats := fillBuffer (List.replicate formatCount (0 : Int)) r2.items
      let sel := Init_selectFormat formats s2
      let s3 := { s2 with m_needManualGammaCorrection := sel.2 }
      (Init_viewConfiguration w s3, some sel.1)

/-- Member function `OpenXRDirectMode::Init` (lines 122-280). -/
def Init (w : Runtime) (s : OpenXRDirectMode) (inst systemId session space : Nat) :
    Bool × OpenXRDirectMode :=
  (InitAux w s inst systemId session space).1

/-- The compositor reports the supported-format list `formats` to an `Init` for the session
`session` that starts after the calls `calls`: the count query and the fill query both
succeed, the count is the length of `formats` (a 32-bit value) and the elements written are
`formats`. -/
def enumeratesFormats (w : Runtime) (calls : List Call) (session : Nat) (formats : List Int) :
    Prop :=
  formats.length < 2 ^ 32 ∧
  XR_FAILED (w.xrEnumerateSwapchainFormats
    (Call.xrEnumerateSwapchainFormats session 0 :: calls)).result = false ∧
  (w.xrEnumerateSwapchainFormats
    (Call.xrEnumerateSwapchainFormats session 0 :: calls)).countOutput = formats.length ∧
  XR_FAILED (w.xrEnumerateSwapchainFormats
    (Call.xrEnumerateSwapchainFormats session formats.length ::
      Call.xrEnumerateSwapchainFormats session 0 :: calls)).result = false ∧
  (w.xrEnumerateSwapchainFormats
    (Call.xrEnumerateSwapchainFormats session formats.length ::
      Call.xrEnumerateSwapchainFormats session 0 :: calls)).items = formats

instance (w : Runtime) (calls : List Call) (session : Nat) (formats : List Int) :
    Decidable (enumeratesFormats w calls session formats) := by
  unfold enumeratesFormats
  exact inferInstance

/-! ## The pacing state machine -/

/-- The steps of the pacing state machine, under the names of the specification. -/
inductive PacerStep where
  | notifyPrePresent
  | notifyPostPresent
  | beginFrame
  | fetchViews
  | endFrame
deriving DecidableEq, Repr

/-- One step of the pacing state machine: `PrePresent`, `PostPresentCallback`, `BeginFrame`,
`GetViews` or `EndFrame`.  A step whose wait does not complete has no next state. -/
def pacerStep (w : Runtime) (s : OpenXRDirectMode) : PacerStep → Option OpenXRDirectMode
  | PacerStep.notifyPrePresent => some (PrePresent s)
  | PacerStep.notifyPostPresent => some (PostPresentCallback w s)
  | PacerStep.beginFrame => (BeginFrame s).map (fun r => r.2)
  | PacerStep.fetchViews => (GetViews s).map (fun r => r.2)
  | PacerStep.endFrame => some (EndFrame w s).2

end OpenXRDirectMode

/-- The engine states reachable from the constructed engine through the public member
functions, on the runtime `w`. -/
inductive Reachable (w : Runtime) : OpenXRDirectMode → Prop where
  | construct (systemId viewStateFlags : Nat) :
      Reachable w (OpenXRDirectMode.new systemId viewStateFlags)
  | init (s : OpenXRDirectMode) (inst systemId session space : Nat) :
      Reachable w s → Reachable w (OpenXRDirectMode.Init w s inst systemId session space).2
  | storeSharedTexture (s : OpenXRDirectMode) (index : Int) (d : Option VulkanTextureData) :
      Reachable w s → Reachable w (OpenXRDirectMode.StoreSharedTexture s index d)
  | prePresent (s : OpenXRDirectMode) :
      Reachable w s → Reachable w (OpenXRDirectMode.PrePresent s)
  | postPresent (s : OpenXRDirectMode) :
      Reachable w s → Reachable w (OpenXRDirectMode.PostPresent s)
  | prePresentCallBack (s : OpenXRDirectMode) :
      Reachable w s → Reachable w (OpenXRDirectMode.PrePresentCallBack w s)
  | postPresentCallback (s : OpenXRDirectMode) :
      Reachable w s → Reachable w (OpenXRDirectMode.PostPresentCallback w s)
  | beginFrame (s s1 : OpenXRDirectMode) (r : Bool) :
      Reachable w s → OpenXRDirectMode.BeginFrame s = some (r, s1) → Reachable w s1
  | endFrame (s : OpenXRDirectMode) :
      Reachable w s → Reachable w (OpenXRDirectMode.EndFrame w s).2
  | getViews (s s1 : OpenXRDirectMode) (r : List XrView × Nat) :
      Reachable w s → OpenXRDirectMode.GetViews s = some (r, s1) → Reachable w s1

/-- A surface has the width `sw`, the height `sh` and the format `f`. -/
def SwapchainInfo.hasShape (sc : SwapchainInfo) (sw sh : Nat) (f : Int) : Prop :=
  sc.width = sw ∧ sc.height = sh ∧ sc.format = f

/-- The view count with which `CreateEyeSwapchains` works on the engine `s`: the count
output of its second `xrEnumerateViewConfigurationViews` call (line 557), as a `uint32_t`. -/
def reportedViewCount (w : Runtime) (s : OpenXRDirectMode) : Nat :=
  let c1 := Call.xrEnumerateViewConfigurationViews s.m_instance s.m_systemId
    XR_VIEW_CONFIGURATION_TYPE_PRIMARY_STEREO 0 :: s.calls
  let c2 := Call.xrEnumerateViewConfigurationViews s.m_instance s.m_systemId
    XR_VIEW_CONFIGURATION_TYPE_PRIMARY_STEREO (u32 (w.xrEnumerateViewConfigurationViews c1).countOutput)
    :: c1
  u32 (w.xrEnumerateViewConfigurationViews c2).countOutput

/-- The view configuration views that `CreateEyeSwapchains` holds on the engine `s` after its
second `xrEnumerateViewConfigurationViews` call (the vector `configViews`). -/
def reportedConfigViews (w : Runtime) (s : OpenXRDirectMode) : List XrViewConfigurationView :=
  let c1 := Call.xrEnumerateViewConfigurationViews s.m_instance s.m_systemId
    XR_VIEW_CONFIGURATION_TYPE_PRIMARY_STEREO 0 :: s.calls
  let n1 := u32 (w.xrEnumerateViewConfigurationViews c1).countOutput
  let c2 := Call.xrEnumerateViewConfigurationViews s.m_instance s.m_systemId
    XR_VIEW_CONFIGURATION_TYPE_PRIMARY_STEREO n1 :: c1
  fillBuffer (List.replicate n1 default) (w.xrEnumerateViewConfigurationViews c2).items

/-- The engine state in which the transfer of the eye `eyeIndex`, started in the state `s`,
calls `beginSingleTimeCommands` (line 807): the surface image was acquired and waited for. -/
def CopyToSwapchains_acquired (s : OpenXRDirectMode) (eyeIndex : Nat) : OpenXRDirectMode :=
  (s.call (Call.xrAcquireSwapchainImage (s.m_eyeSwapchains.getD eyeIndex default).handle)).call
    (Call.xrWaitSwapchainImage (s.m_eyeSwapchains.getD eyeIndex default).handle 1000000000)

/-- The provisioning step of `EndFrame` (lines 377-386): its result and the state in which
`EndFrame` goes on. -/
def EndFrame_provision (w : Runtime) (s : OpenXRDirectMode) : Bool × OpenXRDirectMode :=
  if s.m_eyeSwapchains.isEmpty ∧ !s.m_sharedTextures.isEmpty
  then OpenXRDirectMode.CreateEyeSwapchains w s else (true, s)

/-- The calls to the graphics device (Vulkan). -/
def Call.isVulkan : Call → Bool
  | Call.vkCreateCommandPool _ _ => true
  | Call.vkAllocateCommandBuffers _ _ => true
  | Call.vkBeginCommandBuffer _ => true
  | Call.vkCmdPipelineBarrier _ _ _ _ => true
  | Call.vkCmdCopyImage _ _ _ _ _ _ _ => true
  | Call.vkEndCommandBuffer _ => true
  | Call.vkQueueSubmit _ _ => true
  | Call.vkQueueWaitIdle _ => true
  | Call.vkFreeCommandBuffers _ _ _ => true
  | Call.vkDestroyCommandPool _ _ => true
  | _ => false

/-- The calls of the image transfer: acquire, wait and release of a surface image, and the
calls to the graphics device. -/
def Call.isTransfer : Call → Bool
  | Call.xrAcquireSwapchainImage _ => true
  | Call.xrWaitSwapchainImage _ _ => true
  | Call.xrReleaseSwapchainImage _ => true
  | c => c.isVulkan

/-- The calls that submit a frame to the compositor. -/
def Call.isEndFrame : Call → Bool
  | Call.xrEndFrame _ _ _ _ _ _ => true
  | _ => false

/-- The calls of the pose refresh. -/
def Call.isRefresh : Call → Bool
  | Call.xrWaitFrame _ => true
  | Call.xrBeginFrame _ => true
  | Call.xrLocateViews _ _ _ _ => true
  | _ => false

/-- The calls that only surface provisioning issues among the frame operations: view
enumeration, surface creation and surface image enumeration. -/
def Call.isProvisioning : Call → Bool
  | Call.xrEnumerateViewConfigurationViews _ _ _ _ => true
  | Call.xrCreateSwapchain _ _ _ _ => true
  | Call.xrEnumerateSwapchainImages _ _ => true
  | _ => false

/-- The call history `new` extends the history `old` by calls of the kind `q` only. -/
def addsOnly (q : Call → Bool) (old new : List Call) : Prop :=
  ∃ added : List Call, new = added ++ old ∧ ∀ c ∈ added, q c = true

/-! ## Concrete runtimes and engine states used by the witnesses -/

/-- A compositor and device on which every call succeeds: it supports the formats `formats`,
lists the stereo view configuration with two views of the recommended size 1440 x 1600, hands
out the handle 7 with three images, gives the frame time 1000, and locates two views with
both validity bits set.  Format enumeration on the null session is refused with
`XR_ERROR_HANDLE_INVALID` (-12). -/
def okRuntime (formats : List Int) : Runtime :=
  { xrEnumerateSwapchainFormats := fun calls =>
      match calls with
      | Call.xrEnumerateSwapchainFormats 0 _ :: _ => { result := -12, countOutput := 0, items := [] }
      | _ => { result := 0, countOutput := formats.length, items := formats }
    xrEnumerateViewConfigurations := fun _ =>
      { result := 0, countOutput := 1, items := [XR_VIEW_CONFIGURATION_TYPE_PRIMARY_STEREO] }
    xrEnumerateViewConfigurationViews := fun _ =>
      { result := 0, countOutput := 2,
        items := [{ recommendedImageRectWidth := 1440, recommendedImageRectHeight := 1600 },
                  { recommendedImageRectWidth := 1440, recommendedImageRectHeight := 1600 }] }
    xrCreateSwapchain := fun _ => { result := 0, value := 7 }
    xrEnumerateSwapchainImages := fun _ => { result := 0, countOutput := 3, items := [21, 22, 23] }
    xrAcquireSwapchainImage := fun _ => { result := 0, value := 0 }
    xrWaitSwapchainImage := fun _ => 0
    xrReleaseSwapchainImage := fun _ => 0
    xrWaitFrame := fun _ =>
      { result := 0,
        frameState := { predictedDisplayTime := 1000, predictedDisplayPeriod := 11, shouldRender := true } }
    xrBeginFrame := fun _ => 0
    xrLocateViews := fun _ =>
      { result := 0, viewStateFlags := 3, countOutput := 2,
        views := [{ pose := 1, fov := 1 }, { pose := 2, fov := 2 }] }
    xrEndFrame := fun _ => 0
    vkCreateCommandPool := fun _ => { result := 0, value := 31 }
    vkAllocateCommandBuffers := fun _ => { result := 0, value := 41 }
    vkBeginCommandBuffer := fun _ => 0
    vkEndCommandBuffer := fun _ => 0
    vkQueueSubmit := fun _ => 0 }

/-- As `okRuntime`, but `xrWaitFrame` fails with `XR_ERROR_RUNTIME_FAILURE` (-2) and leaves
the zeroed frame state. -/
def waitFrameFailsRuntime : Runtime :=
  { okRuntime [VK_FORMAT_B8G8R8A8_SRGB] with
    xrWaitFrame := fun _ =>
      { result := -2,
        frameState := { predictedDisplayTime := 0, predictedDisplayPeriod := 0, shouldRender := false } } }

/-- As `okRuntime`, but `xrLocateViews` fails with `XR_ERROR_VALIDATION_FAILURE` (-1) and
writes nothing. -/
def locateViewsFailsRuntime : Runtime :=
  { okRuntime [VK_FORMAT_B8G8R8A8_SRGB] with
    xrLocateViews := fun _ => { result := -1, viewStateFlags := 0, countOutput := 0, views := [] } }

/-- The engine after construction and a successful `Init` with session handle 5. -/
def initialisedEngine : OpenXRDirectMode :=
  (OpenXRDirectMode.Init (okRuntime [VK_FORMAT_B8G8R8A8_SRGB]) (OpenXRDirectMode.new 0 0) 1 1 5 9).2

/-- The engine after `Init` and one successful `PostPresentCallback`: a frame is started. -/
def startedEngine : OpenXRDirectMode :=
  OpenXRDirectMode.PostPresentCallback (okRuntime [VK_FORMAT_B8G8R8A8_SRGB]) initialisedEngine

/-- The engine `startedEngine` after `Init` is called again with the null session handle. -/
def reinitialisedEngine : OpenXRDirectMode :=
  (OpenXRDirectMode.Init (okRuntime [VK_FORMAT_B8G8R8A8_SRGB]) startedEngine 1 1 0 9).2

/-- A full-size eye texture descriptor of the given format. -/
def eyeTexture (format : Int) : VulkanTextureData :=
  { vkInstance := 2, device := 3, image := 11, format := format, sampleCount := 1,
    width := 2880, height := 1600, physicalDevice := 4, queue := 6, queueFamilyIndex := 0 }

/-- The engine as constructed, after one eye-0 texture of the given format was ingested. -/
def ingestedEngine (format : Int) : OpenXRDirectMode :=
  OpenXRDirectMode.StoreSharedTexture (OpenXRDirectMode.new 0 0) 0 (some (eyeTexture format))

/-- The engine `ingestedEngine format` with the force-linear option switched off. -/
def ingestedEngineNoForce (format : Int) : OpenXRDirectMode :=
  { ingestedEngine format with m_forceLinearFormats := false }

/-- An eye texture descriptor of the given format, width and height. -/
def eyeTextureSized (format : Int) (width height : Nat) : VulkanTextureData :=
  { vkInstance := 2, device := 3, image := 11, format := format, sampleCount := 1,
    width := width, height := height, physicalDevice := 4, queue := 6, queueFamilyIndex := 0 }

/-- Ingest the descriptors `ds` at the indices `i`, `i + 1`, ... -/
def ingestAll (s : OpenXRDirectMode) : Int → List VulkanTextureData → OpenXRDirectMode
  | _, [] => s
  | i, d :: ds => ingestAll (OpenXRDirectMode.StoreSharedTexture s i (some d)) (i + 1) ds

/-- The engine on the runtime `w` after construction, a successful `Init` with session
handle 5, the ingestion of the textures `ds` for the eyes 0, 1, ... and one
`PostPresentCallback`, which starts a frame. -/
def readyEngine (w : Runtime) (ds : List VulkanTextureData) : OpenXRDirectMode :=
  OpenXRDirectMode.PostPresentCallback w
    (ingestAll (OpenXRDirectMode.Init w (OpenXRDirectMode.new 0 0) 1 1 5 9).2 0 ds)

/-- The calls of surface provisioning: the calls of `Call.isProvisioning` and the format
enumeration. -/
def Call.isSurfaceSetup : Call → Bool
  | Call.xrEnumerateSwapchainFormats _ _ => true
  | c => c.isProvisioning

/-- As `okRuntime`, but `xrCreateSwapchain` fails with `XR_ERROR_VALIDATION_FAILURE` (-1) and
hands out no handle, and `xrAcquireSwapchainImage` on the null handle is refused with
`XR_ERROR_HANDLE_INVALID` (-12). -/
def createSwapchainFailsRuntime : Runtime :=
  { okRuntime [VK_FORMAT_B8G8R8A8_SRGB] with
    xrCreateSwapchain := fun _ => { result := -1, value := 0 }
    xrAcquireSwapchainImage := fun calls =>
      match calls with
      | Call.xrAcquireSwapchainImage 0 :: _ => { result := -12, value := 0 }
      | _ => { result := 0, value := 0 } }

/-- An enumeration call of `CreateEyeSwapchains` fails on the engine `s`: one of the two
`xrEnumerateViewConfigurationViews` calls (lines 549, 557) or one of the two
`xrEnumerateSwapchainFormats` calls (lines 611, 619). -/
def provisioningEnumerationFails (w : Runtime) (s : OpenXRDirectMode) : Prop :=
  let c1 := Call.xrEnumerateViewConfigurationViews s.m_instance s.m_systemId
    XR_VIEW_CONFIGURATION_TYPE_PRIMARY_STEREO 0 :: s.calls
  let c2 := Call.xrEnumerateViewConfigurationViews s.m_instance s.m_systemId
    XR_VIEW_CONFIGURATION_TYPE_PRIMARY_STEREO (u32 (w.xrEnumerateViewConfigurationViews c1).countOutput)
    :: c1
  let c3 := Call.xrEnumerateSwapchainFormats s.m_session 0 :: c2
  let c4 := Call.xrEnumerateSwapchainFormats s.m_session
    (u32 (w.xrEnumerateSwapchainFormats c3).countOutput) :: c3
  XR_FAILED (w.xrEnumerateViewConfigurationViews c1).result = true ∨
  XR_FAILED (w.xrEnumerateViewConfigurationViews c2).result = true ∨
  XR_FAILED (w.xrEnumerateSwapchainFormats c3).result = true ∨
  XR_FAILED (w.xrEnumerateSwapchainFormats c4).result = true

/-- The image copy commands. -/
def Call.isCopy : Call → Bool
  | Call.vkCmdCopyImage _ _ _ _ _ _ _ => true
  | _ => false

/-- The engine `readyEngine` on `okRuntime` with one 2880 x 1600 source texture, after the
provisioning step of `EndFrame`: two 1440 x 1600 surfaces with the handle 7 exist and a frame
is started. -/
def provisionedEngine : OpenXRDirectMode :=
  (EndFrame_provision (okRuntime [VK_FORMAT_B8G8R8A8_SRGB])
    (readyEngine (okRuntime [VK_FORMAT_B8G8R8A8_SRGB])
      [eyeTextureSized VK_FORMAT_B8G8R8A8_SRGB 2880 1600])).2

/-- As `okRuntime`, but `xrLocateViews` succeeds with both validity bits of the view state
clear (tracking lost) and writes two views. -/
def invalidViewsRuntime : Runtime :=
  { okRuntime [VK_FORMAT_B8G8R8A8_SRGB] with
    xrLocateViews := fun _ =>
      { result := 0, viewStateFlags := 0, countOutput := 2,
        views := [{ pose := 1, fov := 1 }, { pose := 2, fov := 2 }] } }

/-- The transfer step of `EndFrame` (lines 377-395), after the provisioning step: its result
and the state in which `EndFrame` goes on to submission. -/
def EndFrame_transfer (w : Runtime) (s : OpenXRDirectMode) : Bool × OpenXRDirectMode :=
  if !(EndFrame_provision w s).1 then (false, (EndFrame_provision w s).2)
  else if !(EndFrame_provision w s).2.m_eyeSwapchains.isEmpty
  then OpenXRDirectMode.CopyToSwapchains w (EndFrame_provision w s).2
  else (true, (EndFrame_provision w s).2)

/-- The call does not create a surface of a format other than `f`. -/
def Call.createsFormat (f : Int) : Call → Bool
  | Call.xrCreateSwapchain _ format _ _ => decide (format = f)
  | _ => true

/-- As `okRuntime`, but the view enumeration answers the count query with two views and then,
asked to fill the buffer, succeeds writing no view and reporting the count 0. -/
def noViewsWrittenRuntime : Runtime :=
  { okRuntime [VK_FORMAT_B8G8R8A8_SRGB] with
    xrEnumerateViewConfigurationViews := fun calls =>
      match calls with
      | Call.xrEnumerateViewConfigurationViews _ _ _ 0 :: _ =>
        { result := 0, countOutput := 2, items := [] }
      | _ => { result := 0, countOutput := 0, items := [] } }

/-- The operations on the engine between two frames: texture ingest (`StoreSharedTexture`),
pose refresh (`WaitPoses`), `EndFrame`, and the two notifications of the presentation
thread, `PrePresent` and `PostPresentCallback`. -/
inductive FrameOp where
  | ingest (index : Int) (vulkanData : Option VulkanTextureData)
  | refresh
  | endFrame
  | prePresent
  | postPresent

/-- The engine state after one operation. -/
def FrameOp.run (w : Runtime) (s : OpenXRDirectMode) : FrameOp → OpenXRDirectMode
  | FrameOp.ingest index vulkanData => OpenXRDirectMode.StoreSharedTexture s index vulkanData
  | FrameOp.refresh => (OpenXRDirectMode.WaitPoses w s).2
  | FrameOp.endFrame => (OpenXRDirectMode.EndFrame w s).2
  | FrameOp.prePresent => OpenXRDirectMode.PrePresent s
  | FrameOp.postPresent => OpenXRDirectMode.PostPresentCallback w s

/-- The engine state after a sequence of operations. -/
def runOps (w : Runtime) (s : OpenXRDirectMode) : List FrameOp → OpenXRDirectMode
  | [] => s
  | op :: ops => runOps w (FrameOp.run w s op) ops

/-- The engine state after a sequence of `StoreSharedTexture` calls, each with its index and
its descriptor (`none` is the null pointer). -/
def ingestSequence (s : OpenXRDirectMode) :
    List (Int × Option VulkanTextureData) → OpenXRDirectMode
  | [] => s
  | (index, vulkanData) :: rest =>
    ingestSequence (OpenXRDirectMode.StoreSharedTexture s index vulkanData) rest

/-- The source texture passes the size test of `StoreSharedTexture` (line 517) for the
render-target size `renderWidth` x `renderHeight`, or it is a value-initialised entry, as
`std::vector::resize` creates it (null image, width 0, height 0). -/
def SharedTextureData.acceptedOrPadding (e : SharedTextureData) (renderWidth renderHeight : Nat) :
    Prop :=
  (renderWidth ≤ e.width ∧ renderHeight ≤ e.height) ∨ e = default

/-- The sizes of the view array, the projection-view array and the surface list. -/
def arrayLengths (s : OpenXRDirectMode) : Nat × Nat × Nat :=
  (s.m_views.length, s.m_projectionViews.length, s.m_eyeSwapchains.length)

/-- When the engine has surfaces, the view array and the projection-view array have one
element for each surface. -/
def arraysAligned (s : OpenXRDirectMode) : Prop :=
  s.m_eyeSwapchains ≠ [] →
    s.m_views.length = s.m_eyeSwapchains.length ∧
    s.m_projectionViews.length = s.m_eyeSwapchains.length

open OpenXRDirectMode

/-- A property of the state component that holds in both branches of a conditional holds
of the conditional. -/
theorem snd_ite_of {α β : Type} {P : β → Prop} {c : Prop} [Decidable c] {x y : α × β}
    (hx : P x.2) (hy : P y.2) : P (if c then x else y).2 := by
  split <;> assumption

/-- Function `WaitPoses` fails and leaves the frame-started flag false when `xrWaitFrame` fails, and
when `xrWaitFrame` succeeds and `xrBeginFrame` fails. -/
theorem WaitPoses_wait_or_begin_failure (w : Runtime) (s : OpenXRDirectMode)
    (hf : s.m_bFrameStarted = false)
    (hfail : XR_FAILED (w.xrWaitFrame (Call.xrWaitFrame s.m_session :: s.calls)).result = true ∨
      XR_FAILED (w.xrBeginFrame
        (Call.xrBeginFrame s.m_session :: Call.xrWaitFrame s.m_session :: s.calls)) = true) :
    (WaitPoses w s).1 = false ∧ (WaitPoses w s).2.m_bFrameStarted = false := by
  unfold WaitPoses
  simp only [hf, call]
  rcases hfail with h | h
  · simp [h, hf]
  · by_cases h1 : XR_FAILED (w.xrWaitFrame (Call.xrWaitFrame s.m_session :: s.calls)).result = true
    · simp [h1, hf]
    · simp [h1, h, hf]

/-- The submission part of `EndFrame` always clears the frame-started flag. -/
theorem EndFrame_submit_frameStarted (w : Runtime) (s : OpenXRDirectMode) :
    (EndFrame_submit w s).2.m_bFrameStarted = false := by
  unfold EndFrame_submit
  exact snd_ite_of (P := fun r : OpenXRDirectMode => r.m_bFrameStarted = false) rfl rfl

/-! ### The size of the view array -/

/-- Resizing gives the requested length. -/
theorem length_resize {α : Type} [Inhabited α] (v : List α) (n : Nat) :
    (resize v n).length = n := by
  simp only [resize, List.length_append, List.length_take, List.length_replicate]
  omega

/-- Filling a buffer does not change its length. -/
theorem length_fillBuffer {α : Type} (buf written : List α) :
    (fillBuffer buf written).length = buf.length := by
  simp only [fillBuffer, List.length_append, List.length_take, List.length_drop]
  omega

/-- Function `WaitPoses` keeps the size of the view array. -/
theorem WaitPoses_views_length (w : Runtime) (s : OpenXRDirectMode) :
    (WaitPoses w s).2.m_views.length = s.m_views.length := by
  unfold WaitPoses
  dsimp only [call]
  split_ifs
  · rfl
  · rfl
  · rfl
  · exact length_fillBuffer _ _

/-- Function `Init` does not touch the view array. -/
theorem Init_views (w : Runtime) (s : OpenXRDirectMode) (inst systemId session space : Nat) :
    (Init w s inst systemId session space).2.m_views = s.m_views := by
  have hv : ∀ s3 : OpenXRDirectMode, (Init_viewConfiguration w s3).2.m_views = s3.m_views := by
    intro s3
    unfold Init_viewConfiguration
    dsimp only [call]
    split_ifs <;> rfl
  unfold Init InitAux
  dsimp only [call]
  split_ifs
  · rfl
  · rfl
  · exact hv _

/-- Function `StoreSharedTexture` does not touch the view array. -/
theorem StoreSharedTexture_views (s : OpenXRDirectMode) (index : Int)
    (d : Option VulkanTextureData) : (StoreSharedTexture s index d).m_views = s.m_views := by
  unfold StoreSharedTexture
  cases d with
  | none => rfl
  | some d =>
    dsimp only [call]
    split_ifs <;> rfl

/-- The swapchain-creation loop does not touch the view array. -/
theorem CreateEyeSwapchains_loop_views (w : Runtime) (sw sh : Nat) (f : Int) (n : Nat) :
    ∀ (i : Nat) (s : OpenXRDirectMode),
      (CreateEyeSwapchains_loop w sw sh f n i s).2.m_views = s.m_views := by
  induction n with
  | zero => intro i s; rfl
  | succ n ih =>
    intro i s
    unfold CreateEyeSwapchains_loop
    dsimp only [call]
    split_ifs <;> first | rfl | rw [ih]

/-- After `CreateEyeSwapchains` the view array is as it was or has a 32-bit size. -/
theorem CreateEyeSwapchains_views_length (w : Runtime) (s : OpenXRDirectMode)
    (h : s.m_views.length < 2 ^ 32) :
    (CreateEyeSwapchains w s).2.m_views.length < 2 ^ 32 := by
  unfold CreateEyeSwapchains
  dsimp only [call]
  split_ifs
  · exact h
  · exact h
  · exact h
  · exact h
  · rw [CreateEyeSwapchains_loop_views]
    dsimp only [call]
    rw [length_resize]
    exact Nat.mod_lt _ (by decide)

/-- Function `beginSingleTimeCommands` does not touch the view array. -/
theorem beginSingleTimeCommands_views (w : Runtime) (s : OpenXRDirectMode) :
    (beginSingleTimeCommands w s).2.m_views = s.m_views := by
  unfold beginSingleTimeCommands
  dsimp only [call]
  split_ifs <;> rfl

/-- Function `endSingleTimeCommands` does not touch the view array. -/
theorem endSingleTimeCommands_views (w : Runtime) (s : OpenXRDirectMode) (c : Nat) :
    (endSingleTimeCommands w s c).m_views = s.m_views := by
  unfold endSingleTimeCommands
  dsimp only [call]
  split_ifs <;> rfl

/-- The transfer loop does not touch the view array. -/
theorem CopyToSwapchains_loop_views (w : Runtime) (n : Nat) :
    ∀ (i : Nat) (s : OpenXRDirectMode), (CopyToSwapchains_loop w n i s).2.m_views = s.m_views := by
  induction n with
  | zero => intro i s; rfl
  | succ n ih =>
    intro i s
    unfold CopyToSwapchains_loop
    dsimp only [call]
    split_ifs <;>
      first
      | rfl
      | simp only [ih, endSingleTimeCommands_views, beginSingleTimeCommands_views]

/-- Function `CopyToSwapchains` does not touch the view array. -/
theorem CopyToSwapchains_views (w : Runtime) (s : OpenXRDirectMode) :
    (CopyToSwapchains w s).2.m_views = s.m_views := by
  unfold CopyToSwapchains
  split_ifs
  · rfl
  · rfl
  · exact CopyToSwapchains_loop_views w _ _ _

/-- The projection-view loop of `EndFrame` does not touch the view array. -/
theorem EndFrame_buildProjectionViews_views (n : Nat) :
    ∀ (i : Nat) (s : OpenXRDirectMode), (EndFrame_buildProjectionViews n i s).m_views = s.m_views := by
  induction n with
  | zero => intro i s; rfl
  | succ n ih =>
    intro i s
    unfold EndFrame_buildProjectionViews
    dsimp only [call]
    rw [ih]

/-- Function `EndFrame_submit` keeps a 32-bit size of the view array. -/
theorem EndFrame_submit_views_length (w : Runtime) (s : OpenXRDirectMode)
    (h : s.m_views.length < 2 ^ 32) :
    (EndFrame_submit w s).2.m_views.length < 2 ^ 32 := by
  have h3 : (EndFrame_ensureViews s).m_views.length < 2 ^ 32 := by
    unfold EndFrame_ensureViews
    split_ifs
    · show (resize s.m_views 2).length < 2 ^ 32
      rw [length_resize]; decide
    · exact h
  have h4 : (EndFrame_projection (EndFrame_ensureViews s)).m_views.length < 2 ^ 32 := by
    unfold EndFrame_projection
    split_ifs
    · rw [EndFrame_buildProjectionViews_views]; exact h3
    · exact h3
  unfold EndFrame_submit
  exact snd_ite_of (P := fun r : OpenXRDirectMode => r.m_views.length < 2 ^ 32) h4 h4

/-- Function `EndFrame` keeps a 32-bit size of the view array. -/
theorem EndFrame_views_length (w : Runtime) (s : OpenXRDirectMode)
    (h : s.m_views.length < 2 ^ 32) :
    (EndFrame w s).2.m_views.length < 2 ^ 32 := by
  have hc : (if s.m_eyeSwapchains.isEmpty ∧ !s.m_sharedTextures.isEmpty
      then CreateEyeSwapchains w s else (true, s)).2.m_views.length < 2 ^ 32 := by
    split_ifs
    · exact CreateEyeSwapchains_views_length w s h
    · exact h
  have ht : ∀ s1 : OpenXRDirectMode, s1.m_views.length < 2 ^ 32 →
      (if !s1.m_eyeSwapchains.isEmpty then CopyToSwapchains w s1 else (true, s1)).2.m_views.length
        < 2 ^ 32 := by
    intro s1 h1
    split_ifs
    · rw [CopyToSwapchains_views]; exact h1
    · exact h1
  unfold EndFrame
  refine snd_ite_of (P := fun r : OpenXRDirectMode => r.m_views.length < 2 ^ 32) h ?_
  refine snd_ite_of (P := fun r : OpenXRDirectMode => r.m_views.length < 2 ^ 32) h ?_
  refine snd_ite_of (P := fun r : OpenXRDirectMode => r.m_views.length < 2 ^ 32) hc ?_
  refine snd_ite_of (P := fun r : OpenXRDirectMode => r.m_views.length < 2 ^ 32) (ht _ hc) ?_
  exact EndFrame_submit_views_length w _ (ht _ hc)

/-- In every reachable engine state the size of the view array fits the 32-bit view count. -/
theorem Reachable.views_length_lt (w : Runtime) (s : OpenXRDirectMode) (h : Reachable w s) :
    s.m_views.length < 2 ^ 32 := by
  induction h with
  | construct systemId viewStateFlags =>
    show (0 : Nat) < 2 ^ 32
    decide
  | init s inst systemId session space _ ih => rw [Init_views]; exact ih
  | storeSharedTexture s index d _ ih => rw [StoreSharedTexture_views]; exact ih
  | prePresent s _ ih =>
    unfold PrePresent
    split_ifs
    · exact ih
    · exact ih
  | postPresent s _ ih =>
    unfold PostPresent
    split_ifs <;> exact ih
  | prePresentCallBack s _ ih =>
    unfold PrePresentCallBack
    split_ifs
    · exact ih
    · exact EndFrame_views_length w s ih
  | postPresentCallback s _ ih =>
    unfold PostPresentCallback
    split_ifs
    · exact ih
    · show (WaitPoses w s).2.m_views.length < 2 ^ 32
      rw [WaitPoses_views_length]; exact ih
    · exact ih
  | beginFrame s s1 r _ hb ih =>
    unfold BeginFrame at hb
    split_ifs at hb <;> simp only [Option.some.injEq, Prod.mk.injEq] at hb <;>
      (rw [← hb.2]; exact ih)
  | endFrame s _ ih => exact EndFrame_views_length w s ih
  | getViews s s1 r _ hg ih =>
    unfold GetViews at hg
    split_ifs at hg
    simp only [Option.some.injEq, Prod.mk.injEq] at hg
    rw [← hg.2]; exact ih

/-- C1: for every engine state with an active session in which no frame has been started,
`EndFrame` returns failure and leaves the engine state unchanged; in particular it issues no
provisioning, transfer or submission call (the call history is unchanged). -/
theorem C1_endFrame_without_started_frame (w : Runtime) (s : OpenXRDirectMode)
    (hsession : s.m_session ≠ 0) (hframe : s.m_bFrameStarted = false) :
    EndFrame w s = (false, s) ∧ (EndFrame w s).2.calls = s.calls := by
  have h : EndFrame w s = (false, s) := by
    unfold EndFrame
    simp [hsession, hframe]
  exact ⟨h, by rw [h]⟩

/-- Witness of C1 on the engine after `Init`, before any frame was started. -/
theorem C1_endFrame_without_started_frame_witness :
    initialisedEngine.m_session ≠ 0 ∧ initialisedEngine.m_bFrameStarted = false ∧
    EndFrame (okRuntime [VK_FORMAT_B8G8R8A8_SRGB]) initialisedEngine = (false, initialisedEngine) :=
  ⟨by decide, by decide,
   (C1_endFrame_without_started_frame (okRuntime [VK_FORMAT_B8G8R8A8_SRGB]) initialisedEngine
      (by decide) (by decide)).1⟩

/-- C2 as stated fails: after `Init`, a started frame and a second `Init` with the null
session handle, a frame is started, and `EndFrame` returns failure with the frame-started
flag still set. -/
theorem C2_counterexample :
    reinitialisedEngine.m_bFrameStarted = true ∧
    (EndFrame (okRuntime [VK_FORMAT_B8G8R8A8_SRGB]) reinitialisedEngine).1 = false ∧
    (EndFrame (okRuntime [VK_FORMAT_B8G8R8A8_SRGB]) reinitialisedEngine).2.m_bFrameStarted = true := by
  decide

/-- C2 (amended): for every engine state with an active session in which a frame has been
started, and for every behaviour of the compositor and the device (every outcome of
provisioning, transfer and submission), the frame-started flag is false after `EndFrame`;
with no active session `EndFrame` returns failure and leaves the state as it was. -/
theorem C2_endFrame_clears_frameStarted (w : Runtime) (s : OpenXRDirectMode)
    (hframe : s.m_bFrameStarted = true) :
    (s.m_session ≠ 0 → (EndFrame w s).2.m_bFrameStarted = false) ∧
    (s.m_session = 0 → EndFrame w s = (false, s)) := by
  constructor
  · intro hsession
    unfold EndFrame
    rw [if_neg hsession, if_neg (by simp [hframe])]
    refine snd_ite_of (P := fun r : OpenXRDirectMode => r.m_bFrameStarted = false) rfl ?_
    exact snd_ite_of (P := fun r : OpenXRDirectMode => r.m_bFrameStarted = false) rfl
      (EndFrame_submit_frameStarted w _)
  · intro hsession
    unfold EndFrame
    simp [hsession]

/-- Witness of C2 (amended) on the engine with a started frame. -/
theorem C2_endFrame_clears_frameStarted_witness :
    startedEngine.m_bFrameStarted = true ∧ startedEngine.m_session ≠ 0 ∧
    (EndFrame (okRuntime [VK_FORMAT_B8G8R8A8_SRGB]) startedEngine).2.m_bFrameStarted = false :=
  ⟨by decide, by decide,
   (C2_endFrame_clears_frameStarted (okRuntime [VK_FORMAT_B8G8R8A8_SRGB]) startedEngine
      (by decide)).1 (by decide)⟩

/-- C3 as stated fails: with an active session and stale poses, the refresh run by
`PostPresentCallback` fails (`xrWaitFrame` reports an error, `WaitPoses` returns false), and
the poses-stale flag is false afterwards. -/
theorem C3_counterexample :
    initialisedEngine.m_session ≠ 0 ∧ initialisedEngine.m_bPosesStale = true ∧
    (WaitPoses waitFrameFailsRuntime initialisedEngine).1 = false ∧
    (PostPresentCallback waitFrameFailsRuntime initialisedEngine).m_bPosesStale = false := by
  decide

/-- C3 (amended): for every engine state with an active session and stale poses,
`PostPresentCallback` runs the refresh once, discards its result, and the poses-stale flag is
false afterwards, whether the refresh succeeded or failed; with no active session the state,
and with it the stale flag, is unchanged. -/
theorem C3_postPresent_clears_stale (w : Runtime) (s : OpenXRDirectMode)
    (hstale : s.m_bPosesStale = true) :
    (s.m_session ≠ 0 →
      (PostPresentCallback w s).m_bPosesStale = false ∧
      PostPresentCallback w s =
        ({ (WaitPoses w s).2 with m_bPosesStale := false }).call Call.notify_one) ∧
    (s.m_session = 0 → PostPresentCallback w s = s) := by
  constructor
  · intro hsession
    unfold PostPresentCallback
    rw [if_neg hsession, if_pos hstale]
    exact ⟨rfl, rfl⟩
  · intro hsession
    unfold PostPresentCallback
    rw [if_pos hsession]

/-- Witness of C3 (amended): a failed refresh on the initialised engine. -/
theorem C3_postPresent_clears_stale_witness :
    initialisedEngine.m_bPosesStale = true ∧ initialisedEngine.m_session ≠ 0 ∧
    (PostPresentCallback waitFrameFailsRuntime initialisedEngine).m_bPosesStale = false :=
  ⟨by decide, by decide,
   ((C3_postPresent_clears_stale waitFrameFailsRuntime initialisedEngine (by decide)).1
      (by decide)).1⟩

/-- C4 fails on the code: no frame is started, `xrWaitFrame` and `xrBeginFrame` succeed and
`xrLocateViews` reports a failure, yet `WaitPoses` returns success, counts the frame and sets
the frame-started flag. -/
theorem C4_locateViews_failure_ignored :
    initialisedEngine.m_bFrameStarted = false ∧
    XR_FAILED (locateViewsFailsRuntime.xrLocateViews
      (Call.xrLocateViews 5 1000 9 0 :: Call.xrBeginFrame 5 :: Call.xrWaitFrame 5 ::
        initialisedEngine.calls)).result = true ∧
    (WaitPoses locateViewsFailsRuntime initialisedEngine).2.calls =
      Call.xrLocateViews 5 1000 9 0 :: Call.xrBeginFrame 5 :: Call.xrWaitFrame 5 ::
        initialisedEngine.calls ∧
    (WaitPoses locateViewsFailsRuntime initialisedEngine).1 = true ∧
    (WaitPoses locateViewsFailsRuntime initialisedEngine).2.m_bFrameStarted = true ∧
    (WaitPoses locateViewsFailsRuntime initialisedEngine).2.m_frameCounter = 1 := by
  decide

/-- C5: for every engine state in which a frame is started, `WaitPoses` returns success and
leaves the whole engine state unchanged (frame counter, frame timing and views included); no
compositor call is issued, the call history being part of the state. -/
theorem C5_waitPoses_reentrant_noop (w : Runtime) (s : OpenXRDirectMode)
    (hframe : s.m_bFrameStarted = true) :
    WaitPoses w s = (true, s) ∧ (WaitPoses w s).2.calls = s.calls := by
  have h : WaitPoses w s = (true, s) := by
    unfold WaitPoses
    rw [if_pos hframe]
  exact ⟨h, by rw [h]⟩

/-- Witness of C5 on the engine with a started frame. -/
theorem C5_waitPoses_reentrant_noop_witness :
    startedEngine.m_bFrameStarted = true ∧
    WaitPoses (okRuntime [VK_FORMAT_B8G8R8A8_SRGB]) startedEngine = (true, startedEngine) :=
  ⟨by decide,
   (C5_waitPoses_reentrant_noop (okRuntime [VK_FORMAT_B8G8R8A8_SRGB]) startedEngine (by decide)).1⟩

/-- C6: from every engine state with fresh poses `GetViews` completes its wait, and whenever
it completes, the poses-stale flag is true afterwards, the views handed back are the engine's
view array, and the count handed back is the length of that array (the array size fitting
the 32-bit count, as it always does: the array is only resized to 32-bit view counts). -/
theorem C6_getViews_rearms_stale (s : OpenXRDirectMode) (hlen : s.m_views.length < 2 ^ 32) :
    (s.m_bPosesStale = false → ∃ r, GetViews s = some r) ∧
    ∀ views count s1, GetViews s = some ((views, count), s1) →
      s1.m_bPosesStale = true ∧ count = s1.m_views.length ∧ views = s1.m_views ∧
      s1.m_views = s.m_views := by
  constructor
  · intro hfresh
    unfold GetViews
    rw [if_neg (by simp [hfresh])]
    exact ⟨_, rfl⟩
  · intro views count s1 h
    unfold GetViews at h
    split at h
    · exact absurd h (by simp)
    · simp only [Option.some.injEq, Prod.mk.injEq] at h
      obtain ⟨⟨hv, hc⟩, hs⟩ := h
      subst hs
      refine ⟨rfl, ?_, hv.symm, rfl⟩
      rw [← hc]
      exact Nat.mod_eq_of_lt hlen

/-- Witness of C6 on the engine with a started frame, whose poses are fresh. -/
theorem C6_getViews_rearms_stale_witness :
    startedEngine.m_views.length < 2 ^ 32 ∧
    GetViews startedEngine = some (([], 0), { startedEngine with m_bPosesStale := true }) ∧
    ({ startedEngine with m_bPosesStale := true } : OpenXRDirectMode).m_bPosesStale = true :=
  ⟨by decide, by decide,
   ((C6_getViews_rearms_stale startedEngine (by decide)).2 [] 0
      { startedEngine with m_bPosesStale := true } (by decide)).1⟩

/-- C7: in the pacing state machine, from a state with stale poses a `fetchViews` step does
not complete, and neither does a `beginFrame` step with an active session; with an active
session and fresh poses `BeginFrame` returns true; whenever `BeginFrame` returns, the engine
state is unchanged and the result is false exactly when no session is active. -/
theorem C7_waits_never_complete_while_stale (w : Runtime) (s : OpenXRDirectMode) :
    (s.m_bPosesStale = true →
      GetViews s = none ∧ pacerStep w s PacerStep.fetchViews = none) ∧
    (s.m_bPosesStale = true → s.m_session ≠ 0 →
      BeginFrame s = none ∧ pacerStep w s PacerStep.beginFrame = none) ∧
    (s.m_session ≠ 0 → s.m_bPosesStale = false → BeginFrame s = some (true, s)) ∧
    (∀ r s1, BeginFrame s = some (r, s1) → s1 = s ∧ (r = false ↔ s.m_session = 0)) := by
  refine ⟨?_, ?_, ?_, ?_⟩
  · intro hstale
    have h : GetViews s = none := by
      unfold GetViews
      rw [if_pos hstale]
    exact ⟨h, by simp [pacerStep, h]⟩
  · intro hstale hsession
    have h : BeginFrame s = none := by
      unfold BeginFrame
      rw [if_neg hsession, if_pos hstale]
    exact ⟨h, by simp [pacerStep, h]⟩
  · intro hsession hfresh
    unfold BeginFrame
    rw [if_neg hsession, if_neg (by simp [hfresh])]
  · intro r s1 h
    unfold BeginFrame at h
    by_cases hsession : s.m_session = 0
    · rw [if_pos hsession] at h
      simp only [Option.some.injEq, Prod.mk.injEq] at h
      exact ⟨h.2.symm, by simp [← h.1, hsession]⟩
    · rw [if_neg hsession] at h
      by_cases hstale : s.m_bPosesStale = true
      · rw [if_pos hstale] at h
        exact absurd h (by simp)
      · rw [if_neg hstale] at h
        simp only [Option.some.injEq, Prod.mk.injEq] at h
        exact ⟨h.2.symm, by simp [← h.1, hsession]⟩

/-- Witness of C7: the initialised engine has stale poses and an active session, so neither
wait completes; on the started engine, with fresh poses, `BeginFrame` returns true. -/
theorem C7_waits_never_complete_while_stale_witness :
    initialisedEngine.m_bPosesStale = true ∧ initialisedEngine.m_session ≠ 0 ∧
    GetViews initialisedEngine = none ∧ BeginFrame initialisedEngine = none ∧
    BeginFrame startedEngine = some (true, startedEngine) :=
  ⟨by decide, by decide,
   ((C7_waits_never_complete_while_stale (okRuntime []) initialisedEngine).1 (by decide)).1,
   ((C7_waits_never_complete_while_stale (okRuntime []) initialisedEngine).2.1 (by decide)
      (by decide)).1,
   (C7_waits_never_complete_while_stale (okRuntime []) startedEngine).2.2.1 (by decide)
      (by decide)⟩

/-! ### Format negotiation -/

/-- A buffer of the reported size, filled with the reported elements, holds those elements. -/
theorem fillBuffer_replicate_length {α : Type} (d : α) (l : List α) :
    fillBuffer (List.replicate l.length d) l = l := by
  simp [fillBuffer]

/-- The view-configuration part of `Init` does not touch the gamma-correction flag. -/
theorem Init_viewConfiguration_gamma (w : Runtime) (s : OpenXRDirectMode) :
    (Init_viewConfiguration w s).2.m_needManualGammaCorrection = s.m_needManualGammaCorrection := by
  unfold Init_viewConfiguration
  dsimp only
  split_ifs <;> rfl

/-- When the compositor reports the format list `formats`, `Init` runs the negotiation on
that list: its local `selectedFormat` and the gamma-correction flag it leaves are the two
results of `Init_selectFormat formats`. -/
theorem Init_negotiation (w : Runtime) (s : OpenXRDirectMode) (inst systemId session space : Nat)
    (formats : List Int) (h : enumeratesFormats w s.calls session formats) :
    (InitAux w s inst systemId session space).2 = some (Init_selectFormat formats s).1 ∧
    (Init w s inst systemId session space).2.m_needManualGammaCorrection =
      (Init_selectFormat formats s).2 := by
  obtain ⟨hlen, h1, hc, h2, hi⟩ := h
  have hfc : u32 formats.length = formats.length := Nat.mod_eq_of_lt hlen
  unfold Init InitAux
  dsimp only [call]
  rw [h1, if_neg (by simp), hc, hfc, h2, if_neg (by simp), hi, fillBuffer_replicate_length]
  refine ⟨rfl, ?_⟩
  rw [Init_viewConfiguration_gamma]
  rfl

/-- Negotiation with the source format among the supported formats: exact match. -/
theorem Init_selectFormat_exact (formats : List Int) (s : OpenXRDirectMode)
    (tex : SharedTextureData) (rest : List SharedTextureData)
    (htex : s.m_sharedTextures = tex :: rest) (hmem : tex.format ∈ formats) :
    Init_selectFormat formats s = (tex.format, false) := by
  unfold Init_selectFormat
  simp only [htex, List.isEmpty_cons, Bool.not_false, if_true, List.getD_cons_zero]
  cases hfind : formats.find? (fun format => format == tex.format) with
  | none =>
    have := List.find?_eq_none.mp hfind tex.format hmem
    simp at this
  | some x =>
    have hx := List.find?_some hfind
    simp only [beq_iff_eq] at hx
    simp [hx]

/-- Negotiation with the source format absent from the supported formats. -/
theorem Init_selectFormat_no_match (formats : List Int) (s : OpenXRDirectMode)
    (tex : SharedTextureData) (rest : List SharedTextureData)
    (htex : s.m_sharedTextures = tex :: rest) (hmem : tex.format ∉ formats) :
    Init_selectFormat formats s =
      if tex.format = VK_FORMAT_B8G8R8A8_UNORM then
        if s.m_forceLinearFormats then (VK_FORMAT_B8G8R8A8_UNORM, false)
        else
          match formats.find? (fun format => format == VK_FORMAT_B8G8R8A8_SRGB) with
          | some format => (format, true)
          | none => (formats.getD 0 0, true)
      else (formats.getD 0 0, s.m_needManualGammaCorrection) := by
  unfold Init_selectFormat
  simp only [htex, List.isEmpty_cons, Bool.not_false, if_true, List.getD_cons_zero]
  have hfind : formats.find? (fun format => format == tex.format) = none := by
    rw [List.find?_eq_none]
    intro x hx hxe
    simp only [beq_iff_eq] at hxe
    exact hmem (hxe ▸ hx)
  rw [hfind]

/-- C8: for every supported-format list reported by the compositor that contains, at any
position, the format of the ingested eye-0 source texture, the negotiation run by `Init`
selects that format and sets the manual-gamma-correction flag to false. -/
theorem C8_exact_match_selected (w : Runtime) (s : OpenXRDirectMode)
    (inst systemId session space : Nat) (formats : List Int)
    (tex : SharedTextureData) (rest : List SharedTextureData)
    (hrt : enumeratesFormats w s.calls session formats)
    (htex : s.m_sharedTextures = tex :: rest) (hmem : tex.format ∈ formats) :
    (InitAux w s inst systemId session space).2 = some tex.format ∧
    (Init w s inst systemId session space).2.m_needManualGammaCorrection = false := by
  have h := Init_negotiation w s inst systemId session space formats hrt
  rw [Init_selectFormat_exact formats s tex rest htex hmem] at h
  exact h

/-- Witness of C8: source format B8G8R8A8_UNORM, second in the supported list. -/
theorem C8_exact_match_selected_witness :
    enumeratesFormats (okRuntime [VK_FORMAT_B8G8R8A8_SRGB, VK_FORMAT_B8G8R8A8_UNORM])
      (ingestedEngine VK_FORMAT_B8G8R8A8_UNORM).calls 5
      [VK_FORMAT_B8G8R8A8_SRGB, VK_FORMAT_B8G8R8A8_UNORM] ∧
    (InitAux (okRuntime [VK_FORMAT_B8G8R8A8_SRGB, VK_FORMAT_B8G8R8A8_UNORM])
      (ingestedEngine VK_FORMAT_B8G8R8A8_UNORM) 1 1 5 9).2 = some VK_FORMAT_B8G8R8A8_UNORM ∧
    (Init (okRuntime [VK_FORMAT_B8G8R8A8_SRGB, VK_FORMAT_B8G8R8A8_UNORM])
      (ingestedEngine VK_FORMAT_B8G8R8A8_UNORM) 1 1 5 9).2.m_needManualGammaCorrection = false :=
  ⟨by decide,
   C8_exact_match_selected (okRuntime [VK_FORMAT_B8G8R8A8_SRGB, VK_FORMAT_B8G8R8A8_UNORM])
     (ingestedEngine VK_FORMAT_B8G8R8A8_UNORM) 1 1 5 9
     [VK_FORMAT_B8G8R8A8_SRGB, VK_FORMAT_B8G8R8A8_UNORM]
     { sourceImage := 11, currentLayout := 5, width := 2880, height := 1600,
       format := VK_FORMAT_B8G8R8A8_UNORM } []
     (by decide) (by decide) (by decide)⟩

/-- C9 as stated fails: on the engine as constructed, with an ingested B8G8R8A8_UNORM eye-0
texture and B8G8R8A8_SRGB the only supported format, `Init` selects B8G8R8A8_UNORM and leaves
the manual-gamma-correction flag false. -/
theorem C9_counterexample :
    (ingestedEngine VK_FORMAT_B8G8R8A8_UNORM).m_forceLinearFormats = true ∧
    (ingestedEngine VK_FORMAT_B8G8R8A8_UNORM).m_sharedTextures.map (fun x => x.format) =
      [VK_FORMAT_B8G8R8A8_UNORM] ∧
    enumeratesFormats (okRuntime [VK_FORMAT_B8G8R8A8_SRGB])
      (ingestedEngine VK_FORMAT_B8G8R8A8_UNORM).calls 5 [VK_FORMAT_B8G8R8A8_SRGB] ∧
    (InitAux (okRuntime [VK_FORMAT_B8G8R8A8_SRGB])
      (ingestedEngine VK_FORMAT_B8G8R8A8_UNORM) 1 1 5 9).2 = some VK_FORMAT_B8G8R8A8_UNORM ∧
    (Init (okRuntime [VK_FORMAT_B8G8R8A8_SRGB])
      (ingestedEngine VK_FORMAT_B8G8R8A8_UNORM) 1 1 5 9).2.m_needManualGammaCorrection = false := by
  decide

/-- C9 (amended): with B8G8R8A8_SRGB the only supported format and an ingested eye-0 source
of format B8G8R8A8_UNORM, the negotiation run by `Init` selects B8G8R8A8_SRGB and sets the
manual-gamma-correction flag to true when the force-linear option is off; when the option is
on, as on an engine as constructed, it selects B8G8R8A8_UNORM and sets the flag to false. -/
theorem C9_srgb_counterpart_selected (w : Runtime) (s : OpenXRDirectMode)
    (inst systemId session space : Nat)
    (tex : SharedTextureData) (rest : List SharedTextureData)
    (hrt : enumeratesFormats w s.calls session [VK_FORMAT_B8G8R8A8_SRGB])
    (htex : s.m_sharedTextures = tex :: rest)
    (hsource : tex.format = VK_FORMAT_B8G8R8A8_UNORM) :
    (s.m_forceLinearFormats = false →
      (InitAux w s inst systemId session space).2 = some VK_FORMAT_B8G8R8A8_SRGB ∧
      (Init w s inst systemId session space).2.m_needManualGammaCorrection = true) ∧
    (s.m_forceLinearFormats = true →
      (InitAux w s inst systemId session space).2 = some VK_FORMAT_B8G8R8A8_UNORM ∧
      (Init w s inst systemId session space).2.m_needManualGammaCorrection = false) := by
  have h := Init_negotiation w s inst systemId session space _ hrt
  have hmem : tex.format ∉ [VK_FORMAT_B8G8R8A8_SRGB] := by
    rw [hsource]; decide
  rw [Init_selectFormat_no_match _ s tex rest htex hmem, if_pos hsource] at h
  constructor
  · intro hforce
    rw [hforce] at h
    exact h
  · intro hforce
    rw [hforce] at h
    exact h

/-- Witness of C9 (amended), force-linear option off. -/
theorem C9_srgb_counterpart_selected_witness :
    (ingestedEngineNoForce VK_FORMAT_B8G8R8A8_UNORM).m_forceLinearFormats = false ∧
    (InitAux (okRuntime [VK_FORMAT_B8G8R8A8_SRGB])
      (ingestedEngineNoForce VK_FORMAT_B8G8R8A8_UNORM) 1 1 5 9).2 = some VK_FORMAT_B8G8R8A8_SRGB ∧
    (Init (okRuntime [VK_FORMAT_B8G8R8A8_SRGB])
      (ingestedEngineNoForce VK_FORMAT_B8G8R8A8_UNORM) 1 1 5 9).2.m_needManualGammaCorrection = true :=
  ⟨by decide,
   (C9_srgb_counterpart_selected (okRuntime [VK_FORMAT_B8G8R8A8_SRGB])
     (ingestedEngineNoForce VK_FORMAT_B8G8R8A8_UNORM) 1 1 5 9
     { sourceImage := 11, currentLayout := 5, width := 2880, height := 1600,
       format := VK_FORMAT_B8G8R8A8_UNORM } []
     (by decide) (by decide) (by decide)).1 (by decide)⟩

/-- C10 as stated fails: on the engine as constructed, with an ingested R8G8B8A8_UNORM eye-0
texture and the unrelated B8G8R8A8_SRGB the only supported format, `Init` selects
B8G8R8A8_SRGB and the manual-gamma-correction flag is false, not true. -/
theorem C10_counterexample :
    (ingestedEngine VK_FORMAT_R8G8B8A8_UNORM).m_sharedTextures.map (fun x => x.format) =
      [VK_FORMAT_R8G8B8A8_UNORM] ∧
    enumeratesFormats (okRuntime [VK_FORMAT_B8G8R8A8_SRGB])
      (ingestedEngine VK_FORMAT_R8G8B8A8_UNORM).calls 5 [VK_FORMAT_B8G8R8A8_SRGB] ∧
    VK_FORMAT_B8G8R8A8_SRGB ≠ VK_FORMAT_R8G8B8A8_UNORM ∧
    VK_FORMAT_B8G8R8A8_SRGB ≠ VK_FORMAT_R8G8B8A8_SRGB ∧
    (InitAux (okRuntime [VK_FORMAT_B8G8R8A8_SRGB])
      (ingestedEngine VK_FORMAT_R8G8B8A8_UNORM) 1 1 5 9).2 = some VK_FORMAT_B8G8R8A8_SRGB ∧
    (Init (okRuntime [VK_FORMAT_B8G8R8A8_SRGB])
      (ingestedEngine VK_FORMAT_R8G8B8A8_UNORM) 1 1 5 9).2.m_needManualGammaCorrection = false := by
  decide

/-- C10 (amended): for every ingested eye-0 source format A and every supported-format list
consisting of a single format C other than A: if A is not B8G8R8A8_UNORM, the negotiation run
by `Init` selects C and leaves the manual-gamma-correction flag at its previous value; if A
is B8G8R8A8_UNORM, C is not B8G8R8A8_SRGB and the force-linear option is off, it selects C
and sets the flag to true; if A is B8G8R8A8_UNORM and the force-linear option is on, as on an
engine as constructed, it selects A and sets the flag to false. -/
theorem C10_fallback_first_format (w : Runtime) (s : OpenXRDirectMode)
    (inst systemId session space : Nat) (C : Int)
    (tex : SharedTextureData) (rest : List SharedTextureData)
    (hrt : enumeratesFormats w s.calls session [C])
    (htex : s.m_sharedTextures = tex :: rest)
    (hne : C ≠ tex.format) :
    (tex.format ≠ VK_FORMAT_B8G8R8A8_UNORM →
      (InitAux w s inst systemId session space).2 = some C ∧
      (Init w s inst systemId session space).2.m_needManualGammaCorrection =
        s.m_needManualGammaCorrection) ∧
    (tex.format = VK_FORMAT_B8G8R8A8_UNORM → C ≠ VK_FORMAT_B8G8R8A8_SRGB →
      s.m_forceLinearFormats = false →
      (InitAux w s inst systemId session space).2 = some C ∧
      (Init w s inst systemId session space).2.m_needManualGammaCorrection = true) ∧
    (tex.format = VK_FORMAT_B8G8R8A8_UNORM → s.m_forceLinearFormats = true →
      (InitAux w s inst systemId session space).2 = some VK_FORMAT_B8G8R8A8_UNORM ∧
      (Init w s inst systemId session space).2.m_needManualGammaCorrection = false) := by
  have h := Init_negotiation w s inst systemId session space _ hrt
  have hmem : tex.format ∉ [C] := by
    simp only [List.mem_singleton]
    exact fun e => hne e.symm
  rw [Init_selectFormat_no_match _ s tex rest htex hmem] at h
  refine ⟨?_, ?_, ?_⟩
  · intro hsource
    rw [if_neg hsource] at h
    exact h
  · intro hsource hsrgb hforce
    rw [if_pos hsource, hforce] at h
    have hb : (C == VK_FORMAT_B8G8R8A8_SRGB) = false := beq_false_of_ne hsrgb
    have hfind : List.find? (fun format => format == VK_FORMAT_B8G8R8A8_SRGB) [C] = none := by
      simp only [List.find?, hb]
    rw [hfind] at h
    exact h
  · intro hsource hforce
    rw [if_pos hsource, hforce] at h
    exact h

/-- Witness of C10 (amended): source R8G8B8A8_UNORM, only B8G8R8A8_SRGB supported. -/
theorem C10_fallback_first_format_witness :
    VK_FORMAT_B8G8R8A8_SRGB ≠ VK_FORMAT_R8G8B8A8_UNORM ∧
    VK_FORMAT_R8G8B8A8_UNORM ≠ VK_FORMAT_B8G8R8A8_UNORM ∧
    (InitAux (okRuntime [VK_FORMAT_B8G8R8A8_SRGB])
      (ingestedEngine VK_FORMAT_R8G8B8A8_UNORM) 1 1 5 9).2 = some VK_FORMAT_B8G8R8A8_SRGB ∧
    (Init (okRuntime [VK_FORMAT_B8G8R8A8_SRGB])
      (ingestedEngine VK_FORMAT_R8G8B8A8_UNORM) 1 1 5 9).2.m_needManualGammaCorrection =
        (ingestedEngine VK_FORMAT_R8G8B8A8_UNORM).m_needManualGammaCorrection :=
  ⟨by decide, by decide,
   (C10_fallback_first_format (okRuntime [VK_FORMAT_B8G8R8A8_SRGB])
     (ingestedEngine VK_FORMAT_R8G8B8A8_UNORM) 1 1 5 9 VK_FORMAT_B8G8R8A8_SRGB
     { sourceImage := 11, currentLayout := 5, width := 2880, height := 1600,
       format := VK_FORMAT_R8G8B8A8_UNORM } []
     (by decide) (by decide) (by decide)).1 (by decide)⟩

/-! ### Surface provisioning -/

/-- Modifying one entry of a list keeps a property of the entry at `j` that the modification
preserves. -/
theorem getElem?_modify_preserves {α : Type} (P : α → Prop) (g : α → α) (hg : ∀ a, P a → P (g a))
    (i j : Nat) (l : List α) (h : ∀ a, l[j]? = some a → P a) :
    ∀ a, (List.modify g i l)[j]? = some a → P a := by
  intro a ha
  rw [List.getElem?_modify] at ha
  cases hl : l[j]? with
  | none => rw [hl] at ha; exact absurd ha (by simp)
  | some b =>
    rw [hl] at ha
    simp only [Option.map_eq_map, Option.map_some', Option.some.injEq] at ha
    rw [← ha]
    split_ifs
    · exact hg b (h b hl)
    · exact h b hl

/-- Modifying the entry at `i` establishes there a property that the modification yields. -/
theorem getElem?_modify_establishes {α : Type} (P : α → Prop) (g : α → α) (hg : ∀ a, P (g a))
    (i : Nat) (l : List α) : ∀ a, (List.modify g i l)[i]? = some a → P a := by
  intro a ha
  rw [List.getElem?_modify_eq] at ha
  cases hl : l[i]? with
  | none => rw [hl] at ha; exact absurd ha (by simp)
  | some b =>
    rw [hl] at ha
    simp only [Option.map_eq_map, Option.map_some', Option.some.injEq] at ha
    rw [← ha]
    exact hg b

/-- The swapchain-creation loop keeps the number of surfaces. -/
theorem CreateEyeSwapchains_loop_length (w : Runtime) (sw sh : Nat) (f : Int) (n : Nat) :
    ∀ (i : Nat) (s : OpenXRDirectMode),
      (CreateEyeSwapchains_loop w sw sh f n i s).2.m_eyeSwapchains.length =
        s.m_eyeSwapchains.length := by
  induction n with
  | zero => intro i s; rfl
  | succ n ih =>
    intro i s
    unfold CreateEyeSwapchains_loop
    dsimp only [call]
    split_ifs <;> first
      | simp only [List.length_modify]
      | (rw [ih]; simp only [List.length_modify])

/-- The swapchain-creation loop keeps the shape of a surface that already has the shape the
loop gives. -/
theorem CreateEyeSwapchains_loop_keeps_shape (w : Runtime) (sw sh : Nat) (f : Int) (n : Nat) :
    ∀ (i : Nat) (s : OpenXRDirectMode) (j : Nat),
      (∀ sc, s.m_eyeSwapchains[j]? = some sc → sc.hasShape sw sh f) →
      ∀ sc, (CreateEyeSwapchains_loop w sw sh f n i s).2.m_eyeSwapchains[j]? = some sc →
        sc.hasShape sw sh f := by
  have hset : ∀ a : SwapchainInfo, a.hasShape sw sh f →
      SwapchainInfo.hasShape { a with width := sw, height := sh, format := f } sw sh f :=
    fun _ _ => ⟨rfl, rfl, rfl⟩
  have hhandle : ∀ (v : Nat) (a : SwapchainInfo), a.hasShape sw sh f →
      SwapchainInfo.hasShape { a with handle := v } sw sh f := fun _ _ h => h
  have himages : ∀ (v : List Nat) (a : SwapchainInfo), a.hasShape sw sh f →
      SwapchainInfo.hasShape { a with images := v } sw sh f := fun _ _ h => h
  induction n with
  | zero => intro i s j h sc hsc; exact h sc hsc
  | succ n ih =>
    intro i s j h
    have h1 := getElem?_modify_preserves (fun a => SwapchainInfo.hasShape a sw sh f) _ hset i j
      s.m_eyeSwapchains h
    unfold CreateEyeSwapchains_loop
    dsimp only [call]
    split_ifs
    · exact h1
    · exact getElem?_modify_preserves _ _ (hhandle _) i j _ h1
    · exact getElem?_modify_preserves _ _ (hhandle _) i j _ h1
    · apply ih
      exact getElem?_modify_preserves _ _ (himages _) i j _
        (getElem?_modify_preserves _ _ (hhandle _) i j _ h1)

/-- After a successful run of the swapchain-creation loop every surface the loop visited has
the width, the height and the format the loop was given. -/
theorem CreateEyeSwapchains_loop_shape (w : Runtime) (sw sh : Nat) (f : Int) (n : Nat) :
    ∀ (i : Nat) (s : OpenXRDirectMode),
      (CreateEyeSwapchains_loop w sw sh f n i s).1 = true →
      ∀ j sc, i ≤ j → j < i + n →
        (CreateEyeSwapchains_loop w sw sh f n i s).2.m_eyeSwapchains[j]? = some sc →
        sc.hasShape sw sh f := by
  induction n with
  | zero => intro i s _ j sc h1 h2; omega
  | succ n ih =>
    intro i s
    unfold CreateEyeSwapchains_loop
    dsimp only [call]
    split_ifs
    · intro h; exact absurd h (by simp)
    · intro h; exact absurd h (by simp)
    · intro h; exact absurd h (by simp)
    · intro hok j sc hij hjn hsc
      by_cases hj : j = i
      · subst hj
        refine CreateEyeSwapchains_loop_keeps_shape w sw sh f n _ _ j ?_ sc hsc
        dsimp only
        refine getElem?_modify_preserves (fun a => SwapchainInfo.hasShape a sw sh f) _ ?_ _ _ _ ?_
        · intro a h; exact h
        refine getElem?_modify_preserves (fun a => SwapchainInfo.hasShape a sw sh f) _ ?_ _ _ _ ?_
        · intro a h; exact h
        exact getElem?_modify_establishes (fun a => SwapchainInfo.hasShape a sw sh f) _
          (fun _ => ⟨rfl, rfl, rfl⟩) j s.m_eyeSwapchains
      · exact ih (i + 1) _ hok j sc (by omega) (by omega) hsc

/-- A successful `CreateEyeSwapchains` leaves as many surfaces as the compositor reported
views, and every surface has the size chosen by the sizing rule and the format
B8G8R8A8_SRGB. -/
theorem CreateEyeSwapchains_success (w : Runtime) (s : OpenXRDirectMode)
    (h : (CreateEyeSwapchains w s).1 = true) :
    (CreateEyeSwapchains w s).2.m_eyeSwapchains.length = reportedViewCount w s ∧
    ∀ sc ∈ (CreateEyeSwapchains w s).2.m_eyeSwapchains,
      sc.hasShape
        (CreateEyeSwapchains_size s.m_sharedTextures (reportedViewCount w s)
          (reportedConfigViews w s)).1
        (CreateEyeSwapchains_size s.m_sharedTextures (reportedViewCount w s)
          (reportedConfigViews w s)).2
        VK_FORMAT_B8G8R8A8_SRGB := by
  unfold CreateEyeSwapchains at h ⊢
  unfold reportedViewCount reportedConfigViews
  dsimp only [call] at h ⊢
  split_ifs at h ⊢
  have hlen := CreateEyeSwapchains_loop_length w
  refine ⟨?_, ?_⟩
  · rw [hlen]
    exact length_resize _ _
  · intro sc hsc
    obtain ⟨j, hj⟩ := List.mem_iff_getElem?.mp hsc
    have hlt := (List.getElem?_eq_some.mp hj).1
    rw [hlen] at hlt
    dsimp only at hlt
    rw [length_resize] at hlt
    exact CreateEyeSwapchains_loop_shape w _ _ _ _ 0 _ h j sc (Nat.zero_le j)
      (by rw [Nat.zero_add]; exact hlt) hj

/-- The sizing rule for one source texture and two views: half the width, full height. -/
theorem CreateEyeSwapchains_size_single (tex : SharedTextureData)
    (configViews : List XrViewConfigurationView) :
    CreateEyeSwapchains_size [tex] 2 configViews = (tex.width / 2, tex.height) := by
  simp [CreateEyeSwapchains_size]

/-- The sizing rule for two source textures and two views: the size of texture 0. -/
theorem CreateEyeSwapchains_size_pair (t0 t1 : SharedTextureData)
    (configViews : List XrViewConfigurationView) :
    CreateEyeSwapchains_size [t0, t1] 2 configViews = (t0.width, t0.height) := by
  simp [CreateEyeSwapchains_size]

/-- C11: for every engine whose source-texture list holds exactly one texture of size W x H
and every compositor reporting exactly two views, a successful `CreateEyeSwapchains` leaves
two surfaces, each of width floor(W/2) and height H. -/
theorem C11_single_texture_half_width (w : Runtime) (s : OpenXRDirectMode)
    (tex : SharedTextureData) (htex : s.m_sharedTextures = [tex])
    (hviews : reportedViewCount w s = 2) (hok : (CreateEyeSwapchains w s).1 = true) :
    (CreateEyeSwapchains w s).2.m_eyeSwapchains.length = 2 ∧
    ∀ sc ∈ (CreateEyeSwapchains w s).2.m_eyeSwapchains,
      sc.width = tex.width / 2 ∧ sc.height = tex.height := by
  have h := CreateEyeSwapchains_success w s hok
  rw [htex, hviews, CreateEyeSwapchains_size_single] at h
  exact ⟨h.1, fun sc hsc => ⟨(h.2 sc hsc).1, (h.2 sc hsc).2.1⟩⟩

/-- Witness of C11: one 2880 x 1600 texture yields two 1440 x 1600 surfaces. -/
theorem C11_single_texture_half_width_witness :
    (readyEngine (okRuntime [VK_FORMAT_B8G8R8A8_SRGB])
      [eyeTextureSized VK_FORMAT_B8G8R8A8_SRGB 2880 1600]).m_sharedTextures.map
        (fun x => (x.width, x.height)) = [(2880, 1600)] ∧
    (CreateEyeSwapchains (okRuntime [VK_FORMAT_B8G8R8A8_SRGB])
      (readyEngine (okRuntime [VK_FORMAT_B8G8R8A8_SRGB])
        [eyeTextureSized VK_FORMAT_B8G8R8A8_SRGB 2880 1600])).2.m_eyeSwapchains.map
        (fun sc => (sc.width, sc.height)) = [(1440, 1600), (1440, 1600)] ∧
    ((CreateEyeSwapchains (okRuntime [VK_FORMAT_B8G8R8A8_SRGB])
      (readyEngine (okRuntime [VK_FORMAT_B8G8R8A8_SRGB])
        [eyeTextureSized VK_FORMAT_B8G8R8A8_SRGB 2880 1600])).2.m_eyeSwapchains.length = 2 ∧
     ∀ sc ∈ (CreateEyeSwapchains (okRuntime [VK_FORMAT_B8G8R8A8_SRGB])
      (readyEngine (okRuntime [VK_FORMAT_B8G8R8A8_SRGB])
        [eyeTextureSized VK_FORMAT_B8G8R8A8_SRGB 2880 1600])).2.m_eyeSwapchains,
      sc.width = 2880 / 2 ∧ sc.height = 1600) :=
  ⟨by decide, by decide,
   C11_single_texture_half_width (okRuntime [VK_FORMAT_B8G8R8A8_SRGB])
     (readyEngine (okRuntime [VK_FORMAT_B8G8R8A8_SRGB])
       [eyeTextureSized VK_FORMAT_B8G8R8A8_SRGB 2880 1600])
     { sourceImage := 11, currentLayout := 5, width := 2880, height := 1600,
       format := VK_FORMAT_B8G8R8A8_SRGB }
     (by decide) (by decide) (by decide)⟩

/-- C12 as stated fails: with source textures of sizes 1440 x 1600 (eye 0) and 2000 x 1700
(eye 1) and two views, provisioning succeeds and the surface of eye 1 is 1440 x 1600, the
size of texture 0, not the size of its own texture. -/
theorem C12_counterexample :
    (readyEngine (okRuntime [VK_FORMAT_B8G8R8A8_SRGB])
      [eyeTextureSized VK_FORMAT_B8G8R8A8_SRGB 1440 1600,
       eyeTextureSized VK_FORMAT_B8G8R8A8_SRGB 2000 1700]).m_sharedTextures.map
        (fun x => (x.width, x.height)) = [(1440, 1600), (2000, 1700)] ∧
    reportedViewCount (okRuntime [VK_FORMAT_B8G8R8A8_SRGB])
      (readyEngine (okRuntime [VK_FORMAT_B8G8R8A8_SRGB])
        [eyeTextureSized VK_FORMAT_B8G8R8A8_SRGB 1440 1600,
         eyeTextureSized VK_FORMAT_B8G8R8A8_SRGB 2000 1700]) = 2 ∧
    (CreateEyeSwapchains (okRuntime [VK_FORMAT_B8G8R8A8_SRGB])
      (readyEngine (okRuntime [VK_FORMAT_B8G8R8A8_SRGB])
        [eyeTextureSized VK_FORMAT_B8G8R8A8_SRGB 1440 1600,
         eyeTextureSized VK_FORMAT_B8G8R8A8_SRGB 2000 1700])).1 = true ∧
    (CreateEyeSwapchains (okRuntime [VK_FORMAT_B8G8R8A8_SRGB])
      (readyEngine (okRuntime [VK_FORMAT_B8G8R8A8_SRGB])
        [eyeTextureSized VK_FORMAT_B8G8R8A8_SRGB 1440 1600,
         eyeTextureSized VK_FORMAT_B8G8R8A8_SRGB 2000 1700])).2.m_eyeSwapchains.map
        (fun sc => (sc.width, sc.height)) = [(1440, 1600), (1440, 1600)] := by
  decide

/-- C12 (amended): for every engine whose source-texture list holds two textures of sizes
(w0,h0) and (w1,h1) and every compositor reporting two views, a successful
`CreateEyeSwapchains` leaves two surfaces, and the surface of each eye has the width w0 and
the height h0 of source texture 0. -/
theorem C12_two_textures_first_size (w : Runtime) (s : OpenXRDirectMode)
    (t0 t1 : SharedTextureData) (htex : s.m_sharedTextures = [t0, t1])
    (hviews : reportedViewCount w s = 2) (hok : (CreateEyeSwapchains w s).1 = true) :
    (CreateEyeSwapchains w s).2.m_eyeSwapchains.length = 2 ∧
    ∀ sc ∈ (CreateEyeSwapchains w s).2.m_eyeSwapchains,
      sc.width = t0.width ∧ sc.height = t0.height := by
  have h := CreateEyeSwapchains_success w s hok
  rw [htex, hviews, CreateEyeSwapchains_size_pair] at h
  exact ⟨h.1, fun sc hsc => ⟨(h.2 sc hsc).1, (h.2 sc hsc).2.1⟩⟩

/-- Witness of C12 (amended): two 1440 x 1600 textures yield two 1440 x 1600 surfaces. -/
theorem C12_two_textures_first_size_witness :
    (CreateEyeSwapchains (okRuntime [VK_FORMAT_B8G8R8A8_SRGB])
      (readyEngine (okRuntime [VK_FORMAT_B8G8R8A8_SRGB])
        [eyeTextureSized VK_FORMAT_B8G8R8A8_SRGB 1440 1600,
         eyeTextureSized VK_FORMAT_B8G8R8A8_SRGB 1440 1600])).2.m_eyeSwapchains.length = 2 ∧
    ∀ sc ∈ (CreateEyeSwapchains (okRuntime [VK_FORMAT_B8G8R8A8_SRGB])
      (readyEngine (okRuntime [VK_FORMAT_B8G8R8A8_SRGB])
        [eyeTextureSized VK_FORMAT_B8G8R8A8_SRGB 1440 1600,
         eyeTextureSized VK_FORMAT_B8G8R8A8_SRGB 1440 1600])).2.m_eyeSwapchains,
      sc.width = 1440 ∧ sc.height = 1600 :=
  C12_two_textures_first_size (okRuntime [VK_FORMAT_B8G8R8A8_SRGB])
    (readyEngine (okRuntime [VK_FORMAT_B8G8R8A8_SRGB])
      [eyeTextureSized VK_FORMAT_B8G8R8A8_SRGB 1440 1600,
       eyeTextureSized VK_FORMAT_B8G8R8A8_SRGB 1440 1600])
    { sourceImage := 11, currentLayout := 5, width := 1440, height := 1600,
      format := VK_FORMAT_B8G8R8A8_SRGB }
    { sourceImage := 11, currentLayout := 5, width := 1440, height := 1600,
      format := VK_FORMAT_B8G8R8A8_SRGB }
    (by decide) (by decide) (by decide)

/-! ### Call histories -/

/-- A history extends itself. -/
theorem addsOnly_refl (q : Call → Bool) (l : List Call) : addsOnly q l l :=
  ⟨[], rfl, fun _ h => absurd h (List.not_mem_nil _)⟩

/-- One more call of the kind `q`. -/
theorem addsOnly_cons (q : Call → Bool) (old l : List Call) (c : Call) (hc : q c = true)
    (h : addsOnly q old l) : addsOnly q old (c :: l) := by
  obtain ⟨added, rfl, hq⟩ := h
  refine ⟨c :: added, rfl, ?_⟩
  intro x hx
  rcases List.mem_cons.mp hx with h1 | h1
  · rw [h1]; exact hc
  · exact hq x h1

/-- Extensions compose. -/
theorem addsOnly_trans (q : Call → Bool) (a b c : List Call) (h1 : addsOnly q a b)
    (h2 : addsOnly q b c) : addsOnly q a c := by
  obtain ⟨x, rfl, hx⟩ := h1
  obtain ⟨y, rfl, hy⟩ := h2
  refine ⟨y ++ x, by rw [List.append_assoc], ?_⟩
  intro z hz
  rcases List.mem_append.mp hz with h | h
  · exact hy z h
  · exact hx z h

/-- An extension by calls of one kind is an extension by calls of every wider kind. -/
theorem addsOnly_mono (q r : Call → Bool) (old new : List Call) (hqr : ∀ c, q c = true → r c = true)
    (h : addsOnly q old new) : addsOnly r old new := by
  obtain ⟨x, hx, hq⟩ := h
  exact ⟨x, hx, fun c hc => hqr c (hq c hc)⟩

/-- Function `beginSingleTimeCommands` issues calls to the graphics device only. -/
theorem beginSingleTimeCommands_calls (w : Runtime) (s : OpenXRDirectMode) :
    addsOnly Call.isVulkan s.calls (beginSingleTimeCommands w s).2.calls := by
  unfold beginSingleTimeCommands
  dsimp only [call]
  split_ifs <;>
    repeat (first
      | exact addsOnly_refl _ _
      | refine addsOnly_cons _ _ _ _ rfl ?_)

/-- Function `endSingleTimeCommands` issues calls to the graphics device only. -/
theorem endSingleTimeCommands_calls (w : Runtime) (s : OpenXRDirectMode) (c : Nat) :
    addsOnly Call.isVulkan s.calls (endSingleTimeCommands w s c).calls := by
  unfold endSingleTimeCommands
  dsimp only [call]
  split_ifs <;>
    repeat (first
      | exact addsOnly_refl _ _
      | refine addsOnly_cons _ _ _ _ rfl ?_)

/-! ### Image transfer -/

/-- Function `beginSingleTimeCommands` writes no member but the current command pool (and
the call history). -/
theorem beginSingleTimeCommands_frame (w : Runtime) (s : OpenXRDirectMode) :
    (beginSingleTimeCommands w s).2.m_eyeSwapchains = s.m_eyeSwapchains ∧
    (beginSingleTimeCommands w s).2.m_sharedTextures = s.m_sharedTextures ∧
    (beginSingleTimeCommands w s).2.m_projectionViews = s.m_projectionViews ∧
    (beginSingleTimeCommands w s).2.m_bFrameStarted = s.m_bFrameStarted ∧
    (beginSingleTimeCommands w s).2.m_session = s.m_session := by
  unfold beginSingleTimeCommands
  dsimp only [call]
  split_ifs <;> exact ⟨rfl, rfl, rfl, rfl, rfl⟩

/-- Function `endSingleTimeCommands` writes no member but the current command pool (and the
call history). -/
theorem endSingleTimeCommands_frame (w : Runtime) (s : OpenXRDirectMode) (c : Nat) :
    (endSingleTimeCommands w s c).m_eyeSwapchains = s.m_eyeSwapchains ∧
    (endSingleTimeCommands w s c).m_sharedTextures = s.m_sharedTextures ∧
    (endSingleTimeCommands w s c).m_projectionViews = s.m_projectionViews ∧
    (endSingleTimeCommands w s c).m_bFrameStarted = s.m_bFrameStarted ∧
    (endSingleTimeCommands w s c).m_session = s.m_session := by
  unfold endSingleTimeCommands
  dsimp only [call]
  split_ifs <;> exact ⟨rfl, rfl, rfl, rfl, rfl⟩

/-- The transfer loop writes neither the surface list, the source textures, the
frame-started flag nor the session, and keeps the number of projection views. -/
theorem CopyToSwapchains_loop_frame (w : Runtime) (n : Nat) :
    ∀ (i : Nat) (s : OpenXRDirectMode),
      (CopyToSwapchains_loop w n i s).2.m_eyeSwapchains = s.m_eyeSwapchains ∧
      (CopyToSwapchains_loop w n i s).2.m_sharedTextures = s.m_sharedTextures ∧
      (CopyToSwapchains_loop w n i s).2.m_projectionViews.length = s.m_projectionViews.length ∧
      (CopyToSwapchains_loop w n i s).2.m_bFrameStarted = s.m_bFrameStarted ∧
      (CopyToSwapchains_loop w n i s).2.m_session = s.m_session := by
  induction n with
  | zero => intro i s; exact ⟨rfl, rfl, rfl, rfl, rfl⟩
  | succ n ih =>
    intro i s
    unfold CopyToSwapchains_loop
    dsimp only [call]
    split_ifs <;>
      first
      | exact ⟨rfl, rfl, rfl, rfl, rfl⟩
      | simp only [ih, endSingleTimeCommands_frame, beginSingleTimeCommands_frame,
          List.length_modify, and_self]

/-- The transfer loop issues calls of the image transfer only. -/
theorem CopyToSwapchains_loop_calls (w : Runtime) (n : Nat) :
    ∀ (i : Nat) (s : OpenXRDirectMode),
      addsOnly Call.isTransfer s.calls (CopyToSwapchains_loop w n i s).2.calls := by
  have hv : ∀ c : Call, c.isVulkan = true → c.isTransfer = true := by
    intro c hc
    cases c <;> first | rfl | exact absurd hc (by simp [Call.isVulkan])
  induction n with
  | zero => intro i s; exact addsOnly_refl _ _
  | succ n ih =>
    intro i s
    unfold CopyToSwapchains_loop
    dsimp only [call]
    split_ifs <;>
      repeat (first
        | exact addsOnly_refl _ _
        | refine addsOnly_cons _ _ _ _ rfl ?_
        | refine addsOnly_trans _ _ _ _ ?_ (ih _ _)
        | refine addsOnly_trans _ _ _ _ ?_
            (addsOnly_mono _ _ _ _ hv (endSingleTimeCommands_calls w _ _))
        | refine addsOnly_trans _ _ _ _ ?_
            (addsOnly_mono _ _ _ _ hv (beginSingleTimeCommands_calls w _)))

/-- Function `EndFrame` with an active session and a started frame, in terms of its
provisioning step. -/
theorem EndFrame_eq (w : Runtime) (s : OpenXRDirectMode) (hs : s.m_session ≠ 0)
    (hf : s.m_bFrameStarted = true) :
    EndFrame w s =
      if !(EndFrame_provision w s).1
      then (false, { (EndFrame_provision w s).2 with m_bFrameStarted := false })
      else
        let s1 := (EndFrame_provision w s).2
        let t := if !s1.m_eyeSwapchains.isEmpty then CopyToSwapchains w s1 else (true, s1)
        if !t.1 then (false, { t.2 with m_bFrameStarted := false })
        else EndFrame_submit w t.2 := by
  unfold EndFrame EndFrame_provision
  rw [if_neg hs, if_neg (by simp [hf])]

/-- Function `EndFrame` returns failure without a call of its own when the transfer fails. -/
theorem EndFrame_transfer_failure (w : Runtime) (s0 s : OpenXRDirectMode)
    (hs : s0.m_session ≠ 0) (hf : s0.m_bFrameStarted = true)
    (hprov : EndFrame_provision w s0 = (true, s)) (hne : s.m_eyeSwapchains ≠ [])
    (hfail : (CopyToSwapchains w s).1 = false) :
    EndFrame w s0 = (false, { (CopyToSwapchains w s).2 with m_bFrameStarted := false }) := by
  have hemp : (!s.m_eyeSwapchains.isEmpty) = true := by
    cases hl : s.m_eyeSwapchains with
    | nil => exact absurd hl hne
    | cons a l => rfl
  rw [EndFrame_eq w s0 hs hf, hprov]
  dsimp only
  rw [if_neg (by simp), if_pos hemp, if_pos (by simp [hfail])]

/-! ### Frame conditions of provisioning -/

/-- The transfer issues calls of the image transfer only. -/
theorem CopyToSwapchains_calls (w : Runtime) (s : OpenXRDirectMode) :
    addsOnly Call.isTransfer s.calls (CopyToSwapchains w s).2.calls := by
  unfold CopyToSwapchains
  split_ifs
  · exact addsOnly_refl _ _
  · exact addsOnly_refl _ _
  · exact CopyToSwapchains_loop_calls w _ _ _

/-- The transfer writes neither the surface list, the source textures, the frame-started
flag nor the session, and keeps the number of projection views. -/
theorem CopyToSwapchains_frame (w : Runtime) (s : OpenXRDirectMode) :
    (CopyToSwapchains w s).2.m_eyeSwapchains = s.m_eyeSwapchains ∧
    (CopyToSwapchains w s).2.m_sharedTextures = s.m_sharedTextures ∧
    (CopyToSwapchains w s).2.m_projectionViews.length = s.m_projectionViews.length ∧
    (CopyToSwapchains w s).2.m_bFrameStarted = s.m_bFrameStarted ∧
    (CopyToSwapchains w s).2.m_session = s.m_session := by
  unfold CopyToSwapchains
  split_ifs
  · exact ⟨rfl, rfl, rfl, rfl, rfl⟩
  · exact ⟨rfl, rfl, rfl, rfl, rfl⟩
  · exact CopyToSwapchains_loop_frame w _ _ _

/-- Function `EndFrame` returns failure and clears the frame-started flag when its
provisioning step fails, and leaves the surface list as provisioning left it. -/
theorem EndFrame_provisioning_failure (w : Runtime) (s : OpenXRDirectMode)
    (hs : s.m_session ≠ 0) (hf : s.m_bFrameStarted = true)
    (hfail : (EndFrame_provision w s).1 = false) :
    (EndFrame w s).1 = false ∧ (EndFrame w s).2.m_bFrameStarted = false ∧
    (EndFrame w s).2.m_eyeSwapchains = (EndFrame_provision w s).2.m_eyeSwapchains ∧
    (EndFrame w s).2.calls = (EndFrame_provision w s).2.calls := by
  rw [EndFrame_eq w s hs hf, if_pos (by simp [hfail])]
  exact ⟨rfl, rfl, rfl, rfl⟩

/-- Function `CreateEyeSwapchains` returns failure and does not write the surface list when
one of its enumeration calls fails. -/
theorem CreateEyeSwapchains_enumeration_failure (w : Runtime) (s : OpenXRDirectMode)
    (h : provisioningEnumerationFails w s) :
    (CreateEyeSwapchains w s).1 = false ∧
    (CreateEyeSwapchains w s).2.m_eyeSwapchains = s.m_eyeSwapchains := by
  unfold provisioningEnumerationFails at h
  unfold CreateEyeSwapchains
  dsimp only [call] at h ⊢
  split_ifs with h1 h2 h3 h4
  · exact ⟨rfl, rfl⟩
  · exact ⟨rfl, rfl⟩
  · exact ⟨rfl, rfl⟩
  · exact ⟨rfl, rfl⟩
  · rcases h with h | h | h | h
    · exact absurd h h1
    · exact absurd h h2
    · exact absurd h h3
    · exact absurd h h4

/-- C13 fails for surface-creation errors: on a compositor whose `xrCreateSwapchain` fails,
from an engine with a started frame, no surface and one 2880 x 1600 source texture,
`EndFrame` returns failure and clears the frame-started flag, but it leaves two surface
records with the null handle in the surface list.  In the next started frame `EndFrame`
finds the list non-empty, issues no provisioning call, asks for an image of the null
surface as its only call and returns failure. -/
theorem C13_creation_failure_leaves_surfaces :
    (readyEngine createSwapchainFailsRuntime
      [eyeTextureSized VK_FORMAT_B8G8R8A8_SRGB 2880 1600]).m_eyeSwapchains = [] ∧
    (readyEngine createSwapchainFailsRuntime
      [eyeTextureSized VK_FORMAT_B8G8R8A8_SRGB 2880 1600]).m_sharedTextures.length = 1 ∧
    (readyEngine createSwapchainFailsRuntime
      [eyeTextureSized VK_FORMAT_B8G8R8A8_SRGB 2880 1600]).m_bFrameStarted = true ∧
    (EndFrame createSwapchainFailsRuntime
      (readyEngine createSwapchainFailsRuntime
        [eyeTextureSized VK_FORMAT_B8G8R8A8_SRGB 2880 1600])).1 = false ∧
    (EndFrame createSwapchainFailsRuntime
      (readyEngine createSwapchainFailsRuntime
        [eyeTextureSized VK_FORMAT_B8G8R8A8_SRGB 2880 1600])).2.m_bFrameStarted = false ∧
    (EndFrame createSwapchainFailsRuntime
      (readyEngine createSwapchainFailsRuntime
        [eyeTextureSized VK_FORMAT_B8G8R8A8_SRGB 2880 1600])).2.m_eyeSwapchains.map
          (fun sc => (sc.handle, sc.width, sc.height, sc.images)) =
      [(0, 1440, 1600, []), (0, 0, 0, [])] ∧
    (PostPresentCallback createSwapchainFailsRuntime
      (PrePresent (EndFrame createSwapchainFailsRuntime
        (readyEngine createSwapchainFailsRuntime
          [eyeTextureSized VK_FORMAT_B8G8R8A8_SRGB 2880 1600])).2)).m_bFrameStarted = true ∧
    EndFrame createSwapchainFailsRuntime
      (PostPresentCallback createSwapchainFailsRuntime
        (PrePresent (EndFrame createSwapchainFailsRuntime
          (readyEngine createSwapchainFailsRuntime
            [eyeTextureSized VK_FORMAT_B8G8R8A8_SRGB 2880 1600])).2)) =
      (false,
       { (PostPresentCallback createSwapchainFailsRuntime
          (PrePresent (EndFrame createSwapchainFailsRuntime
            (readyEngine createSwapchainFailsRuntime
              [eyeTextureSized VK_FORMAT_B8G8R8A8_SRGB 2880 1600])).2)) with
         m_bFrameStarted := false
         calls := Call.xrAcquireSwapchainImage 0 ::
           (PostPresentCallback createSwapchainFailsRuntime
            (PrePresent (EndFrame createSwapchainFailsRuntime
              (readyEngine createSwapchainFailsRuntime
                [eyeTextureSized VK_FORMAT_B8G8R8A8_SRGB 2880 1600])).2)).calls }) := by
  decide

/-! ### C14: texture ingest -/

/-- Resizing a vector keeps the elements below the old and the new size. -/
theorem getElem?_resize_of_lt {α : Type} [Inhabited α] (v : List α) (n j : Nat)
    (hj : j < v.length) (hn : j < n) : (resize v n)[j]? = v[j]? := by
  unfold resize
  rw [List.getElem?_append_left (by rw [List.length_take]; omega), List.getElem?_take_of_lt hn]

/-- C14: for every non-null descriptor `d` and every index `index >= 0` (with `index + 1`
an `int`, as line 529 computes it; the model computes it without overflow): if the descriptor is at least as wide and as high as the recorded render-target
size, then after `StoreSharedTexture` entry `index` of the source-texture list holds the
image, width, height and format of the descriptor (and the shader-read layout), every entry
that existed before at another index is unchanged, and the list has grown to `index + 1`
entries if it was shorter; otherwise the source-texture list is unchanged. -/
theorem C14_ingest_size_filter (s : OpenXRDirectMode) (index : Int) (d : VulkanTextureData)
    (hindex : 0 ≤ index) (_hint : index + 1 < 2 ^ 31) :
    (s.m_nRenderWidth ≤ d.width ∧ s.m_nRenderHeight ≤ d.height →
      (StoreSharedTexture s index (some d)).m_sharedTextures[index.toNat]? =
        some { sourceImage := d.image, currentLayout := VK_IMAGE_LAYOUT_SHADER_READ_ONLY_OPTIMAL,
               width := d.width, height := d.height, format := d.format } ∧
      (∀ j : Nat, j < s.m_sharedTextures.length → j ≠ index.toNat →
        (StoreSharedTexture s index (some d)).m_sharedTextures[j]? = s.m_sharedTextures[j]?) ∧
      (StoreSharedTexture s index (some d)).m_sharedTextures.length =
        max s.m_sharedTextures.length (index.toNat + 1)) ∧
    (¬ (s.m_nRenderWidth ≤ d.width ∧ s.m_nRenderHeight ≤ d.height) →
      (StoreSharedTexture s index (some d)).m_sharedTextures = s.m_sharedTextures) := by
  unfold StoreSharedTexture
  dsimp only
  rw [if_neg (not_lt.mpr hindex)]
  constructor
  · intro h
    rw [if_pos h]
    dsimp only
    by_cases hlen : s.m_sharedTextures.length ≤ index.toNat
    · rw [if_pos hlen]
      refine ⟨?_, ?_, ?_⟩
      · rw [List.getElem?_set_self (by rw [length_resize]; omega)]
      · intro j hj hne
        rw [List.getElem?_set_ne (Ne.symm hne), getElem?_resize_of_lt _ _ _ hj (by omega)]
      · rw [List.length_set, length_resize]
        omega
    · rw [if_neg hlen]
      refine ⟨?_, ?_, ?_⟩
      · rw [List.getElem?_set_self (by omega)]
      · intro j _ hne
        rw [List.getElem?_set_ne (Ne.symm hne)]
      · rw [List.length_set]
        omega
  · intro h
    rw [if_neg h]

/-- Witness of C14: on the initialised engine (render-target size 1440 x 1600) a
2880 x 1600 descriptor ingested at index 1 is stored, and a 512 x 512 descriptor leaves the
list as it is. -/
theorem C14_ingest_size_filter_witness :
    (initialisedEngine.m_nRenderWidth, initialisedEngine.m_nRenderHeight) = (1440, 1600) ∧
    (StoreSharedTexture initialisedEngine 1
      (some (eyeTextureSized VK_FORMAT_B8G8R8A8_SRGB 2880 1600))).m_sharedTextures =
      [default, { sourceImage := 11, currentLayout := 5, width := 2880, height := 1600,
                  format := VK_FORMAT_B8G8R8A8_SRGB }] ∧
    (StoreSharedTexture initialisedEngine 1
      (some (eyeTextureSized VK_FORMAT_B8G8R8A8_SRGB 2880 1600))).m_sharedTextures[(1 : Int).toNat]? =
      some { sourceImage := 11, currentLayout := VK_IMAGE_LAYOUT_SHADER_READ_ONLY_OPTIMAL,
             width := 2880, height := 1600, format := VK_FORMAT_B8G8R8A8_SRGB } ∧
    (StoreSharedTexture initialisedEngine 0
      (some (eyeTextureSized VK_FORMAT_B8G8R8A8_SRGB 512 512))).m_sharedTextures =
      initialisedEngine.m_sharedTextures :=
  ⟨by decide, by decide,
   ((C14_ingest_size_filter initialisedEngine 1
      (eyeTextureSized VK_FORMAT_B8G8R8A8_SRGB 2880 1600) (by decide) (by decide)).1
        (by decide)).1,
   by decide⟩

/-! ### C15: the copy region -/

/-- Function `beginSingleTimeCommands` records no copy command. -/
theorem beginSingleTimeCommands_copies (w : Runtime) (s : OpenXRDirectMode) :
    (beginSingleTimeCommands w s).2.calls.filter Call.isCopy = s.calls.filter Call.isCopy := by
  unfold beginSingleTimeCommands
  dsimp only [call]
  split_ifs <;> rfl

/-- Function `endSingleTimeCommands` records no copy command. -/
theorem endSingleTimeCommands_copies (w : Runtime) (s : OpenXRDirectMode) (c : Nat) :
    (endSingleTimeCommands w s c).calls.filter Call.isCopy = s.calls.filter Call.isCopy := by
  unfold endSingleTimeCommands
  dsimp only [call]
  split_ifs <;> rfl

/-- A successful transfer of the eye `e` records exactly one copy command: in the command
buffer of `beginSingleTimeCommands`, from the source texture of the eye in its current
layout to the acquired surface image, with the region of `CopyToSwapchains_region`. -/
theorem CopyToSwapchains_loop_copy (w : Runtime) (s : OpenXRDirectMode) (e : Nat)
    (hok : (CopyToSwapchains_loop w 1 e s).1 = true) :
    (CopyToSwapchains_loop w 1 e s).2.calls.filter Call.isCopy =
      Call.vkCmdCopyImage (beginSingleTimeCommands w (CopyToSwapchains_acquired s e)).1
        (s.m_sharedTextures.getD (if s.m_sharedTextures.length = 1 then 0 else e) default).sourceImage
        (s.m_sharedTextures.getD (if s.m_sharedTextures.length = 1 then 0 else e) default).currentLayout
        ((s.m_eyeSwapchains.getD e default).images.getD
          (u32 (w.xrAcquireSwapchainImage (Call.xrAcquireSwapchainImage
            (s.m_eyeSwapchains.getD e default).handle :: s.calls)).value) 0)
        (CopyToSwapchains_region s.m_sharedTextures.length
          (s.m_sharedTextures.getD (if s.m_sharedTextures.length = 1 then 0 else e) default) e
          (s.m_eyeSwapchains.getD e default).width).1
        (CopyToSwapchains_region s.m_sharedTextures.length
          (s.m_sharedTextures.getD (if s.m_sharedTextures.length = 1 then 0 else e) default) e
          (s.m_eyeSwapchains.getD e default).width).2.1
        (CopyToSwapchains_region s.m_sharedTextures.length
          (s.m_sharedTextures.getD (if s.m_sharedTextures.length = 1 then 0 else e) default) e
          (s.m_eyeSwapchains.getD e default).width).2.2
      :: s.calls.filter Call.isCopy := by
  simp only [CopyToSwapchains_loop, CopyToSwapchains_acquired] at hok ⊢
  dsimp only [call] at hok ⊢
  split_ifs at hok ⊢
  all_goals
    dsimp only
    rw [List.filter_cons_of_neg (by simp [Call.isCopy]), endSingleTimeCommands_copies]
    dsimp only
    rw [List.filter_cons_of_neg (by simp [Call.isCopy]),
      List.filter_cons_of_pos (by simp [Call.isCopy]),
      List.filter_cons_of_neg (by simp [Call.isCopy]), beginSingleTimeCommands_copies]
    rfl

/-- The copy region is the half of the eye when one source texture is at least twice as wide
as the surface. -/
theorem CopyToSwapchains_region_split (src : SharedTextureData) (e sw : Nat)
    (hW : src.width < 2 ^ 32) (h2 : 2 * sw ≤ src.width) (he : e ≤ 1) :
    CopyToSwapchains_region 1 src e sw = (((e * sw : Nat) : Int), sw, src.height) := by
  have hsw : sw < 2 ^ 31 := by omega
  have hmul : e * sw < 2 ^ 31 :=
    Nat.lt_of_le_of_lt (by simpa using Nat.mul_le_mul_right sw he) hsw
  unfold CopyToSwapchains_region u32 toInt32
  rw [Nat.mod_eq_of_lt (show sw * 2 < 2 ^ 32 by omega), if_pos ⟨rfl, by omega⟩,
    Nat.mod_mod, Nat.mod_eq_of_lt (show e * sw < 2 ^ 32 by omega), if_pos hmul]

/-- The copy region is the whole source image when the split condition does not hold and
twice the surface width fits 32 bits. -/
theorem CopyToSwapchains_region_whole (n : Nat) (src : SharedTextureData) (e sw : Nat)
    (hsw : sw < 2 ^ 31) (h : ¬ (n = 1 ∧ 2 * sw ≤ src.width)) :
    CopyToSwapchains_region n src e sw = ((0 : Int), src.width, src.height) := by
  unfold CopyToSwapchains_region u32
  rw [Nat.mod_eq_of_lt (show sw * 2 < 2 ^ 32 by omega), if_neg]
  intro hc
  exact h ⟨hc.1, by omega⟩

/-- Where the product does not wrap the copy region is the one of the split-copy rule.  Let
the transfer of the eye `e` succeed, `src` be the source texture of the eye (texture 0 when
the list holds one texture) with a 32-bit width W, and sw the width of the surface of the
eye.  The transfer records exactly one copy command, from the image of `src` to the acquired
surface image.  When the list holds one texture, W >= 2*sw and `e` is 0 or 1, the command
copies from the x-offset e * sw with the width sw and the height of `src`.  When the
condition does not hold and sw < 2^31, it copies the whole source image from the x-offset
0. -/
theorem CopyToSwapchains_split_copy_region (w : Runtime) (s : OpenXRDirectMode) (e : Nat)
    (src : SharedTextureData)
    (hsrc : s.m_sharedTextures.getD (if s.m_sharedTextures.length = 1 then 0 else e) default = src)
    (hW : src.width < 2 ^ 32)
    (hok : (CopyToSwapchains_loop w 1 e s).1 = true) :
    (s.m_sharedTextures.length = 1 ∧ 2 * (s.m_eyeSwapchains.getD e default).width ≤ src.width →
      e ≤ 1 →
      (CopyToSwapchains_loop w 1 e s).2.calls.filter Call.isCopy =
        Call.vkCmdCopyImage (beginSingleTimeCommands w (CopyToSwapchains_acquired s e)).1
          src.sourceImage src.currentLayout
          ((s.m_eyeSwapchains.getD e default).images.getD
            (u32 (w.xrAcquireSwapchainImage (Call.xrAcquireSwapchainImage
              (s.m_eyeSwapchains.getD e default).handle :: s.calls)).value) 0)
          ((e * (s.m_eyeSwapchains.getD e default).width : Nat) : Int)
          (s.m_eyeSwapchains.getD e default).width src.height
        :: s.calls.filter Call.isCopy) ∧
    (¬ (s.m_sharedTextures.length = 1 ∧
        2 * (s.m_eyeSwapchains.getD e default).width ≤ src.width) →
      (s.m_eyeSwapchains.getD e default).width < 2 ^ 31 →
      (CopyToSwapchains_loop w 1 e s).2.calls.filter Call.isCopy =
        Call.vkCmdCopyImage (beginSingleTimeCommands w (CopyToSwapchains_acquired s e)).1
          src.sourceImage src.currentLayout
          ((s.m_eyeSwapchains.getD e default).images.getD
            (u32 (w.xrAcquireSwapchainImage (Call.xrAcquireSwapchainImage
              (s.m_eyeSwapchains.getD e default).handle :: s.calls)).value) 0)
          0 src.width src.height
        :: s.calls.filter Call.isCopy) := by
  have h := CopyToSwapchains_loop_copy w s e hok
  rw [hsrc] at h
  refine ⟨?_, ?_⟩
  · intro hc he
    rw [h, hc.1, CopyToSwapchains_region_split src e _ hW hc.2 he]
  · intro hc hsw
    rw [h, CopyToSwapchains_region_whole _ src e _ hsw hc]

/-- Example of the split-copy rule: with one 2880 x 1600 source texture and two 1440 x 1600
surfaces, the transfer of eye 1 (after that of eye 0) copies from the x-offset 1440 with the
width 1440; eye 0 was copied from the x-offset 0. -/
theorem CopyToSwapchains_split_copy_region_example :
    provisionedEngine.m_eyeSwapchains.map (fun sc => (sc.handle, sc.width, sc.height)) =
      [(7, 1440, 1600), (7, 1440, 1600)] ∧
    (CopyToSwapchains_loop (okRuntime [VK_FORMAT_B8G8R8A8_SRGB]) 1 1
      (CopyToSwapchains_loop (okRuntime [VK_FORMAT_B8G8R8A8_SRGB]) 1 0
        provisionedEngine).2).2.calls.filter Call.isCopy =
      [Call.vkCmdCopyImage 41 11 5 21 1440 1440 1600, Call.vkCmdCopyImage 41 11 5 21 0 1440 1600] :=
  ⟨by decide,
   (CopyToSwapchains_split_copy_region (okRuntime [VK_FORMAT_B8G8R8A8_SRGB])
      (CopyToSwapchains_loop (okRuntime [VK_FORMAT_B8G8R8A8_SRGB]) 1 0 provisionedEngine).2 1
      { sourceImage := 11, currentLayout := 5, width := 2880, height := 1600,
        format := VK_FORMAT_B8G8R8A8_SRGB }
      (by decide) (by decide) (by decide)).1 ⟨by decide, by decide⟩ (by decide)⟩

/-! ### C17: the submitted layer -/

/-- The loop that builds the projection views writes the projection views only and keeps
their number. -/
theorem EndFrame_buildProjectionViews_frame (n : Nat) :
    ∀ (i : Nat) (s : OpenXRDirectMode),
      (EndFrame_buildProjectionViews n i s).m_eyeSwapchains = s.m_eyeSwapchains ∧
      (EndFrame_buildProjectionViews n i s).m_projectionViews.length = s.m_projectionViews.length ∧
      (EndFrame_buildProjectionViews n i s).m_session = s.m_session ∧
      (EndFrame_buildProjectionViews n i s).m_space = s.m_space ∧
      (EndFrame_buildProjectionViews n i s).m_frameState = s.m_frameState ∧
      (EndFrame_buildProjectionViews n i s).calls = s.calls := by
  induction n with
  | zero => intro i s; exact ⟨rfl, rfl, rfl, rfl, rfl, rfl⟩
  | succ n ih =>
    intro i s
    unfold EndFrame_buildProjectionViews
    dsimp only
    simp only [ih, List.length_modify, and_self]

/-- The projection step of `EndFrame` writes the projection views only and keeps their
number. -/
theorem EndFrame_projection_frame (s : OpenXRDirectMode) :
    (EndFrame_projection s).m_eyeSwapchains = s.m_eyeSwapchains ∧
    (EndFrame_projection s).m_projectionViews.length = s.m_projectionViews.length ∧
    (EndFrame_projection s).m_session = s.m_session ∧
    (EndFrame_projection s).m_space = s.m_space ∧
    (EndFrame_projection s).m_frameState = s.m_frameState ∧
    (EndFrame_projection s).calls = s.calls := by
  unfold EndFrame_projection
  split_ifs
  · exact EndFrame_buildProjectionViews_frame _ _ _
  · exact ⟨rfl, rfl, rfl, rfl, rfl, rfl⟩

/-- The step of `EndFrame` that creates default views writes the views and the projection
views only. -/
theorem EndFrame_ensureViews_frame (s : OpenXRDirectMode) :
    (EndFrame_ensureViews s).m_eyeSwapchains = s.m_eyeSwapchains ∧
    (EndFrame_ensureViews s).m_session = s.m_session ∧
    (EndFrame_ensureViews s).m_space = s.m_space ∧
    (EndFrame_ensureViews s).m_frameState = s.m_frameState ∧
    (EndFrame_ensureViews s).m_viewState = s.m_viewState ∧
    (EndFrame_ensureViews s).calls = s.calls := by
  unfold EndFrame_ensureViews
  split_ifs <;> exact ⟨rfl, rfl, rfl, rfl, rfl, rfl⟩

/-- Function `EndFrame` goes on to its submission part when provisioning and transfer
succeeded. -/
theorem EndFrame_reaches_submission (w : Runtime) (s : OpenXRDirectMode)
    (hs : s.m_session ≠ 0) (hf : s.m_bFrameStarted = true)
    (h : (EndFrame_transfer w s).1 = true) :
    EndFrame w s = EndFrame_submit w (EndFrame_transfer w s).2 := by
  rw [EndFrame_eq w s hs hf]
  unfold EndFrame_transfer at h ⊢
  by_cases hp : (!(EndFrame_provision w s).1) = true
  · rw [if_pos hp] at h
    exact absurd h (by simp)
  · rw [if_neg hp] at h
    simp only [if_neg hp]
    by_cases he : (!(EndFrame_provision w s).2.m_eyeSwapchains.isEmpty) = true
    · rw [if_pos he] at h
      simp only [if_pos he]
      rw [if_neg (by simp [h])]
    · simp only [if_neg he]
      rw [if_neg (by simp)]

/-- The call with which the submission part of `EndFrame` ends the frame. -/
theorem EndFrame_submit_calls (w : Runtime) (s2 : OpenXRDirectMode) :
    (EndFrame_submit w s2).2.calls =
      if (EndFrame_ensureViews s2).m_projectionViews ≠ [] ∧ s2.m_eyeSwapchains ≠ []
      then Call.xrEndFrame s2.m_session s2.m_frameState.predictedDisplayTime 1 s2.m_space
        (u32 (min s2.m_eyeSwapchains.length (EndFrame_ensureViews s2).m_projectionViews.length))
        (EndFrame_projection (EndFrame_ensureViews s2)).m_projectionViews :: s2.calls
      else Call.xrEndFrame s2.m_session s2.m_frameState.predictedDisplayTime 0 0 0 [] :: s2.calls := by
  have hp := EndFrame_projection_frame (EndFrame_ensureViews s2)
  have he := EndFrame_ensureViews_frame s2
  have hnil : ∀ {α : Type} (l : List α), (!l.isEmpty) = true ↔ l ≠ [] := by
    intro α l
    cases l <;> simp
  have hpv : (EndFrame_projection (EndFrame_ensureViews s2)).m_projectionViews ≠ [] ↔
      (EndFrame_ensureViews s2).m_projectionViews ≠ [] := by
    rw [← List.length_pos, ← List.length_pos, hp.2.1]
  have hcond : ((!(EndFrame_projection (EndFrame_ensureViews s2)).m_projectionViews.isEmpty) = true ∧
      (!(EndFrame_projection (EndFrame_ensureViews s2)).m_eyeSwapchains.isEmpty) = true) ↔
      ((EndFrame_ensureViews s2).m_projectionViews ≠ [] ∧ s2.m_eyeSwapchains ≠ []) := by
    rw [hnil, hnil, hpv, hp.1, he.1]
  unfold EndFrame_submit
  dsimp only [call]
  by_cases hc : (EndFrame_ensureViews s2).m_projectionViews ≠ [] ∧ s2.m_eyeSwapchains ≠ []
  · rw [if_pos (hcond.mpr hc), if_pos hc]
    dsimp only
    rw [hp.2.1, hp.2.2.1, hp.2.2.2.1, hp.2.2.2.2.1, hp.2.2.2.2.2, he.2.1, he.2.2.1, he.2.2.2.1,
      he.2.2.2.2.2]
    simp only [hp.1, he.1]
    by_cases hlt : s2.m_eyeSwapchains.length < (EndFrame_ensureViews s2).m_projectionViews.length
    · rw [if_pos hlt, Nat.min_eq_left (Nat.le_of_lt hlt)]
    · rw [if_neg hlt, Nat.min_eq_right (Nat.le_of_not_lt hlt)]
  · rw [if_neg (fun h => hc (hcond.mp h)), if_neg hc]
    dsimp only
    rw [hp.2.2.1, hp.2.2.2.2.1, hp.2.2.2.2.2, he.2.1, he.2.2.2.1, he.2.2.2.2.2]

/-- C17 as stated fails: on a compositor that locates the views with both validity flags
clear, with one 2880 x 1600 source texture, the frame reaches submission and `EndFrame`
submits it with one projection layer of two views (layer count 1), not with zero layers;
it does so in the first frame and in the next one. -/
theorem C17_counterexample :
    (readyEngine invalidViewsRuntime
      [eyeTextureSized VK_FORMAT_B8G8R8A8_SRGB 2880 1600]).m_viewState = 0 ∧
    EndFrame_validViews (EndFrame_transfer invalidViewsRuntime
      (readyEngine invalidViewsRuntime
        [eyeTextureSized VK_FORMAT_B8G8R8A8_SRGB 2880 1600])).2 = false ∧
    (EndFrame invalidViewsRuntime
      (readyEngine invalidViewsRuntime
        [eyeTextureSized VK_FORMAT_B8G8R8A8_SRGB 2880 1600])).1 = true ∧
    (EndFrame invalidViewsRuntime
      (readyEngine invalidViewsRuntime
        [eyeTextureSized VK_FORMAT_B8G8R8A8_SRGB 2880 1600])).2.calls.take 1 =
      [Call.xrEndFrame 5 1000 1 9 2
        [{ pose := 0, fov := 0, swapchain := 7, offsetX := 0, offsetY := 0,
           extentWidth := 1440, extentHeight := 1600 },
         { pose := 0, fov := 0, swapchain := 7, offsetX := 0, offsetY := 0,
           extentWidth := 1440, extentHeight := 1600 }]] ∧
    (PostPresentCallback invalidViewsRuntime (PrePresent (EndFrame invalidViewsRuntime
      (readyEngine invalidViewsRuntime
        [eyeTextureSized VK_FORMAT_B8G8R8A8_SRGB 2880 1600])).2)).m_viewState = 0 ∧
    (EndFrame invalidViewsRuntime
      (PostPresentCallback invalidViewsRuntime (PrePresent (EndFrame invalidViewsRuntime
        (readyEngine invalidViewsRuntime
          [eyeTextureSized VK_FORMAT_B8G8R8A8_SRGB 2880 1600])).2))).2.calls.take 1 =
      [Call.xrEndFrame 5 1000 1 9 2
        [{ pose := 1, fov := 1, swapchain := 7, offsetX := 0, offsetY := 0,
           extentWidth := 1440, extentHeight := 1600 },
         { pose := 2, fov := 2, swapchain := 7, offsetX := 0, offsetY := 0,
           extentWidth := 1440, extentHeight := 1600 }]] := by
  decide

/-- C17 (amended): let `EndFrame` be called with an active session and a started frame, and
let provisioning and transfer succeed, so that the frame reaches submission in the state
`(EndFrame_transfer w s).2`.  When the projection-view list (after the default views were
created) and the surface list are both non-empty, `EndFrame` submits the frame with one
projection layer (layer count 1) holding the projection views, whatever the validity flags
of the view state are; when a validity flag is clear the projection views are submitted as
they are, without being rebuilt from the views.  Otherwise `EndFrame` submits the frame with
zero layers. -/
theorem C17_layer_follows_surfaces (w : Runtime) (s : OpenXRDirectMode)
    (hs : s.m_session ≠ 0) (hf : s.m_bFrameStarted = true)
    (hreach : (EndFrame_transfer w s).1 = true) :
    ((EndFrame_ensureViews (EndFrame_transfer w s).2).m_projectionViews ≠ [] ∧
        (EndFrame_transfer w s).2.m_eyeSwapchains ≠ [] →
      (EndFrame w s).2.calls =
        Call.xrEndFrame (EndFrame_transfer w s).2.m_session
          (EndFrame_transfer w s).2.m_frameState.predictedDisplayTime 1
          (EndFrame_transfer w s).2.m_space
          (u32 (min (EndFrame_transfer w s).2.m_eyeSwapchains.length
            (EndFrame_ensureViews (EndFrame_transfer w s).2).m_projectionViews.length))
          (EndFrame_projection (EndFrame_ensureViews (EndFrame_transfer w s).2)).m_projectionViews
        :: (EndFrame_transfer w s).2.calls ∧
      (EndFrame_validViews (EndFrame_transfer w s).2 = false →
        (EndFrame_projection (EndFrame_ensureViews (EndFrame_transfer w s).2)).m_projectionViews =
          (EndFrame_ensureViews (EndFrame_transfer w s).2).m_projectionViews)) ∧
    (¬ ((EndFrame_ensureViews (EndFrame_transfer w s).2).m_projectionViews ≠ [] ∧
        (EndFrame_transfer w s).2.m_eyeSwapchains ≠ []) →
      (EndFrame w s).2.calls =
        Call.xrEndFrame (EndFrame_transfer w s).2.m_session
          (EndFrame_transfer w s).2.m_frameState.predictedDisplayTime 0 0 0 []
        :: (EndFrame_transfer w s).2.calls) := by
  rw [EndFrame_reaches_submission w s hs hf hreach, EndFrame_submit_calls]
  refine ⟨fun hc => ⟨by rw [if_pos hc], ?_⟩, fun hc => by rw [if_neg hc]⟩
  intro hv
  have hv2 : EndFrame_validViews (EndFrame_ensureViews (EndFrame_transfer w s).2) = false := by
    unfold EndFrame_validViews at hv ⊢
    rw [(EndFrame_ensureViews_frame _).2.2.2.2.1]
    exact hv
  unfold EndFrame_projection
  rw [if_neg (by simp [hv2])]

/-- Witness of C17 (amended): on `okRuntime` with one 2880 x 1600 source texture the frame
is submitted with one projection layer of two views. -/
theorem C17_layer_follows_surfaces_witness :
    (EndFrame (okRuntime [VK_FORMAT_B8G8R8A8_SRGB])
      (readyEngine (okRuntime [VK_FORMAT_B8G8R8A8_SRGB])
        [eyeTextureSized VK_FORMAT_B8G8R8A8_SRGB 2880 1600])).2.calls =
      Call.xrEndFrame 5 1000 1 9 2
        [{ pose := 0, fov := 0, swapchain := 7, offsetX := 0, offsetY := 0,
           extentWidth := 1440, extentHeight := 1600 },
         { pose := 0, fov := 0, swapchain := 7, offsetX := 0, offsetY := 0,
           extentWidth := 1440, extentHeight := 1600 }]
      :: (EndFrame_transfer (okRuntime [VK_FORMAT_B8G8R8A8_SRGB])
          (readyEngine (okRuntime [VK_FORMAT_B8G8R8A8_SRGB])
            [eyeTextureSized VK_FORMAT_B8G8R8A8_SRGB 2880 1600])).2.calls :=
  ((C17_layer_follows_surfaces (okRuntime [VK_FORMAT_B8G8R8A8_SRGB])
      (readyEngine (okRuntime [VK_FORMAT_B8G8R8A8_SRGB])
        [eyeTextureSized VK_FORMAT_B8G8R8A8_SRGB 2880 1600])
      (by decide) (by decide) (by decide)).1 ⟨by decide, by decide⟩).1

/-! ### C18: the surface format -/

/-- The swapchain-creation loop creates surfaces of the target format only. -/
theorem CreateEyeSwapchains_loop_createsFormat (w : Runtime) (sw sh : Nat) (f : Int) (n : Nat) :
    ∀ (i : Nat) (s : OpenXRDirectMode),
      addsOnly (Call.createsFormat f) s.calls (CreateEyeSwapchains_loop w sw sh f n i s).2.calls := by
  induction n with
  | zero => intro i s; exact addsOnly_refl _ _
  | succ n ih =>
    intro i s
    unfold CreateEyeSwapchains_loop
    dsimp only [call]
    split_ifs <;>
      repeat (first
        | exact addsOnly_refl _ _
        | refine addsOnly_cons _ _ _ _ (by simp [Call.createsFormat]) ?_
        | refine addsOnly_trans _ _ _ _ ?_ (ih _ _))

/-- Function `CreateEyeSwapchains` creates surfaces of the format `B8G8R8A8_SRGB` only. -/
theorem CreateEyeSwapchains_createsFormat (w : Runtime) (s : OpenXRDirectMode) :
    addsOnly (Call.createsFormat VK_FORMAT_B8G8R8A8_SRGB) s.calls
      (CreateEyeSwapchains w s).2.calls := by
  unfold CreateEyeSwapchains
  dsimp only [call]
  split_ifs <;>
    repeat (first
      | exact addsOnly_refl _ _
      | refine addsOnly_cons _ _ _ _ (by simp [Call.createsFormat]) ?_
      | refine addsOnly_trans _ _ _ _ ?_ (CreateEyeSwapchains_loop_createsFormat w _ _ _ _ _ _))

/-- C18 as stated fails: the compositor supports the formats B8G8R8A8_SRGB (50) and
B8G8R8A8_UNORM (44), the eye-0 source texture has the format 44, provisioning succeeds, and
both surfaces are created with the format 50, not with the format of the source. -/
theorem C18_counterexample :
    ((okRuntime [VK_FORMAT_B8G8R8A8_SRGB, VK_FORMAT_B8G8R8A8_UNORM]).xrEnumerateSwapchainFormats
      [Call.xrEnumerateSwapchainFormats 5 2]).items = [50, 44] ∧
    (readyEngine (okRuntime [VK_FORMAT_B8G8R8A8_SRGB, VK_FORMAT_B8G8R8A8_UNORM])
      [eyeTextureSized VK_FORMAT_B8G8R8A8_UNORM 2880 1600]).m_sharedTextures.map
        (fun x => x.format) = [44] ∧
    (CreateEyeSwapchains (okRuntime [VK_FORMAT_B8G8R8A8_SRGB, VK_FORMAT_B8G8R8A8_UNORM])
      (readyEngine (okRuntime [VK_FORMAT_B8G8R8A8_SRGB, VK_FORMAT_B8G8R8A8_UNORM])
        [eyeTextureSized VK_FORMAT_B8G8R8A8_UNORM 2880 1600])).1 = true ∧
    (CreateEyeSwapchains (okRuntime [VK_FORMAT_B8G8R8A8_SRGB, VK_FORMAT_B8G8R8A8_UNORM])
      (readyEngine (okRuntime [VK_FORMAT_B8G8R8A8_SRGB, VK_FORMAT_B8G8R8A8_UNORM])
        [eyeTextureSized VK_FORMAT_B8G8R8A8_UNORM 2880 1600])).2.m_eyeSwapchains.map
        (fun sc => sc.format) = [50, 50] ∧
    (CreateEyeSwapchains (okRuntime [VK_FORMAT_B8G8R8A8_SRGB, VK_FORMAT_B8G8R8A8_UNORM])
      (readyEngine (okRuntime [VK_FORMAT_B8G8R8A8_SRGB, VK_FORMAT_B8G8R8A8_UNORM])
        [eyeTextureSized VK_FORMAT_B8G8R8A8_UNORM 2880 1600])).2.calls.filter
        (fun c => !c.createsFormat 44) =
      [Call.xrCreateSwapchain 5 50 1440 1600, Call.xrCreateSwapchain 5 50 1440 1600] := by
  decide

/-- C18 (amended): for every eye-0 source texture format and every supported-format list, a
successful `CreateEyeSwapchains` issues surface-creation calls of the format B8G8R8A8_SRGB
only and leaves every surface with the recorded format B8G8R8A8_SRGB; the format of a
surface equals the format of the eye-0 source texture exactly when that texture has the
format B8G8R8A8_SRGB. -/
theorem C18_surfaces_have_srgb_format (w : Runtime) (s : OpenXRDirectMode)
    (hok : (CreateEyeSwapchains w s).1 = true) :
    addsOnly (Call.createsFormat VK_FORMAT_B8G8R8A8_SRGB) s.calls
      (CreateEyeSwapchains w s).2.calls ∧
    ∀ sc ∈ (CreateEyeSwapchains w s).2.m_eyeSwapchains,
      sc.format = VK_FORMAT_B8G8R8A8_SRGB ∧
      (sc.format = (s.m_sharedTextures.getD 0 default).format ↔
        (s.m_sharedTextures.getD 0 default).format = VK_FORMAT_B8G8R8A8_SRGB) := by
  refine ⟨CreateEyeSwapchains_createsFormat w s, ?_⟩
  intro sc hsc
  have h := ((CreateEyeSwapchains_success w s hok).2 sc hsc).2.2
  refine ⟨h, ?_⟩
  rw [h]
  exact eq_comm

/-- Witness of C18 (amended): with a source texture of the format B8G8R8A8_SRGB provisioning
succeeds on `okRuntime` and both surfaces have the format B8G8R8A8_SRGB. -/
theorem C18_surfaces_have_srgb_format_witness :
    (CreateEyeSwapchains (okRuntime [VK_FORMAT_B8G8R8A8_SRGB])
      (readyEngine (okRuntime [VK_FORMAT_B8G8R8A8_SRGB])
        [eyeTextureSized VK_FORMAT_B8G8R8A8_SRGB 2880 1600])).2.m_eyeSwapchains.length = 2 ∧
    ∀ sc ∈ (CreateEyeSwapchains (okRuntime [VK_FORMAT_B8G8R8A8_SRGB])
      (readyEngine (okRuntime [VK_FORMAT_B8G8R8A8_SRGB])
        [eyeTextureSized VK_FORMAT_B8G8R8A8_SRGB 2880 1600])).2.m_eyeSwapchains,
      sc.format = VK_FORMAT_B8G8R8A8_SRGB ∧
      (sc.format = ((readyEngine (okRuntime [VK_FORMAT_B8G8R8A8_SRGB])
          [eyeTextureSized VK_FORMAT_B8G8R8A8_SRGB 2880 1600]).m_sharedTextures.getD 0 default).format ↔
        ((readyEngine (okRuntime [VK_FORMAT_B8G8R8A8_SRGB])
          [eyeTextureSized VK_FORMAT_B8G8R8A8_SRGB 2880 1600]).m_sharedTextures.getD 0 default).format =
          VK_FORMAT_B8G8R8A8_SRGB) :=
  ⟨by decide,
   (C18_surfaces_have_srgb_format (okRuntime [VK_FORMAT_B8G8R8A8_SRGB])
     (readyEngine (okRuntime [VK_FORMAT_B8G8R8A8_SRGB])
       [eyeTextureSized VK_FORMAT_B8G8R8A8_SRGB 2880 1600]) (by decide)).2⟩

/-! ### C19: session initialisation and the render-target size -/

/-- A call of another kind than surface provisioning. -/
theorem not_isSurfaceSetup_of_isTransfer (c : Call) (h : c.isTransfer = true) :
    (!c.isSurfaceSetup) = true := by
  cases c <;> first | rfl | exact absurd h (by simp [Call.isTransfer, Call.isVulkan])

/-- A refresh call is no provisioning call. -/
theorem not_isSurfaceSetup_of_isRefresh (c : Call) (h : c.isRefresh = true) :
    (!c.isSurfaceSetup) = true := by
  cases c <;> first | rfl | exact absurd h (by simp [Call.isRefresh])

/-- Function `WaitPoses` does not write the surface list and issues refresh calls only. -/
theorem WaitPoses_surfaces (w : Runtime) (s : OpenXRDirectMode) :
    (WaitPoses w s).2.m_eyeSwapchains = s.m_eyeSwapchains ∧
    addsOnly Call.isRefresh s.calls (WaitPoses w s).2.calls := by
  unfold WaitPoses
  dsimp only [call]
  split_ifs <;>
    exact ⟨rfl, by
      repeat (first
        | exact addsOnly_refl _ _
        | refine addsOnly_cons _ _ _ _ rfl ?_)⟩

/-- Function `StoreSharedTexture` writes neither the surface list nor the call history. -/
theorem StoreSharedTexture_surfaces (s : OpenXRDirectMode) (index : Int)
    (vulkanData : Option VulkanTextureData) :
    (StoreSharedTexture s index vulkanData).m_eyeSwapchains = s.m_eyeSwapchains ∧
    (StoreSharedTexture s index vulkanData).calls = s.calls := by
  unfold StoreSharedTexture
  cases vulkanData with
  | none => exact ⟨rfl, rfl⟩
  | some d =>
    dsimp only
    split_ifs <;> exact ⟨rfl, rfl⟩

/-- Function `PostPresentCallback` does not write the surface list and issues no
provisioning call. -/
theorem PostPresentCallback_surfaces (w : Runtime) (s : OpenXRDirectMode) :
    (PostPresentCallback w s).m_eyeSwapchains = s.m_eyeSwapchains ∧
    addsOnly (fun c => !c.isSurfaceSetup) s.calls (PostPresentCallback w s).calls := by
  unfold PostPresentCallback
  split_ifs
  · exact ⟨rfl, addsOnly_refl _ _⟩
  · dsimp only [call]
    exact ⟨(WaitPoses_surfaces w s).1, addsOnly_cons _ _ _ _ rfl
      (addsOnly_mono _ _ _ _ not_isSurfaceSetup_of_isRefresh (WaitPoses_surfaces w s).2)⟩
  · exact ⟨rfl, addsOnly_refl _ _⟩

/-- The submission part of `EndFrame` does not write the surface list. -/
theorem EndFrame_submit_surfaces (w : Runtime) (s : OpenXRDirectMode) :
    (EndFrame_submit w s).2.m_eyeSwapchains = s.m_eyeSwapchains := by
  have hp := EndFrame_projection_frame (EndFrame_ensureViews s)
  have he := EndFrame_ensureViews_frame s
  unfold EndFrame_submit
  dsimp only [call]
  split_ifs <;> exact hp.1.trans he.1

/-- The submission part of `EndFrame` issues one call, which is no provisioning call. -/
theorem EndFrame_submit_no_setup (w : Runtime) (s : OpenXRDirectMode) :
    addsOnly (fun c => !c.isSurfaceSetup) s.calls (EndFrame_submit w s).2.calls := by
  rw [EndFrame_submit_calls]
  split_ifs
  · exact addsOnly_cons _ _ _ _ rfl (addsOnly_refl _ _)
  · exact addsOnly_cons _ _ _ _ rfl (addsOnly_refl _ _)

/-- Function `EndFrame`, after a provisioning step that succeeded and left the state `s1`
with at least one surface, leaves the surface list of `s1` and issues no provisioning call
after that step. -/
theorem EndFrame_after_provision (w : Runtime) (s s1 : OpenXRDirectMode)
    (hs : s.m_session ≠ 0) (hf : s.m_bFrameStarted = true)
    (hprov : EndFrame_provision w s = (true, s1)) (hne : s1.m_eyeSwapchains ≠ []) :
    (EndFrame w s).2.m_eyeSwapchains = s1.m_eyeSwapchains ∧
    addsOnly (fun c => !c.isSurfaceSetup) s1.calls (EndFrame w s).2.calls := by
  have hemp : s1.m_eyeSwapchains.isEmpty = false := by
    cases hl : s1.m_eyeSwapchains with
    | nil => exact absurd hl hne
    | cons a l => rfl
  have hc := CopyToSwapchains_frame w s1
  have hcc : addsOnly (fun c => !c.isSurfaceSetup) s1.calls (CopyToSwapchains w s1).2.calls :=
    addsOnly_mono _ _ _ _ not_isSurfaceSetup_of_isTransfer (CopyToSwapchains_calls w s1)
  have ht : EndFrame_transfer w s = CopyToSwapchains w s1 := by
    unfold EndFrame_transfer
    rw [hprov]
    dsimp only
    rw [if_neg (by simp), if_pos (by simp [hemp])]
  cases hcopy : (CopyToSwapchains w s1).1
  · rw [EndFrame_transfer_failure w s s1 hs hf hprov hne hcopy]
    exact ⟨hc.1, hcc⟩
  · rw [EndFrame_reaches_submission w s hs hf (by rw [ht]; exact hcopy), ht]
    exact ⟨(EndFrame_submit_surfaces w _).trans hc.1,
      addsOnly_trans _ _ _ _ hcc (EndFrame_submit_no_setup w _)⟩

/-- Function `EndFrame` on an engine that has surfaces: the provisioning step does nothing,
the surface list is left as it is, and no provisioning call is issued. -/
theorem EndFrame_keeps_surfaces (w : Runtime) (s : OpenXRDirectMode)
    (hne : s.m_eyeSwapchains ≠ []) :
    EndFrame_provision w s = (true, s) ∧
    (EndFrame w s).2.m_eyeSwapchains = s.m_eyeSwapchains ∧
    addsOnly (fun c => !c.isSurfaceSetup) s.calls (EndFrame w s).2.calls := by
  have hemp : s.m_eyeSwapchains.isEmpty = false := by
    cases hl : s.m_eyeSwapchains with
    | nil => exact absurd hl hne
    | cons a l => rfl
  have hprov : EndFrame_provision w s = (true, s) := by
    unfold EndFrame_provision
    rw [if_neg (by simp [hemp])]
  refine ⟨hprov, ?_⟩
  by_cases hs : s.m_session = 0
  · unfold EndFrame
    rw [if_pos hs]
    exact ⟨rfl, addsOnly_refl _ _⟩
  by_cases hf : s.m_bFrameStarted = true
  · exact EndFrame_after_provision w s s hs hf hprov hne
  · unfold EndFrame
    rw [if_neg hs, if_pos (by simpa using hf)]
    exact ⟨rfl, addsOnly_refl _ _⟩

/-- One operation on an engine that has surfaces leaves the surface list as it is and
issues no provisioning call. -/
theorem FrameOp_run_keeps_surfaces (w : Runtime) (s : OpenXRDirectMode) (op : FrameOp)
    (hne : s.m_eyeSwapchains ≠ []) :
    (FrameOp.run w s op).m_eyeSwapchains = s.m_eyeSwapchains ∧
    addsOnly (fun c => !c.isSurfaceSetup) s.calls (FrameOp.run w s op).calls := by
  cases op with
  | ingest index vulkanData =>
    refine ⟨(StoreSharedTexture_surfaces s index vulkanData).1, ?_⟩
    show addsOnly _ s.calls (StoreSharedTexture s index vulkanData).calls
    rw [(StoreSharedTexture_surfaces s index vulkanData).2]
    exact addsOnly_refl _ _
  | refresh =>
    exact ⟨(WaitPoses_surfaces w s).1,
      addsOnly_mono _ _ _ _ not_isSurfaceSetup_of_isRefresh (WaitPoses_surfaces w s).2⟩
  | endFrame => exact (EndFrame_keeps_surfaces w s hne).2
  | prePresent =>
    show (PrePresent s).m_eyeSwapchains = s.m_eyeSwapchains ∧ addsOnly _ s.calls (PrePresent s).calls
    unfold PrePresent
    split_ifs <;> exact ⟨rfl, addsOnly_refl _ _⟩
  | postPresent => exact PostPresentCallback_surfaces w s

/-- A sequence of operations on an engine that has surfaces leaves the surface list as it
is and issues no provisioning call. -/
theorem runOps_keeps_surfaces (w : Runtime) (ops : List FrameOp) :
    ∀ s : OpenXRDirectMode, s.m_eyeSwapchains ≠ [] →
      (runOps w s ops).m_eyeSwapchains = s.m_eyeSwapchains ∧
      addsOnly (fun c => !c.isSurfaceSetup) s.calls (runOps w s ops).calls := by
  induction ops with
  | nil => intro s _; exact ⟨rfl, addsOnly_refl _ _⟩
  | cons op ops ih =>
    intro s hne
    have h1 := FrameOp_run_keeps_surfaces w s op hne
    have h2 := ih (FrameOp.run w s op) (by rw [h1.1]; exact hne)
    exact ⟨h2.1.trans h1.1, addsOnly_trans _ _ _ _ h1.2 h2.2⟩

/-- C20 as stated fails when a successful provisioning creates no surface: on a compositor
whose view enumeration reports two views to the count query and then writes no view and
reports the count 0, the first `EndFrame` runs provisioning, which succeeds and leaves the
surface list empty; the `EndFrame` of the next frame runs provisioning again (two more view
enumeration calls). -/
theorem C20_counterexample :
    (CreateEyeSwapchains noViewsWrittenRuntime
      (readyEngine noViewsWrittenRuntime
        [eyeTextureSized VK_FORMAT_B8G8R8A8_SRGB 2880 1600])).1 = true ∧
    (EndFrame noViewsWrittenRuntime
      (readyEngine noViewsWrittenRuntime
        [eyeTextureSized VK_FORMAT_B8G8R8A8_SRGB 2880 1600])).1 = true ∧
    (EndFrame noViewsWrittenRuntime
      (readyEngine noViewsWrittenRuntime
        [eyeTextureSized VK_FORMAT_B8G8R8A8_SRGB 2880 1600])).2.m_eyeSwapchains = [] ∧
    (runOps noViewsWrittenRuntime
      (EndFrame noViewsWrittenRuntime
        (readyEngine noViewsWrittenRuntime
          [eyeTextureSized VK_FORMAT_B8G8R8A8_SRGB 2880 1600])).2
      [FrameOp.prePresent, FrameOp.postPresent]).calls.countP Call.isProvisioning = 4 ∧
    (runOps noViewsWrittenRuntime
      (EndFrame noViewsWrittenRuntime
        (readyEngine noViewsWrittenRuntime
          [eyeTextureSized VK_FORMAT_B8G8R8A8_SRGB 2880 1600])).2
      [FrameOp.prePresent, FrameOp.postPresent, FrameOp.endFrame]).calls.countP
        Call.isProvisioning = 6 ∧
    (runOps noViewsWrittenRuntime
      (EndFrame noViewsWrittenRuntime
        (readyEngine noViewsWrittenRuntime
          [eyeTextureSized VK_FORMAT_B8G8R8A8_SRGB 2880 1600])).2
      [FrameOp.prePresent, FrameOp.postPresent, FrameOp.endFrame]).calls.take 5 =
      [Call.xrEndFrame 5 1000 0 0 0 [],
       Call.xrEnumerateSwapchainFormats 5 1,
       Call.xrEnumerateSwapchainFormats 5 0,
       Call.xrEnumerateViewConfigurationViews 1 1 2 2,
       Call.xrEnumerateViewConfigurationViews 1 1 2 0] := by
  decide

/-- C20 (amended): let `EndFrame` be called with an active session and a started frame on an
engine without surfaces that holds a source texture, so that it runs provisioning, and let
provisioning succeed and leave at least one surface.  Then the surface list after this
`EndFrame` is the list provisioning left, and after every sequence of ingest, refresh,
`EndFrame`, `PrePresent` and `PostPresentCallback` operations the surface list is still that
list, no provisioning call (view enumeration, format enumeration, surface creation, surface
image enumeration) was issued, and the provisioning step of a further `EndFrame` does
nothing. -/
theorem C20_surfaces_provisioned_once (w : Runtime) (s0 : OpenXRDirectMode)
    (ops : List FrameOp)
    (hs : s0.m_session ≠ 0) (hf : s0.m_bFrameStarted = true)
    (hempty : s0.m_eyeSwapchains = []) (htex : s0.m_sharedTextures ≠ [])
    (hprov : (CreateEyeSwapchains w s0).1 = true)
    (hsurf : (CreateEyeSwapchains w s0).2.m_eyeSwapchains ≠ []) :
    (EndFrame w s0).2.m_eyeSwapchains = (CreateEyeSwapchains w s0).2.m_eyeSwapchains ∧
    (runOps w (EndFrame w s0).2 ops).m_eyeSwapchains = (EndFrame w s0).2.m_eyeSwapchains ∧
    addsOnly (fun c => !c.isSurfaceSetup) (EndFrame w s0).2.calls
      (runOps w (EndFrame w s0).2 ops).calls ∧
    EndFrame_provision w (runOps w (EndFrame w s0).2 ops) =
      (true, runOps w (EndFrame w s0).2 ops) := by
  have htexs : s0.m_sharedTextures.isEmpty = false := by
    cases hl : s0.m_sharedTextures with
    | nil => exact absurd hl htex
    | cons a l => rfl
  have hp : EndFrame_provision w s0 = (true, (CreateEyeSwapchains w s0).2) := by
    unfold EndFrame_provision
    rw [if_pos (by simp [hempty, htexs])]
    exact Prod.ext hprov rfl
  have h1 := EndFrame_after_provision w s0 _ hs hf hp hsurf
  have hne : (EndFrame w s0).2.m_eyeSwapchains ≠ [] := by
    rw [h1.1]
    exact hsurf
  have h2 := runOps_keeps_surfaces w ops _ hne
  refine ⟨h1.1, h2.1, h2.2, (EndFrame_keeps_surfaces w _ ?_).1⟩
  rw [h2.1]
  exact hne

/-- Witness of C20 (amended): on `okRuntime` with one 2880 x 1600 source texture the first
`EndFrame` creates two surfaces, and they are still there after a second frame in which the
texture is ingested again, the poses are refreshed and `EndFrame` is called. -/
theorem C20_surfaces_provisioned_once_witness :
    (EndFrame (okRuntime [VK_FORMAT_B8G8R8A8_SRGB])
      (readyEngine (okRuntime [VK_FORMAT_B8G8R8A8_SRGB])
        [eyeTextureSized VK_FORMAT_B8G8R8A8_SRGB 2880 1600])).2.m_eyeSwapchains.map
        (fun sc => (sc.handle, sc.width, sc.height, sc.format)) =
      [(7, 1440, 1600, 50), (7, 1440, 1600, 50)] ∧
    (runOps (okRuntime [VK_FORMAT_B8G8R8A8_SRGB])
      (EndFrame (okRuntime [VK_FORMAT_B8G8R8A8_SRGB])
        (readyEngine (okRuntime [VK_FORMAT_B8G8R8A8_SRGB])
          [eyeTextureSized VK_FORMAT_B8G8R8A8_SRGB 2880 1600])).2
      [FrameOp.prePresent, FrameOp.ingest 0 (some (eyeTextureSized VK_FORMAT_B8G8R8A8_SRGB 2880 1600)),
       FrameOp.postPresent, FrameOp.refresh, FrameOp.endFrame]).m_eyeSwapchains =
      (EndFrame (okRuntime [VK_FORMAT_B8G8R8A8_SRGB])
        (readyEngine (okRuntime [VK_FORMAT_B8G8R8A8_SRGB])
          [eyeTextureSized VK_FORMAT_B8G8R8A8_SRGB 2880 1600])).2.m_eyeSwapchains ∧
    (runOps (okRuntime [VK_FORMAT_B8G8R8A8_SRGB])
      (EndFrame (okRuntime [VK_FORMAT_B8G8R8A8_SRGB])
        (readyEngine (okRuntime [VK_FORMAT_B8G8R8A8_SRGB])
          [eyeTextureSized VK_FORMAT_B8G8R8A8_SRGB 2880 1600])).2
      [FrameOp.prePresent, FrameOp.ingest 0 (some (eyeTextureSized VK_FORMAT_B8G8R8A8_SRGB 2880 1600)),
       FrameOp.postPresent, FrameOp.refresh, FrameOp.endFrame]).calls.countP Call.isEndFrame = 2 :=
  ⟨by decide,
   (C20_surfaces_provisioned_once (okRuntime [VK_FORMAT_B8G8R8A8_SRGB])
      (readyEngine (okRuntime [VK_FORMAT_B8G8R8A8_SRGB])
        [eyeTextureSized VK_FORMAT_B8G8R8A8_SRGB 2880 1600])
      [FrameOp.prePresent, FrameOp.ingest 0 (some (eyeTextureSized VK_FORMAT_B8G8R8A8_SRGB 2880 1600)),
       FrameOp.postPresent, FrameOp.refresh, FrameOp.endFrame]
      (by decide) (by decide) (by decide) (by decide) (by decide) (by decide)).2.1,
   by decide⟩

/-! ### C21: the entries of the source-texture list -/

/-- An element of a resized vector is an element of the vector or value-initialised. -/
theorem mem_resize {α : Type} [Inhabited α] (v : List α) (n : Nat) (a : α)
    (h : a ∈ resize v n) : a ∈ v ∨ a = default := by
  unfold resize at h
  rcases List.mem_append.mp h with h1 | h1
  · exact Or.inl (List.mem_of_mem_take h1)
  · exact Or.inr (List.eq_of_mem_replicate h1)

/-- Function `StoreSharedTexture` does not write the render-target size, and every entry of
the source-texture list after it was there before, is value-initialised, or is the entry of
a descriptor that passed the size test. -/
theorem StoreSharedTexture_entries (s : OpenXRDirectMode) (index : Int)
    (vulkanData : Option VulkanTextureData) :
    (StoreSharedTexture s index vulkanData).m_nRenderWidth = s.m_nRenderWidth ∧
    (StoreSharedTexture s index vulkanData).m_nRenderHeight = s.m_nRenderHeight ∧
    ∀ e ∈ (StoreSharedTexture s index vulkanData).m_sharedTextures,
      e ∈ s.m_sharedTextures ∨ e = default ∨
      (s.m_nRenderWidth ≤ e.width ∧ s.m_nRenderHeight ≤ e.height) := by
  unfold StoreSharedTexture
  cases vulkanData with
  | none => exact ⟨rfl, rfl, fun e he => Or.inl he⟩
  | some d =>
    dsimp only
    by_cases h1 : index < 0
    · rw [if_pos h1]
      exact ⟨rfl, rfl, fun e he => Or.inl he⟩
    · rw [if_neg h1]
      by_cases h2 : s.m_nRenderWidth ≤ d.width ∧ s.m_nRenderHeight ≤ d.height
      · rw [if_pos h2]
        dsimp only
        refine ⟨rfl, rfl, fun e he => ?_⟩
        rcases List.mem_or_eq_of_mem_set he with h | h
        · by_cases h3 : s.m_sharedTextures.length ≤ index.toNat
          · rw [if_pos h3] at h
            rcases mem_resize _ _ _ h with h' | h'
            · exact Or.inl h'
            · exact Or.inr (Or.inl h')
          · rw [if_neg h3] at h
            exact Or.inl h
        · rw [h]
          exact Or.inr (Or.inr h2)
      · rw [if_neg h2]
        exact ⟨rfl, rfl, fun e he => Or.inl he⟩

/-- A sequence of `StoreSharedTexture` calls does not write the render-target size and keeps
the property that every entry passed the size test or is value-initialised. -/
theorem ingestSequence_entries (ops : List (Int × Option VulkanTextureData)) :
    ∀ s : OpenXRDirectMode,
      (∀ e ∈ s.m_sharedTextures, e.acceptedOrPadding s.m_nRenderWidth s.m_nRenderHeight) →
      (ingestSequence s ops).m_nRenderWidth = s.m_nRenderWidth ∧
      (ingestSequence s ops).m_nRenderHeight = s.m_nRenderHeight ∧
      ∀ e ∈ (ingestSequence s ops).m_sharedTextures,
        e.acceptedOrPadding s.m_nRenderWidth s.m_nRenderHeight := by
  induction ops with
  | nil => intro s h; exact ⟨rfl, rfl, h⟩
  | cons op ops ih =>
    intro s h
    obtain ⟨index, vulkanData⟩ := op
    have h1 := StoreSharedTexture_entries s index vulkanData
    have h2 := ih (StoreSharedTexture s index vulkanData) (by
      rw [h1.1, h1.2.1]
      intro e he
      rcases h1.2.2 e he with h3 | h3 | h3
      · exact h e h3
      · exact Or.inr h3
      · exact Or.inl h3)
    rw [h1.1, h1.2.1] at h2
    exact h2

/-- C21 as stated fails: on the initialised engine (render-target size 1440 x 1600, no
source texture) one ingest of a 2880 x 1600 texture at index 1 grows the list to two
entries, and entry 0 is value-initialised: its width 0 and height 0 are below the
render-target size, which is still 1440 x 1600. -/
theorem C21_counterexample :
    initialisedEngine.m_sharedTextures = [] ∧
    GetRecommendedRenderTargetSize initialisedEngine = (1440, 1600) ∧
    GetRecommendedRenderTargetSize
      (ingestSequence initialisedEngine
        [(1, some (eyeTextureSized VK_FORMAT_B8G8R8A8_SRGB 2880 1600))]) = (1440, 1600) ∧
    (ingestSequence initialisedEngine
      [(1, some (eyeTextureSized VK_FORMAT_B8G8R8A8_SRGB 2880 1600))]).m_sharedTextures.map
        (fun e => (e.sourceImage, e.width, e.height)) = [(0, 0, 0), (11, 2880, 1600)] := by
  decide

/-- C21 (amended): starting from an empty source-texture list, every sequence of
`StoreSharedTexture` calls leaves the render-target size as it is, and every entry of the
source-texture list after it either has a width and a height of at least the render-target
width and height, or is a value-initialised entry (null image, width 0, height 0). -/
theorem C21_entries_accepted_or_padding (s : OpenXRDirectMode)
    (ops : List (Int × Option VulkanTextureData)) (hempty : s.m_sharedTextures = []) :
    GetRecommendedRenderTargetSize (ingestSequence s ops) = GetRecommendedRenderTargetSize s ∧
    ∀ e ∈ (ingestSequence s ops).m_sharedTextures,
      (s.m_nRenderWidth ≤ e.width ∧ s.m_nRenderHeight ≤ e.height) ∨ e = default := by
  have h := ingestSequence_entries ops s (by
    rw [hempty]
    intro e he
    exact absurd he (List.not_mem_nil e))
  refine ⟨?_, h.2.2⟩
  unfold GetRecommendedRenderTargetSize
  rw [h.1, h.2.1]

/-- Witness of C21 (amended): on the initialised engine a 2880 x 1600 texture ingested at
index 1, a 512 x 512 texture refused at index 0 and a 1440 x 1600 texture ingested at index
2 leave a value-initialised entry and two accepted entries. -/
theorem C21_entries_accepted_or_padding_witness :
    (ingestSequence initialisedEngine
      [(1, some (eyeTextureSized VK_FORMAT_B8G8R8A8_SRGB 2880 1600)),
       (0, some (eyeTextureSized VK_FORMAT_B8G8R8A8_SRGB 512 512)),
       (2, some (eyeTextureSized VK_FORMAT_B8G8R8A8_SRGB 1440 1600))]).m_sharedTextures.map
        (fun e => (e.width, e.height)) = [(0, 0), (2880, 1600), (1440, 1600)] ∧
    ∀ e ∈ (ingestSequence initialisedEngine
      [(1, some (eyeTextureSized VK_FORMAT_B8G8R8A8_SRGB 2880 1600)),
       (0, some (eyeTextureSized VK_FORMAT_B8G8R8A8_SRGB 512 512)),
       (2, some (eyeTextureSized VK_FORMAT_B8G8R8A8_SRGB 1440 1600))]).m_sharedTextures,
      (initialisedEngine.m_nRenderWidth ≤ e.width ∧ initialisedEngine.m_nRenderHeight ≤ e.height) ∨
        e = default :=
  ⟨by decide,
   (C21_entries_accepted_or_padding initialisedEngine
      [(1, some (eyeTextureSized VK_FORMAT_B8G8R8A8_SRGB 2880 1600)),
       (0, some (eyeTextureSized VK_FORMAT_B8G8R8A8_SRGB 512 512)),
       (2, some (eyeTextureSized VK_FORMAT_B8G8R8A8_SRGB 1440 1600))] (by decide)).2⟩

/-! ### C22: the split copy stays inside the source -/

/-- The surface of an eye below the number of surfaces is an element of the surface list. -/
theorem getD_mem_of_lt {α : Type} (l : List α) (d : α) (n : Nat) (h : n < l.length) :
    l.getD n d ∈ l := by
  rw [List.getD_eq_getElem l d h]
  exact List.getElem_mem h

/-- C22: let surfaces be provisioned successfully from one source texture `tex` of a 32-bit
width W with two views, and let the transfer of the eye `e`, 0 or 1, run in a state `s2`
that has these surfaces and this source texture.  Then the surface width sw of the eye is
floor(W/2); the 32-bit product sw * 2 of line 775 does not overflow and is at most W, so the
split branch is taken: the copy region has the x-offset e * sw, the width sw and the height
of the source; the region stays inside the source, e * sw + sw <= W; and a successful
transfer of the eye records exactly one copy command, with this region. -/
theorem C22_split_region_inside_source (w : Runtime) (s s2 : OpenXRDirectMode)
    (tex : SharedTextureData) (e : Nat)
    (htex : s.m_sharedTextures = [tex]) (hW : tex.width < 2 ^ 32)
    (hviews : reportedViewCount w s = 2) (hok : (CreateEyeSwapchains w s).1 = true)
    (hsurf : s2.m_eyeSwapchains = (CreateEyeSwapchains w s).2.m_eyeSwapchains)
    (htex2 : s2.m_sharedTextures = [tex]) (he : e < 2) :
    (s2.m_eyeSwapchains.getD e default).width = tex.width / 2 ∧
    u32 ((s2.m_eyeSwapchains.getD e default).width * 2) =
      (s2.m_eyeSwapchains.getD e default).width * 2 ∧
    (s2.m_eyeSwapchains.getD e default).width * 2 ≤ tex.width ∧
    CopyToSwapchains_region s2.m_sharedTextures.length
        (s2.m_sharedTextures.getD (if s2.m_sharedTextures.length = 1 then 0 else e) default) e
        (s2.m_eyeSwapchains.getD e default).width =
      (((e * (tex.width / 2) : Nat) : Int), tex.width / 2, tex.height) ∧
    e * (tex.width / 2) + tex.width / 2 ≤ tex.width ∧
    ((CopyToSwapchains_loop w 1 e s2).1 = true →
      (CopyToSwapchains_loop w 1 e s2).2.calls.filter Call.isCopy =
        Call.vkCmdCopyImage (beginSingleTimeCommands w (CopyToSwapchains_acquired s2 e)).1
          tex.sourceImage tex.currentLayout
          ((s2.m_eyeSwapchains.getD e default).images.getD
            (u32 (w.xrAcquireSwapchainImage (Call.xrAcquireSwapchainImage
              (s2.m_eyeSwapchains.getD e default).handle :: s2.calls)).value) 0)
          ((e * (tex.width / 2) : Nat) : Int) (tex.width / 2) tex.height
        :: s2.calls.filter Call.isCopy) := by
  have h := CreateEyeSwapchains_success w s hok
  rw [htex, hviews, CreateEyeSwapchains_size_single] at h
  have hmem : s2.m_eyeSwapchains.getD e default ∈ (CreateEyeSwapchains w s).2.m_eyeSwapchains := by
    rw [hsurf]
    exact getD_mem_of_lt _ _ _ (by rw [h.1]; exact he)
  have hsw : (s2.m_eyeSwapchains.getD e default).width = tex.width / 2 := (h.2 _ hmem).1
  have h2 : 2 * (tex.width / 2) ≤ tex.width := Nat.mul_div_le tex.width 2
  have he1 : e ≤ 1 := Nat.lt_succ_iff.mp he
  have hb : e * (tex.width / 2) + tex.width / 2 ≤ tex.width := by
    have hmul : e * (tex.width / 2) ≤ 1 * (tex.width / 2) := Nat.mul_le_mul_right _ he1
    omega
  have hsrc : s2.m_sharedTextures.getD (if s2.m_sharedTextures.length = 1 then 0 else e) default
      = tex := by
    rw [htex2]
    rfl
  have hlen : s2.m_sharedTextures.length = 1 := by rw [htex2]; rfl
  have hregion : CopyToSwapchains_region s2.m_sharedTextures.length
      (s2.m_sharedTextures.getD (if s2.m_sharedTextures.length = 1 then 0 else e) default) e
      (s2.m_eyeSwapchains.getD e default).width =
      (((e * (tex.width / 2) : Nat) : Int), tex.width / 2, tex.height) := by
    rw [hsrc, hlen, hsw]
    exact CopyToSwapchains_region_split tex e _ hW h2 he1
  refine ⟨hsw, ?_, ?_, hregion, hb, ?_⟩
  · rw [hsw]
    exact Nat.mod_eq_of_lt (by omega)
  · rw [hsw]
    omega
  · intro hcopy
    have hc := CopyToSwapchains_loop_copy w s2 e hcopy
    rw [hregion, hsrc] at hc
    exact hc

/-- Witness of C22: with one 2881 x 1600 source texture (an odd width) both surfaces are
1440 wide, and the transfer of eye 1, after that of eye 0, copies the 1440 columns from the
x-offset 1440; 1440 + 1440 <= 2881. -/
theorem C22_split_region_inside_source_witness :
    ((CopyToSwapchains_loop (okRuntime [VK_FORMAT_B8G8R8A8_SRGB]) 1 0
      (CreateEyeSwapchains (okRuntime [VK_FORMAT_B8G8R8A8_SRGB])
        (readyEngine (okRuntime [VK_FORMAT_B8G8R8A8_SRGB])
          [eyeTextureSized VK_FORMAT_B8G8R8A8_SRGB 2881 1600])).2).2.m_eyeSwapchains.getD 1
        default).width = 2881 / 2 ∧
    CopyToSwapchains_region 1
        { sourceImage := 11, currentLayout := 5, width := 2881, height := 1600,
          format := VK_FORMAT_B8G8R8A8_SRGB } 1 1440 = (1440, 1440, 1600) ∧
    1 * (2881 / 2) + 2881 / 2 ≤ 2881 :=
  have h := C22_split_region_inside_source (okRuntime [VK_FORMAT_B8G8R8A8_SRGB])
    (readyEngine (okRuntime [VK_FORMAT_B8G8R8A8_SRGB])
      [eyeTextureSized VK_FORMAT_B8G8R8A8_SRGB 2881 1600])
    (CopyToSwapchains_loop (okRuntime [VK_FORMAT_B8G8R8A8_SRGB]) 1 0
      (CreateEyeSwapchains (okRuntime [VK_FORMAT_B8G8R8A8_SRGB])
        (readyEngine (okRuntime [VK_FORMAT_B8G8R8A8_SRGB])
          [eyeTextureSized VK_FORMAT_B8G8R8A8_SRGB 2881 1600])).2).2
    { sourceImage := 11, currentLayout := 5, width := 2881, height := 1600,
      format := VK_FORMAT_B8G8R8A8_SRGB } 1
    (by decide) (by decide) (by decide) (by decide) (by decide) (by decide) (by decide)
  ⟨h.1, h.2.2.2.1, h.2.2.2.2.1⟩

/-! ### C23: the view array, the projection-view array and the surface list -/

/-- A state with the array sizes of an aligned state is aligned. -/
theorem arraysAligned_of_lengths (s s1 : OpenXRDirectMode)
    (h : arrayLengths s1 = arrayLengths s) (ha : arraysAligned s) : arraysAligned s1 := by
  unfold arrayLengths at h
  simp only [Prod.mk.injEq] at h
  obtain ⟨hv, hp, hl⟩ := h
  intro hne
  have hne0 : s.m_eyeSwapchains ≠ [] := by
    intro h0
    rw [h0] at hl
    exact hne (List.length_eq_zero.mp hl)
  rw [hv, hp, hl]
  exact ha hne0

/-- Function `Init` does not resize the three arrays. -/
theorem Init_arrayLengths (w : Runtime) (s : OpenXRDirectMode)
    (inst systemId session space : Nat) :
    arrayLengths (Init w s inst systemId session space).2 = arrayLengths s := by
  have hv : ∀ s3 : OpenXRDirectMode,
      arrayLengths (Init_viewConfiguration w s3).2 = arrayLengths s3 := by
    intro s3
    unfold Init_viewConfiguration
    dsimp only [call]
    split_ifs <;> rfl
  unfold Init InitAux
  dsimp only [call]
  split_ifs
  · rfl
  · rfl
  · rw [hv]
    rfl

/-- Function `StoreSharedTexture` does not resize the three arrays. -/
theorem StoreSharedTexture_arrayLengths (s : OpenXRDirectMode) (index : Int)
    (d : Option VulkanTextureData) :
    arrayLengths (StoreSharedTexture s index d) = arrayLengths s := by
  unfold StoreSharedTexture
  cases d with
  | none => rfl
  | some d =>
    dsimp only [call]
    split_ifs <;> rfl

/-- Function `WaitPoses` does not resize the three arrays. -/
theorem WaitPoses_arrayLengths (w : Runtime) (s : OpenXRDirectMode) :
    arrayLengths (WaitPoses w s).2 = arrayLengths s := by
  unfold arrayLengths
  rw [WaitPoses_views_length, (WaitPoses_surfaces w s).1]
  unfold WaitPoses
  dsimp only [call]
  split_ifs <;> rfl

/-- Function `PostPresentCallback` does not resize the three arrays. -/
theorem PostPresentCallback_arrayLengths (w : Runtime) (s : OpenXRDirectMode) :
    arrayLengths (PostPresentCallback w s) = arrayLengths s := by
  unfold PostPresentCallback
  split_ifs
  · rfl
  · exact WaitPoses_arrayLengths w s
  · rfl

/-- The transfer loop does not resize the three arrays. -/
theorem CopyToSwapchains_loop_arrayLengths (w : Runtime) (n i : Nat) (s : OpenXRDirectMode) :
    arrayLengths (CopyToSwapchains_loop w n i s).2 = arrayLengths s := by
  unfold arrayLengths
  rw [CopyToSwapchains_loop_views, (CopyToSwapchains_loop_frame w n i s).1,
    (CopyToSwapchains_loop_frame w n i s).2.2.1]

/-- The transfer does not resize the three arrays. -/
theorem CopyToSwapchains_arrayLengths (w : Runtime) (s : OpenXRDirectMode) :
    arrayLengths (CopyToSwapchains w s).2 = arrayLengths s := by
  unfold arrayLengths
  rw [CopyToSwapchains_views, (CopyToSwapchains_frame w s).1, (CopyToSwapchains_frame w s).2.2.1]

/-- The swapchain-creation loop does not touch the projection-view array. -/
theorem CreateEyeSwapchains_loop_projectionViews (w : Runtime) (sw sh : Nat) (f : Int) (n : Nat) :
    ∀ (i : Nat) (s : OpenXRDirectMode),
      (CreateEyeSwapchains_loop w sw sh f n i s).2.m_projectionViews = s.m_projectionViews := by
  induction n with
  | zero => intro i s; rfl
  | succ n ih =>
    intro i s
    unfold CreateEyeSwapchains_loop
    dsimp only [call]
    split_ifs <;> first | rfl | rw [ih]

/-- Function `CreateEyeSwapchains` leaves the three arrays as they are or resizes all three
to the view count: an aligned state stays aligned. -/
theorem CreateEyeSwapchains_aligned (w : Runtime) (s : OpenXRDirectMode)
    (ha : arraysAligned s) : arraysAligned (CreateEyeSwapchains w s).2 := by
  unfold CreateEyeSwapchains
  dsimp only [call]
  split_ifs
  · exact ha
  · exact ha
  · exact ha
  · exact ha
  · intro _
    rw [CreateEyeSwapchains_loop_views, CreateEyeSwapchains_loop_projectionViews,
      CreateEyeSwapchains_loop_length]
    dsimp only
    rw [length_resize, length_resize, length_resize]
    exact ⟨rfl, rfl⟩

/-- The provisioning step of `EndFrame` keeps an aligned state aligned. -/
theorem EndFrame_provision_aligned (w : Runtime) (s : OpenXRDirectMode)
    (ha : arraysAligned s) : arraysAligned (EndFrame_provision w s).2 := by
  unfold EndFrame_provision
  exact snd_ite_of (P := arraysAligned) (CreateEyeSwapchains_aligned w s ha) ha

/-- The step of `EndFrame` that creates default views keeps an aligned state aligned: it
resizes only when the view array is empty, that is when there is no surface. -/
theorem EndFrame_ensureViews_aligned (s : OpenXRDirectMode) (ha : arraysAligned s) :
    arraysAligned (EndFrame_ensureViews s) := by
  unfold EndFrame_ensureViews
  split_ifs with h
  · intro hne
    have hne0 : s.m_eyeSwapchains ≠ [] := hne
    have hv : s.m_views = [] := List.isEmpty_iff.mp h
    have hl := (ha hne0).1
    rw [hv] at hl
    exact absurd (List.length_eq_zero.mp hl.symm) hne0
  · exact ha

/-- The projection step of `EndFrame` does not resize the three arrays. -/
theorem EndFrame_projection_arrayLengths (s : OpenXRDirectMode) :
    arrayLengths (EndFrame_projection s) = arrayLengths s := by
  have hv : (EndFrame_projection s).m_views = s.m_views := by
    unfold EndFrame_projection
    split_ifs
    · exact EndFrame_buildProjectionViews_views _ _ _
    · rfl
  unfold arrayLengths
  rw [hv, (EndFrame_projection_frame s).1, (EndFrame_projection_frame s).2.1]

/-- The submission part of `EndFrame` keeps an aligned state aligned. -/
theorem EndFrame_submit_aligned (w : Runtime) (s : OpenXRDirectMode) (ha : arraysAligned s) :
    arraysAligned (EndFrame_submit w s).2 := by
  have h4 : arraysAligned (EndFrame_projection (EndFrame_ensureViews s)) :=
    arraysAligned_of_lengths _ _ (EndFrame_projection_arrayLengths _)
      (EndFrame_ensureViews_aligned s ha)
  unfold EndFrame_submit
  dsimp only [call]
  exact snd_ite_of (P := arraysAligned) h4 h4

/-- The transfer step of `EndFrame` keeps an aligned state aligned. -/
theorem EndFrame_transfer_aligned (w : Runtime) (s : OpenXRDirectMode) (ha : arraysAligned s) :
    arraysAligned (EndFrame_transfer w s).2 := by
  have hp := EndFrame_provision_aligned w s ha
  unfold EndFrame_transfer
  exact snd_ite_of (P := arraysAligned) hp
    (snd_ite_of (P := arraysAligned)
      (arraysAligned_of_lengths _ _ (CopyToSwapchains_arrayLengths w _) hp) hp)

/-- Function `EndFrame` keeps an aligned state aligned. -/
theorem EndFrame_aligned (w : Runtime) (s : OpenXRDirectMode) (ha : arraysAligned s) :
    arraysAligned (EndFrame w s).2 := by
  have hp := EndFrame_provision_aligned w s ha
  have ht : arraysAligned (if (!(EndFrame_provision w s).2.m_eyeSwapchains.isEmpty) = true
      then CopyToSwapchains w (EndFrame_provision w s).2
      else (true, (EndFrame_provision w s).2)).2 :=
    snd_ite_of (P := arraysAligned)
      (arraysAligned_of_lengths _ _ (CopyToSwapchains_arrayLengths w _) hp) hp
  by_cases hs : s.m_session = 0
  · unfold EndFrame
    rw [if_pos hs]
    exact ha
  by_cases hf : s.m_bFrameStarted = true
  · rw [EndFrame_eq w s hs hf]
    dsimp only
    exact snd_ite_of (P := arraysAligned) hp
      (snd_ite_of (P := arraysAligned) ht (EndFrame_submit_aligned w _ ht))
  · unfold EndFrame
    rw [if_neg hs, if_pos (by simpa using hf)]
    exact ha

/-- In every reachable engine state the three arrays are aligned. -/
theorem Reachable.arraysAligned (w : Runtime) (s : OpenXRDirectMode) (h : Reachable w s) :
    arraysAligned s := by
  induction h with
  | construct systemId viewStateFlags =>
    intro hne
    exact absurd rfl hne
  | init s inst systemId session space _ ih =>
    exact arraysAligned_of_lengths _ _ (Init_arrayLengths w s inst systemId session space) ih
  | storeSharedTexture s index d _ ih =>
    exact arraysAligned_of_lengths _ _ (StoreSharedTexture_arrayLengths s index d) ih
  | prePresent s _ ih =>
    unfold PrePresent
    split_ifs
    · exact ih
    · exact ih
  | postPresent s _ ih =>
    unfold PostPresent
    split_ifs <;> exact ih
  | prePresentCallBack s _ ih =>
    unfold PrePresentCallBack
    split_ifs
    · exact ih
    · exact EndFrame_aligned w s ih
  | postPresentCallback s _ ih =>
    exact arraysAligned_of_lengths _ _ (PostPresentCallback_arrayLengths w s) ih
  | beginFrame s s1 r _ hb ih =>
    unfold BeginFrame at hb
    split_ifs at hb <;> simp only [Option.some.injEq, Prod.mk.injEq] at hb <;>
      (rw [← hb.2]; exact ih)
  | endFrame s _ ih => exact EndFrame_aligned w s ih
  | getViews s s1 r _ hg ih =>
    unfold GetViews at hg
    split_ifs at hg
    simp only [Option.some.injEq, Prod.mk.injEq] at hg
    rw [← hg.2]
    exact ih

/-- C23: in every engine state reachable through the public member functions in which the
surface list is non-empty, the view array, the projection-view array and the surface list
have the same length, so every index below the number of surfaces is in bounds of the view
array and of the projection-view array.  The same holds inside an `EndFrame` called in a
reachable state: in the state in which the transfer treats the eye `k`, for every `k`, and
in the state in which `EndFrame` builds the projection views. -/
theorem C23_arrays_in_bounds (w : Runtime) (s : OpenXRDirectMode) (h : Reachable w s) :
    (s.m_eyeSwapchains ≠ [] →
      s.m_views.length = s.m_eyeSwapchains.length ∧
      s.m_projectionViews.length = s.m_eyeSwapchains.length ∧
      ∀ eyeIndex : Nat, eyeIndex < s.m_eyeSwapchains.length →
        eyeIndex < s.m_views.length ∧ eyeIndex < s.m_projectionViews.length) ∧
    (∀ k : Nat, arraysAligned (CopyToSwapchains_loop w k 0 (EndFrame_provision w s).2).2) ∧
    arraysAligned (EndFrame_ensureViews (EndFrame_transfer w s).2) := by
  have ha := Reachable.arraysAligned w s h
  refine ⟨fun hne => ?_, fun k => ?_, ?_⟩
  · obtain ⟨hv, hp⟩ := ha hne
    refine ⟨hv, hp, fun eyeIndex hlt => ?_⟩
    rw [hv, hp]
    exact ⟨hlt, hlt⟩
  · exact arraysAligned_of_lengths _ _ (CopyToSwapchains_loop_arrayLengths w k 0 _)
      (EndFrame_provision_aligned w s ha)
  · exact EndFrame_ensureViews_aligned _ (EndFrame_transfer_aligned w s ha)

/-- Witness of C23: the engine after `Init`, the ingest of one 2880 x 1600 texture, one
`PostPresentCallback` and one `EndFrame` on `okRuntime` is reachable and has two surfaces,
two views and two projection views. -/
theorem C23_arrays_in_bounds_witness :
    (EndFrame (okRuntime [VK_FORMAT_B8G8R8A8_SRGB])
      (readyEngine (okRuntime [VK_FORMAT_B8G8R8A8_SRGB])
        [eyeTextureSized VK_FORMAT_B8G8R8A8_SRGB 2880 1600])).2.m_eyeSwapchains.length = 2 ∧
    (EndFrame (okRuntime [VK_FORMAT_B8G8R8A8_SRGB])
      (readyEngine (okRuntime [VK_FORMAT_B8G8R8A8_SRGB])
        [eyeTextureSized VK_FORMAT_B8G8R8A8_SRGB 2880 1600])).2.m_views.length =
      (EndFrame (okRuntime [VK_FORMAT_B8G8R8A8_SRGB])
        (readyEngine (okRuntime [VK_FORMAT_B8G8R8A8_SRGB])
          [eyeTextureSized VK_FORMAT_B8G8R8A8_SRGB 2880 1600])).2.m_eyeSwapchains.length ∧
    (EndFrame (okRuntime [VK_FORMAT_B8G8R8A8_SRGB])
      (readyEngine (okRuntime [VK_FORMAT_B8G8R8A8_SRGB])
        [eyeTextureSized VK_FORMAT_B8G8R8A8_SRGB 2880 1600])).2.m_projectionViews.length =
      (EndFrame (okRuntime [VK_FORMAT_B8G8R8A8_SRGB])
        (readyEngine (okRuntime [VK_FORMAT_B8G8R8A8_SRGB])
          [eyeTextureSized VK_FORMAT_B8G8R8A8_SRGB 2880 1600])).2.m_eyeSwapchains.length :=
  have h := (C23_arrays_in_bounds (okRuntime [VK_FORMAT_B8G8R8A8_SRGB])
    (EndFrame (okRuntime [VK_FORMAT_B8G8R8A8_SRGB])
      (readyEngine (okRuntime [VK_FORMAT_B8G8R8A8_SRGB])
        [eyeTextureSized VK_FORMAT_B8G8R8A8_SRGB 2880 1600])).2
    (Reachable.endFrame _
      (Reachable.postPresentCallback _
        (Reachable.storeSharedTexture _ 0
          (some (eyeTextureSized VK_FORMAT_B8G8R8A8_SRGB 2880 1600))
          (Reachable.init _ 1 1 5 9 (Reachable.construct 0 0)))))).1 (by decide)
  ⟨by decide, h.1, h.2.1⟩

end TF2VR
